import Mathlib

/-! Fault sandbox, symbol database and system services of `platform_windows.c`, bit scans
and atomics of `platform.h`, performance counters of `perf.h`.

A shallow embedding of the fault sandbox (`platform_exception_sandbox`, its two
handlers `_sandbox_exception_filter` and `_sandbox_abort_filter`, and the stack
capture they use), of the symbol database (`_platform_stack_trace_init`,
`_platform_stack_trace_deinit`, `platform_translate_call_stack`), of
`platform_exception_to_string`, of the bit scans and atomic additions of both
compiler branches, of `perf_end_delta`, `perf_end_atomic_delta` and the variance
of `perf_get_stats`, and of `platform_thread_join`, `_platform_error_code` and
`platform_virtual_reallocate`, together with the properties proved about them.

Conventions of the embedding:
* `int64_t`/`int32_t` values are `Int`, `DWORD` values and addresses are `Nat`;
* the thread-local `sandbox_state`, the process-wide handler tables and the
  symbol database state are fields of one `World` that is passed explicitly;
* operating-system primitives the code calls but does not define
  (`GetSystemTimeAsFileTime`, `StackWalk64`, `AddVectoredExceptionHandler`, the
  dbghelp loader) are fields of `Env`, so every theorem holds for all of them;
  `CaptureStackBackTrace`, `signal`, `raise` and the dispatch of structured
  exceptions are defined by their documented behaviour;
* a definition that carries the plain name of a source function is that
  function as compiled with `NDEBUG`, where `assert` expands to nothing; where
  a claim depends on what a failed `assert` does, the namespace `Build` gives
  the function with `NDEBUG` as an argument;
* the target is x64 (`_M_X64`), the branch of the source that seeds the
  unwinder from `Rip`/`Rsp`.
-/

namespace CLib

/-! ## Data model (platform.h) -/

/-- The enum `Platform_Exception` of platform.h, one constructor per enumerator. -/
inductive Platform_Exception where
  | PLATFORM_EXCEPTION_NONE
  | PLATFORM_EXCEPTION_ACCESS_VIOLATION
  | PLATFORM_EXCEPTION_DATATYPE_MISALIGNMENT
  | PLATFORM_EXCEPTION_FLOAT_DENORMAL_OPERAND
  | PLATFORM_EXCEPTION_FLOAT_DIVIDE_BY_ZERO
  | PLATFORM_EXCEPTION_FLOAT_INEXACT_RESULT
  | PLATFORM_EXCEPTION_FLOAT_INVALID_OPERATION
  | PLATFORM_EXCEPTION_FLOAT_OVERFLOW
  | PLATFORM_EXCEPTION_FLOAT_UNDERFLOW
  | PLATFORM_EXCEPTION_FLOAT_OTHER
  | PLATFORM_EXCEPTION_PAGE_ERROR
  | PLATFORM_EXCEPTION_INT_DIVIDE_BY_ZERO
  | PLATFORM_EXCEPTION_INT_OVERFLOW
  | PLATFORM_EXCEPTION_ILLEGAL_INSTRUCTION
  | PLATFORM_EXCEPTION_PRIVILAGED_INSTRUCTION
  | PLATFORM_EXCEPTION_BREAKPOINT
  | PLATFORM_EXCEPTION_BREAKPOINT_SINGLE_STEP
  | PLATFORM_EXCEPTION_STACK_OVERFLOW
  | PLATFORM_EXCEPTION_ABORT
  | PLATFORM_EXCEPTION_TERMINATE
  | PLATFORM_EXCEPTION_OTHER
  deriving DecidableEq, Repr

open Platform_Exception

/-- The integer value of each enumerator: consecutive from `NONE = 0` up to
`ABORT = 18`, then the two explicit values `TERMINATE = 0x0001000` and
`OTHER = 0x0001001`. -/
def Platform_Exception.value : Platform_Exception → Nat
  | PLATFORM_EXCEPTION_NONE => 0
  | PLATFORM_EXCEPTION_ACCESS_VIOLATION => 1
  | PLATFORM_EXCEPTION_DATATYPE_MISALIGNMENT => 2
  | PLATFORM_EXCEPTION_FLOAT_DENORMAL_OPERAND => 3
  | PLATFORM_EXCEPTION_FLOAT_DIVIDE_BY_ZERO => 4
  | PLATFORM_EXCEPTION_FLOAT_INEXACT_RESULT => 5
  | PLATFORM_EXCEPTION_FLOAT_INVALID_OPERATION => 6
  | PLATFORM_EXCEPTION_FLOAT_OVERFLOW => 7
  | PLATFORM_EXCEPTION_FLOAT_UNDERFLOW => 8
  | PLATFORM_EXCEPTION_FLOAT_OTHER => 9
  | PLATFORM_EXCEPTION_PAGE_ERROR => 10
  | PLATFORM_EXCEPTION_INT_DIVIDE_BY_ZERO => 11
  | PLATFORM_EXCEPTION_INT_OVERFLOW => 12
  | PLATFORM_EXCEPTION_ILLEGAL_INSTRUCTION => 13
  | PLATFORM_EXCEPTION_PRIVILAGED_INSTRUCTION => 14
  | PLATFORM_EXCEPTION_BREAKPOINT => 15
  | PLATFORM_EXCEPTION_BREAKPOINT_SINGLE_STEP => 16
  | PLATFORM_EXCEPTION_STACK_OVERFLOW => 17
  | PLATFORM_EXCEPTION_ABORT => 18
  | PLATFORM_EXCEPTION_TERMINATE => 0x0001000
  | PLATFORM_EXCEPTION_OTHER => 0x0001001

/-! ## Constants of the Windows SDK and the C runtime

The source names these constants and takes their values from `winnt.h`,
`minwinbase.h`, `winbase.h` and `signal.h`; they are reproduced here. -/

def EXCEPTION_ACCESS_VIOLATION : Nat := 0xC0000005
def EXCEPTION_DATATYPE_MISALIGNMENT : Nat := 0x80000002
def EXCEPTION_BREAKPOINT : Nat := 0x80000003
def EXCEPTION_SINGLE_STEP : Nat := 0x80000004
def EXCEPTION_ARRAY_BOUNDS_EXCEEDED : Nat := 0xC000008C
def EXCEPTION_FLT_DENORMAL_OPERAND : Nat := 0xC000008D
def EXCEPTION_FLT_DIVIDE_BY_ZERO : Nat := 0xC000008E
def EXCEPTION_FLT_INEXACT_RESULT : Nat := 0xC000008F
def EXCEPTION_FLT_INVALID_OPERATION : Nat := 0xC0000090
def EXCEPTION_FLT_OVERFLOW : Nat := 0xC0000091
def EXCEPTION_FLT_STACK_CHECK : Nat := 0xC0000092
def EXCEPTION_FLT_UNDERFLOW : Nat := 0xC0000093
def EXCEPTION_INT_DIVIDE_BY_ZERO : Nat := 0xC0000094
def EXCEPTION_INT_OVERFLOW : Nat := 0xC0000095
def EXCEPTION_PRIV_INSTRUCTION : Nat := 0xC0000096
def EXCEPTION_IN_PAGE_ERROR : Nat := 0xC0000006
def EXCEPTION_ILLEGAL_INSTRUCTION : Nat := 0xC000001D
def EXCEPTION_NONCONTINUABLE_EXCEPTION : Nat := 0xC0000025
def EXCEPTION_STACK_OVERFLOW : Nat := 0xC00000FD
def EXCEPTION_INVALID_DISPOSITION : Nat := 0xC0000026
def CONTROL_C_EXIT : Nat := 0xC000013A
def STILL_ACTIVE : Nat := 0x00000103

/-- Filter result: run the `__except` block. -/
def EXCEPTION_EXECUTE_HANDLER : Int := 1
/-- Filter result: pass the exception on to the next handler. -/
def EXCEPTION_CONTINUE_SEARCH : Int := 0
/-- Filter result: resume at the faulting instruction. -/
def EXCEPTION_CONTINUE_EXECUTION : Int := -1

def SIGABRT : Int := 22
def SIGTERM : Int := 15

def SEM_FAILCRITICALERRORS : Nat := 0x0001
def SEM_NOGPFAULTERRORBOX : Nat := 0x0002
def SEM_NOALIGNMENTFAULTEXCEPT : Nat := 0x0004
def SEM_NOOPENFILEERRORBOX : Nat := 0x8000

def SANDBOX_MAX_STACK : Nat := 256
def SANDBOX_JUMP_VALUE : Int := 123
def MAX_MODULES : Nat := 128

/-- The CPU register snapshot `CONTEXT` (x64): the two registers the unwinder
is seeded from and, uninterpreted, everything else. -/
structure CONTEXT where
  Rip : Nat
  Rsp : Nat
  Other : Nat
  deriving DecidableEq, Repr

/-- The value of `sizeof(CONTEXT)` on x64. -/
def sizeof_CONTEXT : Int := 1232

/-- The part of `STACKFRAME64` the walk initialises and reads. -/
structure STACKFRAME64 where
  AddrPC : Nat
  AddrFrame : Nat
  AddrStack : Nat
  deriving DecidableEq, Repr

/-- The struct `FILETIME`: two 32-bit halves of a count of 100 ns ticks. -/
structure FILETIME where
  dwLowDateTime : Nat
  dwHighDateTime : Nat
  deriving DecidableEq, Repr

/-- The struct `EXCEPTION_POINTERS`, flattened: the code of its exception
record and its context record. -/
structure EXCEPTION_POINTERS where
  ExceptionCode : Nat
  ContextRecord : CONTEXT
  deriving DecidableEq, Repr

/-- The struct `Platform_Sandbox_State`: the per-thread state of the sandbox.
`stack` is the fixed array of `SANDBOX_MAX_STACK` addresses; `jump_buffer` is
the checkpoint stored by `setjmp`, represented by the identity of the stack
frame that called `setjmp` (0 when never set). -/
structure Platform_Sandbox_State where
  stack : List Nat
  stack_size : Int
  epoch_time : Int
  exception : Platform_Exception
  signal_handler_depth : Int
  jump_buffer : Nat
  context : CONTEXT
  deriving DecidableEq, Repr

/-- The all-zero value written by `= {0}` and by `memset(&sandbox_state, 0, ...)`. -/
def Platform_Sandbox_State.zero : Platform_Sandbox_State :=
  { stack := List.replicate SANDBOX_MAX_STACK 0
    stack_size := 0
    epoch_time := 0
    exception := PLATFORM_EXCEPTION_NONE
    signal_handler_depth := 0
    jump_buffer := 0
    context := ⟨0, 0, 0⟩ }

/-- The struct `Platform_Sandbox_Error` handed to `error_func`. Pointer fields
are represented by what they point to. The field `call_stack` is declared
`const Platform_Stack_Trace_Entry*`; the only value the driver ever stores in
it is the address of the raw buffer `error_state.stack`, so it is represented
by that array of addresses. -/
structure Platform_Sandbox_Error where
  exception : Platform_Exception
  call_stack : List Nat
  call_stack_size : Int
  execution_context : CONTEXT
  execution_context_size : Int
  epoch_time : Int
  nanosec_offset : Int
  deriving DecidableEq, Repr

/-! ## The world the code runs in -/

/-- A C-runtime signal disposition (`_crt_signal_t`): the default action, ignore,
the sandbox's own handler `_sandbox_abort_filter`, or some other function. -/
inductive Signal_Handler where
  | SIG_DFL
  | SIG_IGN
  | sandbox_abort_filter
  | other (id : Nat)
  deriving DecidableEq, Repr

/-- A `CRITICAL_SECTION`: whether it is initialised and how many times the
thread has entered it without leaving. -/
structure CRITICAL_SECTION where
  initialized : Bool
  lock_count : Nat
  deriving DecidableEq, Repr

/-- The struct `Stack_Trace_State` behind the global `stack_trace_state`. -/
structure Stack_Trace_State where
  lock : CRITICAL_SECTION
  init : Bool
  error : Nat
  deriving DecidableEq, Repr

/-- A call the symbol database code makes to the lock or to the debug-info
backend, recorded in the order made. `SymLoadModuleExW i h` is the registration
of the handle read from `module_handles[i]` (`none` when `i` is past the end of
the array). -/
inductive Sym_Call where
  | InitializeCriticalSection
  | EnterCriticalSection
  | LeaveCriticalSection
  | DeleteCriticalSection
  | SymInitialize
  | SymSetOptions
  | EnumProcessModules
  | SymLoadModuleExW (index : Nat) (handle : Option Nat)
  | SymCleanup
  deriving DecidableEq, Repr

/-- The process-wide symbol database: `stack_trace_state` and the record of
calls made on its behalf. -/
structure Sym_World where
  stack_trace_state : Stack_Trace_State
  calls : List Sym_Call
  deriving DecidableEq, Repr

/-- One invocation of an `error_func` callback: the function called, the
`error_context` passed and the record passed. -/
structure Error_Call where
  error_func : Nat
  error_context : Nat
  error : Platform_Sandbox_Error
  deriving DecidableEq, Repr

/-- Everything the sandbox reads or writes.
* `sandbox_state`: the `__declspec(thread)` variable of the running thread;
* `sym`: the symbol database;
* `vectored_handlers`: handles of the registrations of
  `_sandbox_exception_filter` in the vectored handler chain, first called first;
* `handles_issued`: how many `AddVectoredExceptionHandler` calls were made;
* `error_mode`: the process error mode;
* `signal_table`: the C-runtime disposition of every signal;
* `clock_reads`: how many times the system clock was read;
* `frame`: identity of the active stack frame of the thread (the call depth);
* `error_log`: the `error_func` invocations made so far, oldest first. -/
structure World where
  sandbox_state : Platform_Sandbox_State
  sym : Sym_World
  vectored_handlers : List Nat
  handles_issued : Nat
  error_mode : Nat
  signal_table : Int → Signal_Handler
  clock_reads : Nat
  frame : Nat
  error_log : List Error_Call

/-- The operating-system primitives the code relies on, left arbitrary.
* `GetSystemTimeAsFileTime n`: the clock value returned by the read number `n`;
* `StackWalk64 frame context`: one unwind step, `none` when it reports failure,
  otherwise the updated frame and context;
* `AddVectoredExceptionHandler n`: the handle returned by registration number
  `n` (0 is `NULL`, a failed registration);
* `SymInitialize`, `SymLoadModuleExW i`: whether the backend call succeeds;
* `loaded_modules`: the handles of the modules loaded in the process;
* `GetLastError`: the error code reported after a failed backend call. -/
structure Env where
  GetSystemTimeAsFileTime : Nat → FILETIME
  StackWalk64 : STACKFRAME64 → CONTEXT → Option (STACKFRAME64 × CONTEXT)
  AddVectoredExceptionHandler : Nat → Nat
  SymInitialize : Bool
  SymLoadModuleExW : Nat → Bool
  loaded_modules : List Nat
  GetLastError : Nat

/-- How a piece of code ends: it returns a value, it has raised a structured
exception that no frame inside it handled, a `longjmp` to the checkpoint of
frame `target` is under way (the only `longjmp` of the program passes
`SANDBOX_JUMP_VALUE`), or the process was terminated. -/
inductive Outcome (α : Type) where
  | returned (value : α) (s : World)
  | raised (info : EXCEPTION_POINTERS) (s : World)
  | jumped (target : Nat) (s : World)
  | terminated (s : World)

/-! ## Time (platform_windows.c, lines 274-289) -/

/-- Conversion of a 64-bit unsigned value to `int64_t` (two's complement). -/
def to_int64 (n : Nat) : Int :=
  if n % 2 ^ 64 < 2 ^ 63 then (n % 2 ^ 64 : Nat) else ((n % 2 ^ 64 : Nat) : Int) - 2 ^ 64

/-- The function `_filetime_to_epoch_time`: `ull.QuadPart / 10 - 11644473600000000LL`,
the subtraction carried out in unsigned 64-bit arithmetic and the result
converted to `int64_t`. -/
def _filetime_to_epoch_time (t : FILETIME) : Int :=
  let ull := t.dwLowDateTime % 2 ^ 32 + (t.dwHighDateTime % 2 ^ 32) * 2 ^ 32
  to_int64 ((ull / 10 + (2 ^ 64 - 11644473600000000)) % 2 ^ 64)

/-- The function `platform_epoch_time`: reads the system clock. -/
def platform_epoch_time (env : Env) (s : World) : Int × World :=
  let filetime := env.GetSystemTimeAsFileTime s.clock_reads
  (_filetime_to_epoch_time filetime, { s with clock_reads := s.clock_reads + 1 })

/-! ## Symbol database initialisation (lines 1515-1569) -/

def EnterCriticalSection (w : Sym_World) : Sym_World :=
  { stack_trace_state :=
      { w.stack_trace_state with
        lock := { w.stack_trace_state.lock with
                  lock_count := w.stack_trace_state.lock.lock_count + 1 } }
    calls := w.calls ++ [Sym_Call.EnterCriticalSection] }

def LeaveCriticalSection (w : Sym_World) : Sym_World :=
  { stack_trace_state :=
      { w.stack_trace_state with
        lock := { w.stack_trace_state.lock with
                  lock_count := w.stack_trace_state.lock.lock_count - 1 } }
    calls := w.calls ++ [Sym_Call.LeaveCriticalSection] }

def InitializeCriticalSection (w : Sym_World) : Sym_World :=
  { stack_trace_state := { w.stack_trace_state with lock := ⟨true, 0⟩ }
    calls := w.calls ++ [Sym_Call.InitializeCriticalSection] }

/-- The array `module_handles` after `EnumProcessModules`: `MAX_MODULES` slots,
zero-initialised, the first ones overwritten with as many handles as fit. -/
def module_handles (env : Env) : List Nat :=
  env.loaded_modules.take MAX_MODULES ++
    List.replicate (MAX_MODULES - env.loaded_modules.length) 0

/-- The value `module_handles_size_needed` reported by `EnumProcessModules`:
the byte size of all handles, a `DWORD`. -/
def module_handles_size_needed (env : Env) : Nat :=
  (8 * env.loaded_modules.length) % 2 ^ 32

/-- One iteration of the module loop of `_platform_stack_trace_init`: read
`module_handles[i]`, register it, and record the error code when that fails.
This is the loop body as compiled with `NDEBUG`: `assert(module_handle != 0)`
and the `assert(false)` of the failure branch expand to nothing.
`Build.register_modules` is the loop in either build. -/
def register_module (env : Env) (w : Sym_World) (i : Nat) : Sym_World :=
  let module_handle := (module_handles env)[i]?
  let w := { w with calls := w.calls ++ [Sym_Call.SymLoadModuleExW i module_handle] }
  let load_state := env.SymLoadModuleExW i
  if load_state = false then
    { w with stack_trace_state := { w.stack_trace_state with error := env.GetLastError } }
  else w

/-- The function `_platform_stack_trace_init`, as compiled with `NDEBUG`: the
`assert(false)` of the branch taken when `SymInitialize` fails expands to
nothing. `Build._platform_stack_trace_init` is the function in either build. -/
def _platform_stack_trace_init (env : Env) (w : Sym_World) : Sym_World :=
  if w.stack_trace_state.init then w
  else
    let w := InitializeCriticalSection w
    let w := EnterCriticalSection w
    let w := { w with calls := w.calls ++ [Sym_Call.SymInitialize] }
    let w :=
      if env.SymInitialize = false then
        { w with stack_trace_state := { w.stack_trace_state with error := env.GetLastError } }
      else
        let w := { w with calls := w.calls ++ [Sym_Call.SymSetOptions, Sym_Call.EnumProcessModules] }
        let module_count := module_handles_size_needed env / 8
        (List.range module_count).foldl (register_module env) w
    let w := { w with stack_trace_state := { w.stack_trace_state with init := true } }
    LeaveCriticalSection w

/-! ## Stack capture (lines 1503-1510 and 1644-1710) -/

/-- The primitive `CaptureStackBackTrace(FramesToSkip, FramesToCapture, BackTrace, NULL)`
by its documented contract: of the return addresses `call_chain` on the
thread's stack (innermost first) it skips `FramesToSkip`, stores at most
`FramesToCapture` at the start of `BackTrace`, and returns how many it stored. -/
def CaptureStackBackTrace (call_chain : List Nat) (FramesToSkip FramesToCapture : Nat)
    (BackTrace : List Nat) : List Nat × Nat :=
  let captured := (call_chain.drop FramesToSkip).take FramesToCapture
  (captured ++ BackTrace.drop captured.length, captured.length % 2 ^ 16)

/-- The function `platform_capture_call_stack`; `call_chain` is the chain of
return addresses above the call to `CaptureStackBackTrace`. -/
def platform_capture_call_stack (call_chain : List Nat) (stack : List Nat)
    (stack_size skip_count : Int) : List Nat × Int :=
  if stack_size ≤ 0 then (stack, 0)
  else
    let r := CaptureStackBackTrace call_chain
      (((skip_count % 2 ^ 32).toNat + 1) % 2 ^ 32) (stack_size % 2 ^ 32).toNat stack
    (r.1, (r.2 : Int))

/-- The loop of `_platform_stack_trace_walk`. Every iteration consumes one unit
of `fuel`; an iteration either uses up one of the `skip_count` frames or
advances `i`, so `skip_count + frame_count` units are never exhausted. -/
def _platform_stack_trace_walk_loop (env : Env) :
    Nat → STACKFRAME64 → CONTEXT → List Nat → Int → Int → Int → List Nat × Int
  | 0, _, _, frames, _, _, i => (frames, i)
  | fuel + 1, frame, context, frames, frame_count, skip_count, i =>
    if i < frame_count then
      match env.StackWalk64 frame context with
      | none => (frames, i)
      | some (frame, context) =>
        if skip_count > 0 then
          _platform_stack_trace_walk_loop env fuel frame context frames frame_count
            (skip_count - 1) i
        else if frame.AddrPC ≠ 0 then
          _platform_stack_trace_walk_loop env fuel frame context
            (frames.set i.toNat frame.AddrPC) frame_count skip_count (i + 1)
        else (frames, i)
    else (frames, i)

/-- The function `_platform_stack_trace_walk` (x64): returns the written
`frames` buffer and the number of frames stored. -/
def _platform_stack_trace_walk (env : Env) (context : CONTEXT) (image_type : Nat)
    (frames : List Nat) (frame_count skip_count : Int) (w : Sym_World) :
    (List Nat × Int) × Sym_World :=
  let w := _platform_stack_trace_init env w
  let frame : STACKFRAME64 :=
    { AddrPC := context.Rip, AddrFrame := context.Rsp, AddrStack := context.Rsp }
  let _image_type := if image_type = 0 then 0x8664 else image_type
  let w := EnterCriticalSection w
  let r := _platform_stack_trace_walk_loop env (skip_count.toNat + frame_count.toNat)
    frame context frames frame_count skip_count 0
  let w := LeaveCriticalSection w
  (r, w)

/-! ## The two handlers (lines 1736-1854) -/

/-- The function `_sandbox_abort_filter`, the handler installed for `SIGABRT`
and `SIGTERM`; `call_chain` is the chain of return addresses on the thread's
stack when the handler captures it. It either returns or `longjmp`s to
`sandbox_state.jump_buffer`. This is the function as compiled with `NDEBUG`:
the `assert(false && "badly registred signal handler")` that opens the last
branch expands to nothing. `Build._sandbox_abort_filter` is the function in
either build. -/
def _sandbox_abort_filter (env : Env) (signal : Int) (call_chain : List Nat) (s : World) :
    Outcome Unit :=
  let (epoch_time, s) := platform_epoch_time env s
  if s.sandbox_state.signal_handler_depth ≤ 0 then
    Outcome.returned () s
  else
    let curr_state := s.sandbox_state
    let curr_state :=
      if signal = SIGABRT then
        { curr_state with exception := PLATFORM_EXCEPTION_ABORT }
      else if signal = SIGTERM then
        { curr_state with exception := PLATFORM_EXCEPTION_TERMINATE }
      else
        { curr_state with exception := PLATFORM_EXCEPTION_OTHER }
    let captured := platform_capture_call_stack call_chain curr_state.stack SANDBOX_MAX_STACK 1
    let curr_state := { curr_state with stack := captured.1, stack_size := captured.2 }
    let curr_state := { curr_state with epoch_time := epoch_time }
    Outcome.jumped curr_state.jump_buffer { s with sandbox_state := curr_state }

/-- The `switch` of `_sandbox_exception_filter` over the exception code:
`none` for the two codes on which the filter returns
`EXCEPTION_CONTINUE_SEARCH` at once, otherwise the kind assigned to `exception`. -/
def classify (ExceptionCode : Nat) : Option Platform_Exception :=
  if ExceptionCode = CONTROL_C_EXIT then none
  else if ExceptionCode = STILL_ACTIVE then none
  else if ExceptionCode = EXCEPTION_ACCESS_VIOLATION then
    some PLATFORM_EXCEPTION_ACCESS_VIOLATION
  else if ExceptionCode = EXCEPTION_ARRAY_BOUNDS_EXCEEDED then
    some PLATFORM_EXCEPTION_ACCESS_VIOLATION
  else if ExceptionCode = EXCEPTION_BREAKPOINT then
    some PLATFORM_EXCEPTION_BREAKPOINT
  else if ExceptionCode = EXCEPTION_DATATYPE_MISALIGNMENT then
    some PLATFORM_EXCEPTION_DATATYPE_MISALIGNMENT
  else if ExceptionCode = EXCEPTION_FLT_DENORMAL_OPERAND then
    some PLATFORM_EXCEPTION_FLOAT_DENORMAL_OPERAND
  else if ExceptionCode = EXCEPTION_FLT_DIVIDE_BY_ZERO then
    some PLATFORM_EXCEPTION_FLOAT_DIVIDE_BY_ZERO
  else if ExceptionCode = EXCEPTION_FLT_INEXACT_RESULT then
    some PLATFORM_EXCEPTION_FLOAT_INEXACT_RESULT
  else if ExceptionCode = EXCEPTION_FLT_INVALID_OPERATION then
    some PLATFORM_EXCEPTION_FLOAT_INVALID_OPERATION
  else if ExceptionCode = EXCEPTION_FLT_OVERFLOW then
    some PLATFORM_EXCEPTION_FLOAT_OVERFLOW
  else if ExceptionCode = EXCEPTION_FLT_STACK_CHECK then
    some PLATFORM_EXCEPTION_STACK_OVERFLOW
  else if ExceptionCode = EXCEPTION_FLT_UNDERFLOW then
    some PLATFORM_EXCEPTION_FLOAT_UNDERFLOW
  else if ExceptionCode = EXCEPTION_ILLEGAL_INSTRUCTION then
    some PLATFORM_EXCEPTION_ILLEGAL_INSTRUCTION
  else if ExceptionCode = EXCEPTION_IN_PAGE_ERROR then
    some PLATFORM_EXCEPTION_PAGE_ERROR
  else if ExceptionCode = EXCEPTION_INT_DIVIDE_BY_ZERO then
    some PLATFORM_EXCEPTION_INT_DIVIDE_BY_ZERO
  else if ExceptionCode = EXCEPTION_INT_OVERFLOW then
    some PLATFORM_EXCEPTION_INT_OVERFLOW
  else if ExceptionCode = EXCEPTION_INVALID_DISPOSITION then
    some PLATFORM_EXCEPTION_OTHER
  else if ExceptionCode = EXCEPTION_NONCONTINUABLE_EXCEPTION then
    some PLATFORM_EXCEPTION_OTHER
  else if ExceptionCode = EXCEPTION_PRIV_INSTRUCTION then
    some PLATFORM_EXCEPTION_PRIVILAGED_INSTRUCTION
  else if ExceptionCode = EXCEPTION_SINGLE_STEP then
    some PLATFORM_EXCEPTION_BREAKPOINT_SINGLE_STEP
  else if ExceptionCode = EXCEPTION_STACK_OVERFLOW then
    some PLATFORM_EXCEPTION_STACK_OVERFLOW
  else if ExceptionCode = PLATFORM_EXCEPTION_ABORT.value then
    some PLATFORM_EXCEPTION_ABORT
  else if ExceptionCode = PLATFORM_EXCEPTION_TERMINATE.value then
    some PLATFORM_EXCEPTION_TERMINATE
  else
    some PLATFORM_EXCEPTION_OTHER

/-- The function `_sandbox_exception_filter`: the filter result and the world
it leaves. -/
def _sandbox_exception_filter (env : Env) (ExceptionInfo : EXCEPTION_POINTERS) (s : World) :
    Int × World :=
  let (epoch_time, s) := platform_epoch_time env s
  if s.sandbox_state.signal_handler_depth ≤ 0 then
    (EXCEPTION_CONTINUE_SEARCH, s)
  else
    match classify ExceptionInfo.ExceptionCode with
    | none => (EXCEPTION_CONTINUE_SEARCH, s)
    | some exception =>
      let curr_state := s.sandbox_state
      let curr_state := { curr_state with epoch_time := epoch_time }
      let curr_state := { curr_state with exception := exception }
      let curr_state := { curr_state with context := ExceptionInfo.ContextRecord }
      let (walked, sym) := _platform_stack_trace_walk env curr_state.context 0
        curr_state.stack SANDBOX_MAX_STACK 0 s.sym
      let curr_state := { curr_state with stack := walked.1, stack_size := walked.2 }
      (EXCEPTION_EXECUTE_HANDLER, { s with sandbox_state := curr_state, sym := sym })

/-! ## Operating-system and C-runtime services used by the driver -/

/-- The call `AddVectoredExceptionHandler(1, _sandbox_exception_filter)`:
returns the handle and, unless it is `NULL`, puts it first in the chain. -/
def AddVectoredExceptionHandler (env : Env) (s : World) : Nat × World :=
  let handle := env.AddVectoredExceptionHandler s.handles_issued
  let s := { s with handles_issued := s.handles_issued + 1 }
  if handle = 0 then (handle, s)
  else (handle, { s with vectored_handlers := handle :: s.vectored_handlers })

/-- The call `RemoveVectoredExceptionHandler(handle)`. -/
def RemoveVectoredExceptionHandler (handle : Nat) (s : World) : World :=
  { s with vectored_handlers := s.vectored_handlers.erase handle }

/-- The call `SetErrorMode(mode)`: returns the previous mode. -/
def SetErrorMode (mode : Nat) (s : World) : Nat × World :=
  (s.error_mode, { s with error_mode := mode })

/-- The call `signal(sig, func)`: returns the previous disposition. -/
def signal (sig : Int) (func : Signal_Handler) (s : World) : Signal_Handler × World :=
  (s.signal_table sig, { s with signal_table := Function.update s.signal_table sig func })

/-- The dispatch of a structured exception to the vectored handlers, which run
before any frame-based handler. Every registration is of
`_sandbox_exception_filter`, whose result is never
`EXCEPTION_CONTINUE_EXECUTION`, so the search always continues with the next
handler and then with the `__except` filters of the enclosing frames. -/
def call_vectored_handlers (env : Env) (info : EXCEPTION_POINTERS) : List Nat → World → World
  | [], s => s
  | _ :: handlers, s =>
    call_vectored_handlers env info handlers (_sandbox_exception_filter env info s).2

/-- The C-runtime `raise(sig)` (also what `abort()` does for `SIGABRT`): the
default action terminates the process, an ignored signal returns, and a handler
function is called after the disposition was reset to `SIG_DFL`. -/
def raise (env : Env) (sig : Int) (call_chain : List Nat) (s : World) : Outcome Unit :=
  match s.signal_table sig with
  | Signal_Handler.SIG_DFL => Outcome.terminated s
  | Signal_Handler.SIG_IGN => Outcome.returned () s
  | Signal_Handler.sandbox_abort_filter =>
    _sandbox_abort_filter env sig call_chain (signal sig Signal_Handler.SIG_DFL s).2
  | Signal_Handler.other _ => Outcome.returned () (signal sig Signal_Handler.SIG_DFL s).2

/-! ## The driver (lines 1856-1923) -/

/-- What `platform_exception_sandbox` keeps in local variables across the call
of the work. -/
structure Sandbox_Locals where
  vector_exception_handler : Nat
  prev_error_mode : Nat
  prev_abrt : Signal_Handler
  prev_term : Signal_Handler
  prev_state : Platform_Sandbox_State
  caller_frame : Nat

/-- Lines 1862-1876 of `platform_exception_sandbox`: install the handlers, save
and zero `sandbox_state`, raise the depth and store the checkpoint with
`setjmp`. The function runs in a new stack frame. -/
def sandbox_enter (env : Env) (s : World) : Sandbox_Locals × World :=
  let caller_frame := s.frame
  let s := { s with frame := s.frame + 1 }
  let (vector_exception_handler, s) := AddVectoredExceptionHandler env s
  let (prev_error_mode, s) := SetErrorMode
    (SEM_FAILCRITICALERRORS ||| SEM_NOALIGNMENTFAULTEXCEPT ||| SEM_NOGPFAULTERRORBOX
      ||| SEM_NOOPENFILEERRORBOX) s
  let (prev_abrt, s) := signal SIGABRT Signal_Handler.sandbox_abort_filter s
  let (prev_term, s) := signal SIGTERM Signal_Handler.sandbox_abort_filter s
  let prev_state := s.sandbox_state
  let s := { s with sandbox_state := Platform_Sandbox_State.zero }
  let s := { s with sandbox_state :=
    { s.sandbox_state with
      signal_handler_depth := s.sandbox_state.signal_handler_depth + 1 } }
  let s := { s with sandbox_state := { s.sandbox_state with jump_buffer := s.frame } }
  ({ vector_exception_handler, prev_error_mode, prev_abrt, prev_term, prev_state,
     caller_frame }, s)

/-- Lines 1893-1908: when a fault was recorded, copy the state, build the
record and call `error_func` unless it is `NULL`. Returns the kind. -/
def sandbox_report (had_exception : Bool) (error_func : Option Nat) (error_context : Nat)
    (s : World) : Platform_Exception × World :=
  if had_exception then
    let error_state := s.sandbox_state
    let exception := error_state.exception
    let error : Platform_Sandbox_Error :=
      { exception := exception
        call_stack := error_state.stack
        call_stack_size := error_state.stack_size
        execution_context := error_state.context
        execution_context_size := sizeof_CONTEXT
        epoch_time := error_state.epoch_time
        nanosec_offset := 0 }
    match error_func with
    | some f => (exception, { s with error_log := s.error_log ++ [⟨f, error_context, error⟩] })
    | none => (exception, s)
  else (PLATFORM_EXCEPTION_NONE, s)

/-- Lines 1910-1922: lower the depth, restore the saved state, the signal
dispositions and the error mode, remove the vectored handler, and return to
the caller's frame. -/
def sandbox_leave (l : Sandbox_Locals) (s : World) : World :=
  let s := { s with sandbox_state :=
    { s.sandbox_state with
      signal_handler_depth := s.sandbox_state.signal_handler_depth - 1 } }
  let s :=
    if s.sandbox_state.signal_handler_depth < 0 then
      { s with sandbox_state := { s.sandbox_state with signal_handler_depth := 0 } }
    else s
  let s := { s with sandbox_state := l.prev_state }
  let s := (signal SIGABRT l.prev_abrt s).2
  let s := (signal SIGTERM l.prev_term s).2
  let s := (SetErrorMode l.prev_error_mode s).2
  let s :=
    if l.vector_exception_handler ≠ 0 then
      RemoveVectoredExceptionHandler l.vector_exception_handler s
    else s
  { s with frame := l.caller_frame }

/-- The function `platform_exception_sandbox`. The work `sandboxed_func` is any
function of the world; `error_func` is `none` for `NULL` and otherwise the
identity of the callback, whose invocation is recorded in `error_log`. -/
def platform_exception_sandbox (env : Env) (sandboxed_func : World → Outcome Unit)
    (error_func : Option Nat) (error_context : Nat) (s : World) :
    Outcome Platform_Exception :=
  let (l, s) := sandbox_enter env s
  let my_frame := s.frame
  let finish := fun (had_exception : Bool) (s : World) =>
    let (exception, s) := sandbox_report had_exception error_func error_context s
    Outcome.returned exception (sandbox_leave l s)
  match sandboxed_func s with
  | Outcome.returned () s => finish false s
  | Outcome.raised info s =>
    let (disposition, s) := _sandbox_exception_filter env info s
    if disposition = EXCEPTION_EXECUTE_HANDLER then
      finish true { s with frame := my_frame }
    else Outcome.raised info s
  | Outcome.jumped target s =>
    if target = my_frame then finish true { s with frame := my_frame }
    else Outcome.jumped target s
  | Outcome.terminated s => Outcome.terminated s

/-! ## Work functions -/

/-- A work function, described by what it does that the sandbox can observe:
* `done`: it returns;
* `fault info`: it executes an instruction that raises the structured exception
  `info`;
* `raise sig call_chain rest`: it raises the signal `sig` (as `abort()` does
  for `SIGABRT`) while `call_chain` are the return addresses on the stack, and
  goes on with `rest` if the handler returns;
* `sandbox inner error_func error_context rest`: it calls
  `platform_exception_sandbox` on `inner` and goes on with `rest`. -/
inductive Work where
  | done
  | fault (info : EXCEPTION_POINTERS)
  | raise (sig : Int) (call_chain : List Nat) (rest : Work)
  | sandbox (inner : Work) (error_func : Option Nat) (error_context : Nat) (rest : Work)

/-- Running a work function in a world. -/
def Work.run (env : Env) : Work → World → Outcome Unit
  | Work.done, s => Outcome.returned () s
  | Work.fault info, s =>
    Outcome.raised info (call_vectored_handlers env info s.vectored_handlers s)
  | Work.raise sig call_chain rest, s =>
    match CLib.raise env sig call_chain s with
    | Outcome.returned () s => Work.run env rest s
    | Outcome.raised info s => Outcome.raised info s
    | Outcome.jumped target s => Outcome.jumped target s
    | Outcome.terminated s => Outcome.terminated s
  | Work.sandbox inner error_func error_context rest, s =>
    match platform_exception_sandbox env (Work.run env inner) error_func error_context s with
    | Outcome.returned _ s => Work.run env rest s
    | Outcome.raised info s => Outcome.raised info s
    | Outcome.jumped target s => Outcome.jumped target s
    | Outcome.terminated s => Outcome.terminated s

/-! ## Vocabulary of the properties -/

/-- The kind stored in `sandbox_state.exception` once `_sandbox_exception_filter`
has run. -/
def recorded_kind (env : Env) (ExceptionInfo : EXCEPTION_POINTERS) (s : World) :
    Platform_Exception :=
  (_sandbox_exception_filter env ExceptionInfo s).2.sandbox_state.exception

/-- The record `platform_exception_sandbox` builds from its copy `error_state` of
the thread's state (lines 1896-1904). -/
def error_of_state (error_state : Platform_Sandbox_State) : Platform_Sandbox_Error :=
  { exception := error_state.exception
    call_stack := error_state.stack
    call_stack_size := error_state.stack_size
    execution_context := error_state.context
    execution_context_size := sizeof_CONTEXT
    epoch_time := error_state.epoch_time
    nanosec_offset := 0 }

/-- The kind `_sandbox_abort_filter` assigns to a signal (lines 1743-1751). -/
def abort_kind (sig : Int) : Platform_Exception :=
  if sig = SIGABRT then PLATFORM_EXCEPTION_ABORT
  else if sig = SIGTERM then PLATFORM_EXCEPTION_TERMINATE
  else PLATFORM_EXCEPTION_OTHER

/-- The supported set of native codes with the kind documented for each. -/
def documented_kinds : List (Nat × Platform_Exception) :=
  [ (EXCEPTION_ACCESS_VIOLATION, PLATFORM_EXCEPTION_ACCESS_VIOLATION),
    (EXCEPTION_ARRAY_BOUNDS_EXCEEDED, PLATFORM_EXCEPTION_ACCESS_VIOLATION),
    (EXCEPTION_DATATYPE_MISALIGNMENT, PLATFORM_EXCEPTION_DATATYPE_MISALIGNMENT),
    (EXCEPTION_FLT_DENORMAL_OPERAND, PLATFORM_EXCEPTION_FLOAT_DENORMAL_OPERAND),
    (EXCEPTION_FLT_DIVIDE_BY_ZERO, PLATFORM_EXCEPTION_FLOAT_DIVIDE_BY_ZERO),
    (EXCEPTION_FLT_INEXACT_RESULT, PLATFORM_EXCEPTION_FLOAT_INEXACT_RESULT),
    (EXCEPTION_FLT_INVALID_OPERATION, PLATFORM_EXCEPTION_FLOAT_INVALID_OPERATION),
    (EXCEPTION_FLT_OVERFLOW, PLATFORM_EXCEPTION_FLOAT_OVERFLOW),
    (EXCEPTION_FLT_UNDERFLOW, PLATFORM_EXCEPTION_FLOAT_UNDERFLOW),
    (EXCEPTION_FLT_STACK_CHECK, PLATFORM_EXCEPTION_STACK_OVERFLOW),
    (EXCEPTION_STACK_OVERFLOW, PLATFORM_EXCEPTION_STACK_OVERFLOW),
    (EXCEPTION_IN_PAGE_ERROR, PLATFORM_EXCEPTION_PAGE_ERROR),
    (EXCEPTION_INT_DIVIDE_BY_ZERO, PLATFORM_EXCEPTION_INT_DIVIDE_BY_ZERO),
    (EXCEPTION_INT_OVERFLOW, PLATFORM_EXCEPTION_INT_OVERFLOW),
    (EXCEPTION_ILLEGAL_INSTRUCTION, PLATFORM_EXCEPTION_ILLEGAL_INSTRUCTION),
    (EXCEPTION_PRIV_INSTRUCTION, PLATFORM_EXCEPTION_PRIVILAGED_INSTRUCTION),
    (EXCEPTION_BREAKPOINT, PLATFORM_EXCEPTION_BREAKPOINT),
    (EXCEPTION_SINGLE_STEP, PLATFORM_EXCEPTION_BREAKPOINT_SINGLE_STEP) ]

/-- The parts of the world a fault handler leaves alone: the depth and the
checkpoint of `sandbox_state`, the size of its address buffer, and everything
outside `sandbox_state`, the clock and the symbol database. -/
structure Steady (s s' : World) : Prop where
  depth : s'.sandbox_state.signal_handler_depth = s.sandbox_state.signal_handler_depth
  jump : s'.sandbox_state.jump_buffer = s.sandbox_state.jump_buffer
  len : s'.sandbox_state.stack.length = s.sandbox_state.stack.length
  veh : s'.vectored_handlers = s.vectored_handlers
  issued : s'.handles_issued = s.handles_issued
  mode : s'.error_mode = s.error_mode
  table : s'.signal_table = s.signal_table
  frame : s'.frame = s.frame
  log : s'.error_log = s.error_log

/-- How a work function ends when nothing stops it earlier: it returns, it
raises the structured exception `info`, or it raises the signal `sig`. -/
inductive Ending where
  | returns
  | faults (info : EXCEPTION_POINTERS)
  | signals (sig : Int)

/-- The last thing a work function does: nested sandbox calls return to it, so
it is how the remainder after them ends. -/
def Work.ending : Work → Ending
  | Work.done => Ending.returns
  | Work.fault info => Ending.faults info
  | Work.raise sig _ _ => Ending.signals sig
  | Work.sandbox _ _ _ rest => rest.ending

/-- The kind a sandbox call reports for a work that ends this way. -/
def Ending.kind : Ending → Platform_Exception
  | Ending.returns => PLATFORM_EXCEPTION_NONE
  | Ending.faults info => (classify info.ExceptionCode).getD PLATFORM_EXCEPTION_OTHER
  | Ending.signals sig => abort_kind sig

/-- A work function all of whose faults, at every nesting level, are ones the
handlers take: every structured exception has a code other than
`CONTROL_C_EXIT` and `STILL_ACTIVE`, and every signal raised is `SIGABRT` or
`SIGTERM`. -/
def Work.ok : Work → Prop
  | Work.done => True
  | Work.fault info => classify info.ExceptionCode ≠ none
  | Work.raise sig _ _ => sig = SIGABRT ∨ sig = SIGTERM
  | Work.sandbox inner _ _ rest => inner.ok ∧ rest.ok

/-- The `error_func` callbacks passed to the sandbox calls nested in a work
function, at every nesting level. -/
def Work.callbacks : Work → List Nat
  | Work.done => []
  | Work.fault _ => []
  | Work.raise _ _ _ => []
  | Work.sandbox inner error_func _ rest =>
    error_func.toList ++ (inner.callbacks ++ rest.callbacks)

/-- A delivered record whose stack trace fits the buffer: the count is between
0 and `SANDBOX_MAX_STACK` and the buffer still has `SANDBOX_MAX_STACK` slots. -/
def Error_Call.bounded (e : Error_Call) : Prop :=
  0 ≤ e.error.call_stack_size ∧ e.error.call_stack_size ≤ SANDBOX_MAX_STACK ∧
    e.error.call_stack.length = SANDBOX_MAX_STACK

/-- The world of a thread that is running the work of a sandbox call. -/
structure Inside (s : World) : Prop where
  depth : s.sandbox_state.signal_handler_depth = 1
  jump : s.sandbox_state.jump_buffer = s.frame
  len : s.sandbox_state.stack.length = SANDBOX_MAX_STACK
  abrt : s.signal_table SIGABRT = Signal_Handler.sandbox_abort_filter
  term : s.signal_table SIGTERM = Signal_Handler.sandbox_abort_filter

/-- What a completed call leaves as it found it. -/
structure Kept (s s' : World) : Prop where
  state : s'.sandbox_state = s.sandbox_state
  table : s'.signal_table = s.signal_table
  frame : s'.frame = s.frame
  veh : s'.vectored_handlers = s.vectored_handlers
  mode : s'.error_mode = s.error_mode

/-- What a work leaves as it found it even when it ends in a fault. -/
structure Within (s s' : World) : Prop where
  depth : s'.sandbox_state.signal_handler_depth = s.sandbox_state.signal_handler_depth
  jump : s'.sandbox_state.jump_buffer = s.sandbox_state.jump_buffer
  len : s'.sandbox_state.stack.length = s.sandbox_state.stack.length
  veh : s'.vectored_handlers = s.vectored_handlers
  table : ∀ sig, sig ≠ SIGABRT → sig ≠ SIGTERM → s'.signal_table sig = s.signal_table sig

/-- The log of `s'` extends the log of `s` by invocations of callbacks among
`callbacks`, each with a bounded record. -/
def Logged (callbacks : List Nat) (s s' : World) : Prop :=
  ∃ d, s'.error_log = s.error_log ++ d ∧ ∀ e ∈ d, e.error_func ∈ callbacks ∧ e.bounded

/-- The behaviour of running the work `w` in the world `s`, by the way it ends. -/
def Run_Spec (env : Env) (w : Work) (s : World) : Prop :=
  match w.ending with
  | Ending.returns =>
    ∃ s', w.run env s = Outcome.returned () s' ∧ Kept s s' ∧ Logged w.callbacks s s'
  | Ending.faults info =>
    ∃ s', w.run env s = Outcome.raised info s' ∧ Within s s' ∧ Logged w.callbacks s s'
  | Ending.signals sig =>
    ∃ s', w.run env s = Outcome.jumped s.frame s' ∧ Within s s' ∧ Logged w.callbacks s s' ∧
      s'.sandbox_state.exception = abort_kind sig ∧
      0 ≤ s'.sandbox_state.stack_size ∧ s'.sandbox_state.stack_size ≤ SANDBOX_MAX_STACK

/-- The invocation a sandbox call makes itself: none when the work returns or
`error_func` is `NULL`, otherwise one, with a bounded record of the kind. -/
def Own_Report (ending : Ending) (error_func : Option Nat) (error_context : Nat)
    (own : List Error_Call) : Prop :=
  match ending, error_func with
  | Ending.returns, _ => own = []
  | _, none => own = []
  | _, some f => ∃ record, own = [⟨f, error_context, record⟩] ∧
      record.exception = ending.kind ∧ Error_Call.bounded ⟨f, error_context, record⟩

/-- The behaviour of a sandbox call on the work `w` made in the world `s`. -/
def Sandbox_Spec (env : Env) (w : Work) (error_func : Option Nat) (error_context : Nat)
    (s : World) : Prop :=
  ∃ s', platform_exception_sandbox env (w.run env) error_func error_context s
      = Outcome.returned w.ending.kind s' ∧
    Kept s s' ∧
    ∃ d own, s'.error_log = s.error_log ++ (d ++ own) ∧
      (∀ e ∈ d, e.error_func ∈ w.callbacks ∧ e.bounded) ∧
      Own_Report w.ending error_func error_context own

/-! ## Sample inputs -/

/-- A sample environment: the clock starts at 1970-01-01 and advances one
microsecond per read, the unwinder yields one frame per unit of `AddrStack`,
registrations succeed, two modules are loaded. -/
def example_env : Env :=
  { GetSystemTimeAsFileTime := fun n =>
      { dwLowDateTime := (116444736000000000 + 10 * n) % 2 ^ 32
        dwHighDateTime := (116444736000000000 + 10 * n) / 2 ^ 32 }
    StackWalk64 := fun frame context =>
      if frame.AddrStack = 0 then none
      else some ({ frame with AddrPC := frame.AddrPC + 16, AddrStack := frame.AddrStack - 1 },
                 context)
    AddVectoredExceptionHandler := fun n => n + 1
    SymInitialize := true
    SymLoadModuleExW := fun _ => true
    loaded_modules := [0x7FF600000000, 0x7FFA00000000]
    GetLastError := 0 }

/-- A sample world: a thread outside any sandbox in a fresh process. -/
def example_world : World :=
  { sandbox_state := Platform_Sandbox_State.zero
    sym := { stack_trace_state := { lock := ⟨false, 0⟩, init := false, error := 0 }, calls := [] }
    vectored_handlers := []
    handles_issued := 0
    error_mode := 0
    signal_table := fun _ => Signal_Handler.SIG_DFL
    clock_reads := 0
    frame := 0
    error_log := [] }

/-- The world in which the work of a sandbox call made from `example_world`
starts to run. -/
def example_world_inside : World := (sandbox_enter example_env example_world).2

/-- A sample CPU context with two frames to unwind. -/
def example_context : CONTEXT := { Rip := 0x401000, Rsp := 2, Other := 0 }

/-! ## Symbol database teardown and platform lifecycle (lines 1571-1575, 1984-2009) -/

/-- The call `DeleteCriticalSection(&lock)`: the lock is no longer initialised. -/
def DeleteCriticalSection (w : Sym_World) : Sym_World :=
  { stack_trace_state :=
      { w.stack_trace_state with
        lock := { w.stack_trace_state.lock with initialized := false } }
    calls := w.calls ++ [Sym_Call.DeleteCriticalSection] }

/-- The function `_platform_stack_trace_deinit`: `SymCleanup` and
`DeleteCriticalSection`; it assigns nothing else of `stack_trace_state`. -/
def _platform_stack_trace_deinit (w : Sym_World) : Sym_World :=
  let w := { w with calls := w.calls ++ [Sym_Call.SymCleanup] }
  DeleteCriticalSection w

/-- The function `platform_deinit`, as far as the symbol database goes: its
last statement is `_platform_stack_trace_deinit()`; the allocator, the timings
and the string caches it resets before are separate globals. -/
def platform_deinit (w : Sym_World) : Sym_World :=
  _platform_stack_trace_deinit w

/-- The function `platform_init`, as far as the symbol database goes: it calls
`platform_deinit()` first and `_platform_stack_trace_init("")` last. -/
def platform_init (env : Env) (w : Sym_World) : Sym_World :=
  let w := platform_deinit w
  _platform_stack_trace_init env w

/-! ## Names of the kinds (lines 1925-1953) -/

/-- The function `platform_exception_to_string`; the argument is the integer
value of the enum, the `default` label covers every value that is no enumerator. -/
def platform_exception_to_string (error : Nat) : String :=
  if error = PLATFORM_EXCEPTION_NONE.value then "PLATFORM_EXCEPTION_NONE"
  else if error = PLATFORM_EXCEPTION_ACCESS_VIOLATION.value then
    "PLATFORM_EXCEPTION_ACCESS_VIOLATION"
  else if error = PLATFORM_EXCEPTION_DATATYPE_MISALIGNMENT.value then
    "PLATFORM_EXCEPTION_DATATYPE_MISALIGNMENT"
  else if error = PLATFORM_EXCEPTION_FLOAT_DENORMAL_OPERAND.value then
    "PLATFORM_EXCEPTION_FLOAT_DENORMAL_OPERAND"
  else if error = PLATFORM_EXCEPTION_FLOAT_DIVIDE_BY_ZERO.value then
    "PLATFORM_EXCEPTION_FLOAT_DIVIDE_BY_ZERO"
  else if error = PLATFORM_EXCEPTION_FLOAT_INEXACT_RESULT.value then
    "PLATFORM_EXCEPTION_FLOAT_INEXACT_RESULT"
  else if error = PLATFORM_EXCEPTION_FLOAT_INVALID_OPERATION.value then
    "PLATFORM_EXCEPTION_FLOAT_INVALID_OPERATION"
  else if error = PLATFORM_EXCEPTION_FLOAT_OVERFLOW.value then
    "PLATFORM_EXCEPTION_FLOAT_OVERFLOW"
  else if error = PLATFORM_EXCEPTION_FLOAT_UNDERFLOW.value then
    "PLATFORM_EXCEPTION_FLOAT_UNDERFLOW"
  else if error = PLATFORM_EXCEPTION_FLOAT_OTHER.value then
    "PLATFORM_EXCEPTION_FLOAT_OTHER"
  else if error = PLATFORM_EXCEPTION_PAGE_ERROR.value then
    "PLATFORM_EXCEPTION_PAGE_ERROR"
  else if error = PLATFORM_EXCEPTION_INT_DIVIDE_BY_ZERO.value then
    "PLATFORM_EXCEPTION_INT_DIVIDE_BY_ZERO"
  else if error = PLATFORM_EXCEPTION_INT_OVERFLOW.value then
    "PLATFORM_EXCEPTION_INT_OVERFLOW"
  else if error = PLATFORM_EXCEPTION_ILLEGAL_INSTRUCTION.value then
    "PLATFORM_EXCEPTION_ILLEGAL_INSTRUCTION"
  else if error = PLATFORM_EXCEPTION_PRIVILAGED_INSTRUCTION.value then
    "PLATFORM_EXCEPTION_PRIVILAGED_INSTRUCTION"
  else if error = PLATFORM_EXCEPTION_BREAKPOINT.value then
    "PLATFORM_EXCEPTION_BREAKPOINT"
  else if error = PLATFORM_EXCEPTION_BREAKPOINT_SINGLE_STEP.value then
    "PLATFORM_EXCEPTION_BREAKPOINT_SINGLE_STEP"
  else if error = PLATFORM_EXCEPTION_STACK_OVERFLOW.value then
    "PLATFORM_EXCEPTION_STACK_OVERFLOW"
  else if error = PLATFORM_EXCEPTION_ABORT.value then
    "PLATFORM_EXCEPTION_ABORT"
  else if error = PLATFORM_EXCEPTION_TERMINATE.value then
    "PLATFORM_EXCEPTION_TERMINATE"
  else if error = PLATFORM_EXCEPTION_OTHER.value then
    "PLATFORM_EXCEPTION_OTHER"
  else
    "PLATFORM_EXCEPTION_OTHER"

/-- The identifier of each enumerator as written in the enum declaration of
platform.h. -/
def Platform_Exception.identifier : Platform_Exception → String
  | PLATFORM_EXCEPTION_NONE => "PLATFORM_EXCEPTION_NONE"
  | PLATFORM_EXCEPTION_ACCESS_VIOLATION => "PLATFORM_EXCEPTION_ACCESS_VIOLATION"
  | PLATFORM_EXCEPTION_DATATYPE_MISALIGNMENT => "PLATFORM_EXCEPTION_DATATYPE_MISALIGNMENT"
  | PLATFORM_EXCEPTION_FLOAT_DENORMAL_OPERAND => "PLATFORM_EXCEPTION_FLOAT_DENORMAL_OPERAND"
  | PLATFORM_EXCEPTION_FLOAT_DIVIDE_BY_ZERO => "PLATFORM_EXCEPTION_FLOAT_DIVIDE_BY_ZERO"
  | PLATFORM_EXCEPTION_FLOAT_INEXACT_RESULT => "PLATFORM_EXCEPTION_FLOAT_INEXACT_RESULT"
  | PLATFORM_EXCEPTION_FLOAT_INVALID_OPERATION => "PLATFORM_EXCEPTION_FLOAT_INVALID_OPERATION"
  | PLATFORM_EXCEPTION_FLOAT_OVERFLOW => "PLATFORM_EXCEPTION_FLOAT_OVERFLOW"
  | PLATFORM_EXCEPTION_FLOAT_UNDERFLOW => "PLATFORM_EXCEPTION_FLOAT_UNDERFLOW"
  | PLATFORM_EXCEPTION_FLOAT_OTHER => "PLATFORM_EXCEPTION_FLOAT_OTHER"
  | PLATFORM_EXCEPTION_PAGE_ERROR => "PLATFORM_EXCEPTION_PAGE_ERROR"
  | PLATFORM_EXCEPTION_INT_DIVIDE_BY_ZERO => "PLATFORM_EXCEPTION_INT_DIVIDE_BY_ZERO"
  | PLATFORM_EXCEPTION_INT_OVERFLOW => "PLATFORM_EXCEPTION_INT_OVERFLOW"
  | PLATFORM_EXCEPTION_ILLEGAL_INSTRUCTION => "PLATFORM_EXCEPTION_ILLEGAL_INSTRUCTION"
  | PLATFORM_EXCEPTION_PRIVILAGED_INSTRUCTION => "PLATFORM_EXCEPTION_PRIVILAGED_INSTRUCTION"
  | PLATFORM_EXCEPTION_BREAKPOINT => "PLATFORM_EXCEPTION_BREAKPOINT"
  | PLATFORM_EXCEPTION_BREAKPOINT_SINGLE_STEP => "PLATFORM_EXCEPTION_BREAKPOINT_SINGLE_STEP"
  | PLATFORM_EXCEPTION_STACK_OVERFLOW => "PLATFORM_EXCEPTION_STACK_OVERFLOW"
  | PLATFORM_EXCEPTION_ABORT => "PLATFORM_EXCEPTION_ABORT"
  | PLATFORM_EXCEPTION_TERMINATE => "PLATFORM_EXCEPTION_TERMINATE"
  | PLATFORM_EXCEPTION_OTHER => "PLATFORM_EXCEPTION_OTHER"

/-- The struct `Platform_Stack_Trace_Entry`; the three `char[256]` fields are
lists of bytes. -/
structure Platform_Stack_Trace_Entry where
  function : List Nat
  module : List Nat
  file : List Nat
  line : Int
  address : Nat
  deriving DecidableEq, Repr

/-- An entry as `memset(translated, 0, ...)` leaves it. -/
def Platform_Stack_Trace_Entry.zero : Platform_Stack_Trace_Entry :=
  { function := List.replicate 256 0
    module := List.replicate 256 0
    file := List.replicate 256 0
    line := 0
    address := 0 }

/-- The part of `IMAGEHLP_LINE64` the code reads. -/
structure IMAGEHLP_LINE64 where
  LineNumber : Nat
  FileName : List Nat
  deriving DecidableEq, Repr

/-- The answers of the debug-info backend, left arbitrary.
* `SymFromAddr address`: the bytes stored in `symbol_info->Name`, `none` when
  the lookup fails (the buffer keeps the zeroes of the `memset`);
* `UnDecorateSymbolName name`: the bytes it writes to the output buffer;
* `SymGetModuleInfo64 address`: the content of `ImageName`, `none` on failure;
* `SymGetLineFromAddr64 address`: the line record, `none` on failure. -/
structure Dbghelp where
  SymFromAddr : Nat → Option (List Nat)
  UnDecorateSymbolName : List Nat → List Nat
  SymGetModuleInfo64 : Nat → Option (List Nat)
  SymGetLineFromAddr64 : Nat → Option IMAGEHLP_LINE64

/-- The C function `strlen`: the number of bytes before the first zero byte. -/
def strlen (s : List Nat) : Nat := (s.takeWhile (fun c => c ≠ 0)).length

/-- The C function `memmove(dst, src, n)` on a destination array: its first
`n` bytes are replaced by those of `src` (a source shorter than `n` is read as
if followed by zero bytes). -/
def memmove (dst src : List Nat) (n : Nat) : List Nat :=
  ((src ++ List.replicate n 0).take n ++ dst.drop n).take dst.length

/-- The body of the loop of `platform_translate_call_stack` for one address:
from the zeroed `entry` and the `line` record shared by all iterations to the
filled entry and the `line` record left behind. -/
def translate_entry (b : Dbghelp) (line : IMAGEHLP_LINE64) (entry : Platform_Stack_Trace_Entry)
    (address : Nat) : Platform_Stack_Trace_Entry × IMAGEHLP_LINE64 :=
  let entry := { entry with address := address }
  if address = 0 then (entry, line)
  else
    let Name := (b.SymFromAddr address).getD []
    let entry :=
      if Name.headD 0 ≠ 0 then
        let written := b.UnDecorateSymbolName Name
        { entry with function := memmove entry.function written (min written.length 256) }
      else entry
    let entry :=
      match b.SymGetModuleInfo64 address with
      | some ImageName =>
        let copy_size := 256
        let copy_size := if copy_size > 256 - 1 then 256 - 1 else copy_size
        { entry with module := memmove entry.module ImageName copy_size }
      | none => entry
    let r :=
      match b.SymGetLineFromAddr64 address with
      | some found =>
        let line := found
        let entry := { entry with line := line.LineNumber }
        let copy_size := strlen line.FileName
        let copy_size := if copy_size > 256 - 1 then 256 - 1 else copy_size
        ({ entry with file := memmove entry.file line.FileName copy_size }, line)
      | none => (entry, line)
    let entry := r.1
    let entry := { entry with module := entry.module.set (256 - 1) 0 }
    let entry := { entry with file := entry.file.set (256 - 1) 0 }
    let entry := { entry with function := entry.function.set (256 - 1) 0 }
    (entry, r.2)

/-- One iteration of the loop: entry `i` of `translated` is rewritten from
`stack[i]`. -/
def translate_step (b : Dbghelp) (stack : List Nat)
    (st : List Platform_Stack_Trace_Entry × IMAGEHLP_LINE64) (i : Nat) :
    List Platform_Stack_Trace_Entry × IMAGEHLP_LINE64 :=
  let r := translate_entry b st.2 (st.1.getD i Platform_Stack_Trace_Entry.zero) (stack.getD i 0)
  (st.1.set i r.1, r.2)

/-- The function `platform_translate_call_stack`; `stack_size` is the length of
`stack` and the result is the content of `translated[0 .. stack_size)`. -/
def platform_translate_call_stack (env : Env) (b : Dbghelp) (stack : List Nat)
    (w : Sym_World) : List Platform_Stack_Trace_Entry × Sym_World :=
  if stack.length = 0 then ([], w)
  else
    let w := _platform_stack_trace_init env w
    let w := EnterCriticalSection w
    let line : IMAGEHLP_LINE64 := { LineNumber := 0, FileName := [] }
    let translated := List.replicate stack.length Platform_Stack_Trace_Entry.zero
    let r := (List.range stack.length).foldl (translate_step b stack) (translated, line)
    let w := LeaveCriticalSection w
    (r.1, w)

/-! ## Bit scans (platform.h, lines 605-634 and 757-773) -/

/-- The position of the lowest set bit among the low `width` bits, if any. -/
def lowest_set_bit (width mask : Nat) : Option Nat :=
  (List.range width).find? (fun i => mask.testBit i)

/-- The MSVC intrinsic `_BitScanForward(&out, mask)`: stores the position of
the lowest set bit and leaves `out` alone when `mask` is 0. -/
def _BitScanForward (out mask : Nat) : Nat := (lowest_set_bit 32 mask).getD out

/-- The MSVC intrinsic `_BitScanForward64`. -/
def _BitScanForward64 (out mask : Nat) : Nat := (lowest_set_bit 64 mask).getD out

/-- The GCC builtin `__builtin_ctz`: the number of trailing zero bits (the
result for 0 is undefined and taken as 32). -/
def __builtin_ctz (x : Nat) : Nat := (lowest_set_bit 32 x).getD 32

/-- The GCC builtin `__builtin_ctzll`. -/
def __builtin_ctzll (x : Nat) : Nat := (lowest_set_bit 64 x).getD 64

namespace MSVC

/-- The function `platform_find_first_set_bit32` of the `_MSC_VER` branch. -/
def platform_find_first_set_bit32 (num : Nat) : Int :=
  let out := 0
  let out := _BitScanForward out num
  (out : Int)

/-- The function `platform_find_first_set_bit64` of the `_MSC_VER` branch. -/
def platform_find_first_set_bit64 (num : Nat) : Int :=
  let out := 0
  let out := _BitScanForward64 out num
  (out : Int)

end MSVC

namespace GCC

/-- The function `platform_find_first_set_bit32` of the GCC/Clang branch. -/
def platform_find_first_set_bit32 (num : Nat) : Int :=
  32 - (__builtin_ctz num : Int) - 1

/-- The function `platform_find_first_set_bit64` of the GCC/Clang branch. -/
def platform_find_first_set_bit64 (num : Nat) : Int :=
  64 - (__builtin_ctzll num : Int) - 1

end GCC

/-- A sample backend: the address 0x401010 has a symbol, a module and a line
record whose file name is 300 bytes long; no other address resolves. -/
def example_dbghelp : Dbghelp :=
  { SymFromAddr := fun a => if a = 0x401010 then some [109, 97, 105, 110] else none
    UnDecorateSymbolName := fun name => name ++ [0]
    SymGetModuleInfo64 := fun a => if a = 0x401010 then some [97, 46, 101, 120, 101] else none
    SymGetLineFromAddr64 := fun a =>
      if a = 0x401010 then some { LineNumber := 42, FileName := List.replicate 300 99 }
      else none }

/-! ## Bit scans from the high end (platform.h, lines 605-619 and 757-764) -/

/-- The position of the highest set bit among the low `width` bits, if any. -/
def highest_set_bit (width mask : Nat) : Option Nat :=
  (List.range width).reverse.find? (fun i => mask.testBit i)

/-- The MSVC intrinsic `_BitScanReverse(&out, mask)`: stores the position of
the highest set bit and leaves `out` alone when `mask` is 0. -/
def _BitScanReverse (out mask : Nat) : Nat := (highest_set_bit 32 mask).getD out

/-- The MSVC intrinsic `_BitScanReverse64`. -/
def _BitScanReverse64 (out mask : Nat) : Nat := (highest_set_bit 64 mask).getD out

/-- The GCC builtin `__builtin_ffs`: one plus the index of the least
significant set bit, and 0 for the argument 0. -/
def __builtin_ffs (x : Nat) : Nat :=
  match lowest_set_bit 32 x with
  | some i => i + 1
  | none => 0

/-- The GCC builtin `__builtin_ffsll`. -/
def __builtin_ffsll (x : Nat) : Nat :=
  match lowest_set_bit 64 x with
  | some i => i + 1
  | none => 0

namespace MSVC

/-- The function `platform_find_last_set_bit32` of the `_MSC_VER` branch. -/
def platform_find_last_set_bit32 (num : Nat) : Int :=
  let out := 0
  let out := _BitScanReverse out num
  (out : Int)

/-- The function `platform_find_last_set_bit64` of the `_MSC_VER` branch. -/
def platform_find_last_set_bit64 (num : Nat) : Int :=
  let out := 0
  let out := _BitScanReverse64 out num
  (out : Int)

end MSVC

namespace GCC

/-- The function `platform_find_last_set_bit32` of the GCC/Clang branch. -/
def platform_find_last_set_bit32 (num : Nat) : Int :=
  (__builtin_ffs num : Int) - 1

/-- The function `platform_find_last_set_bit64` of the GCC/Clang branch. -/
def platform_find_last_set_bit64 (num : Nat) : Int :=
  (__builtin_ffsll num : Int) - 1

end GCC

/-! ## Atomic additions (platform.h, lines 683-701 and 821-837)

An atomic operation on `*target` executed by the only thread of the program is
a function of the value `*target` holds: it yields the value returned and the
value `*target` holds afterwards. -/

/-- Conversion of an integer to `int64_t` (wrap-around). -/
def wrap_int64 (x : Int) : Int := (x + 2 ^ 63) % 2 ^ 64 - 2 ^ 63

/-- Conversion of an integer to `int32_t` (wrap-around). -/
def wrap_int32 (x : Int) : Int := (x + 2 ^ 31) % 2 ^ 32 - 2 ^ 31

def INT64_MAX : Int := 2 ^ 63 - 1
def INT64_MIN : Int := -(2 ^ 63)

/-- The MSVC intrinsic `_InterlockedExchangeAdd64(Addend, Value)`: adds `Value`
to `*Addend` and returns the initial value of `*Addend`. -/
def _InterlockedExchangeAdd64 (Addend Value : Int) : Int × Int :=
  (Addend, wrap_int64 (Addend + Value))

/-- The MSVC intrinsic `_InterlockedExchangeAdd` on a `long`. -/
def _InterlockedExchangeAdd (Addend Value : Int) : Int × Int :=
  (Addend, wrap_int32 (Addend + Value))

/-- The GCC builtin `__atomic_add_fetch(ptr, val, memorder)`: performs
`*ptr += val` and returns the result of the operation, the new value of
`*ptr`; `wrap` is the conversion to the type of `*ptr`. -/
def __atomic_add_fetch (wrap : Int → Int) (ptr val : Int) : Int × Int :=
  (wrap (ptr + val), wrap (ptr + val))

/-- The GCC builtin `__atomic_sub_fetch(ptr, val, memorder)`: performs
`*ptr -= val` and returns the new value of `*ptr`. -/
def __atomic_sub_fetch (wrap : Int → Int) (ptr val : Int) : Int × Int :=
  (wrap (ptr - val), wrap (ptr - val))

/-- The compare-and-swap of both compiler branches (`_InterlockedCompareExchange64`
compared with `old_value`, resp. `__atomic_compare_exchange_n`): stores
`new_value` when `*target` equals `old_value` and tells whether it did. -/
def platform_atomic_compare_and_swap64 (target old_value new_value : Int) : Bool × Int :=
  if target = old_value then (true, new_value) else (false, target)

namespace MSVC

/-- The function `platform_atomic_add64` of the `_MSC_VER` branch. -/
def platform_atomic_add64 (target value : Int) : Int × Int :=
  _InterlockedExchangeAdd64 target value

/-- The function `platform_atomic_add32` of the `_MSC_VER` branch. -/
def platform_atomic_add32 (target value : Int) : Int × Int :=
  _InterlockedExchangeAdd target value

/-- The function `platform_atomic_sub32` of the `_MSC_VER` branch. -/
def platform_atomic_sub32 (target value : Int) : Int × Int :=
  platform_atomic_add32 target (wrap_int32 (-value))

/-- The function `platform_atomic_sub64` of the `_MSC_VER` branch. -/
def platform_atomic_sub64 (target value : Int) : Int × Int :=
  platform_atomic_add64 target (wrap_int64 (-value))

end MSVC

namespace GCC

/-- The function `platform_atomic_add32` of the GCC/Clang branch. -/
def platform_atomic_add32 (target value : Int) : Int × Int :=
  __atomic_add_fetch wrap_int32 target value

/-- The function `platform_atomic_add64` of the GCC/Clang branch. -/
def platform_atomic_add64 (target value : Int) : Int × Int :=
  __atomic_add_fetch wrap_int64 target value

/-- The function `platform_atomic_sub32` of the GCC/Clang branch. -/
def platform_atomic_sub32 (target value : Int) : Int × Int :=
  __atomic_sub_fetch wrap_int32 target value

/-- The function `platform_atomic_sub64` of the GCC/Clang branch. -/
def platform_atomic_sub64 (target value : Int) : Int × Int :=
  __atomic_sub_fetch wrap_int64 target value

end GCC

/-! ## Performance counters (perf.h, lines 148-248; defines.h, lines 34-35) -/

/-- The struct `Perf_Counter`. -/
structure Perf_Counter where
  counter : Int
  runs : Int
  frquency : Int
  mean_estimate : Int
  sum_of_squared_offset_counters : Int
  max_counter : Int
  min_counter : Int
  deriving DecidableEq, Repr

/-- A zero-initialised counter (`Perf_Counter c = {0}`). -/
def Perf_Counter.zero : Perf_Counter :=
  { counter := 0, runs := 0, frquency := 0, mean_estimate := 0,
    sum_of_squared_offset_counters := 0, max_counter := 0, min_counter := 0 }

/-- The macro `MIN(a, b)`: `((a) < (b) ? (a) : (b))`. -/
def MIN (a b : Int) : Int := if a < b then a else b

/-- The macro `MAX(a, b)`: `((a) > (b) ? (a) : (b))`. -/
def MAX (a b : Int) : Int := if a > b then a else b

/-- The function `perf_end_delta`; `platform_perf_counter_frequency` is the
value the function of that name returns. -/
def perf_end_delta (platform_perf_counter_frequency : Int) (counter : Perf_Counter)
    (delta : Int) : Perf_Counter :=
  let runs := counter.runs
  let counter := { counter with runs := wrap_int64 (counter.runs + 1) }
  let counter :=
    if runs = 0 then
      { counter with
        frquency := platform_perf_counter_frequency
        max_counter := INT64_MIN
        min_counter := INT64_MAX
        mean_estimate := delta }
    else counter
  let offset_delta := wrap_int64 (delta - counter.mean_estimate)
  let counter := { counter with counter := wrap_int64 (counter.counter + delta) }
  let squared := wrap_int64 (offset_delta * offset_delta)
  let counter := { counter with sum_of_squared_offset_counters := wrap_int64 (counter.sum_of_squared_offset_counters + squared) }
  let counter := { counter with min_counter := MIN counter.min_counter delta }
  { counter with max_counter := MAX counter.max_counter delta }

/-- The loop `do { if(*slot <= delta) break; } while(cas(slot, *slot, delta) == false)`
of `perf_end_atomic_delta`; one unit of `fuel` per iteration. -/
def lower_to : Nat → Int → Int → Int
  | 0, slot, _ => slot
  | fuel + 1, slot, delta =>
    if slot ≤ delta then slot
    else
      let r := platform_atomic_compare_and_swap64 slot slot delta
      if r.1 = false then lower_to fuel r.2 delta else r.2

/-- The loop `do { if(*slot >= delta) break; } while(cas(slot, *slot, delta) == false)`
of `perf_end_atomic_delta`. -/
def raise_to : Nat → Int → Int → Int
  | 0, slot, _ => slot
  | fuel + 1, slot, delta =>
    if slot ≥ delta then slot
    else
      let r := platform_atomic_compare_and_swap64 slot slot delta
      if r.1 = false then raise_to fuel r.2 delta else r.2

/-- The function `perf_end_atomic_delta`, run by a single thread, over the
implementation `platform_atomic_add64` of the atomic addition that the
compiler branch supplies; it returns `runs` and the updated counter. -/
def perf_end_atomic_delta (platform_atomic_add64 : Int → Int → Int × Int)
    (platform_perf_counter_frequency : Int) (counter : Perf_Counter) (delta : Int)
    (detailed : Bool) : Int × Perf_Counter :=
  let r := platform_atomic_add64 counter.runs 1
  let runs := r.1
  let counter := { counter with runs := r.2 }
  let counter :=
    if runs = 0 then
      { counter with
        frquency := platform_perf_counter_frequency
        max_counter := INT64_MIN
        min_counter := INT64_MAX
        mean_estimate := delta }
    else counter
  let counter := { counter with counter := (platform_atomic_add64 counter.counter delta).2 }
  let counter :=
    if detailed then
      let offset_delta := wrap_int64 (delta - counter.mean_estimate)
      let squared := wrap_int64 (offset_delta * offset_delta)
      let counter := { counter with sum_of_squared_offset_counters := (platform_atomic_add64 counter.sum_of_squared_offset_counters squared).2 }
      let counter := { counter with min_counter := lower_to 1 counter.min_counter delta }
      { counter with max_counter := raise_to 1 counter.max_counter delta }
    else counter
  (runs, counter)

/-- The first assertion of `perf_get_stats`:
`counter.min_counter * counter.runs <= counter.counter`. -/
def perf_get_stats_assert_min (counter : Perf_Counter) : Bool :=
  decide (wrap_int64 (counter.min_counter * counter.runs) ≤ counter.counter)

/-- The second assertion of `perf_get_stats`:
`counter.max_counter * counter.runs >= counter.counter`. -/
def perf_get_stats_assert_max (counter : Perf_Counter) : Bool :=
  decide (wrap_int64 (counter.max_counter * counter.runs) ≥ counter.counter)

/-- The value `varience_ns` of `perf_get_stats` (computed when `runs > 1`),
the `double` operations carried out exactly, over the rationals:
`(sum2 - (sum * sum) / n) / (n - 1.0)`. -/
def perf_get_stats_varience_ns (counter : Perf_Counter) : ℚ :=
  let n : ℚ := counter.runs
  let sum : ℚ := counter.counter
  let sum2 : ℚ := counter.sum_of_squared_offset_counters
  (sum2 - (sum * sum) / n) / (n - 1)

/-- The unbiased sample variance of a list of deltas: the sum of the squared
distances from the mean, divided by `n - 1`. -/
def sample_variance (deltas : List Int) : ℚ :=
  let n : ℚ := deltas.length
  let mean : ℚ := (deltas.map (fun d => (d : ℚ))).sum / n
  (deltas.map (fun d => ((d : ℚ) - mean) ^ 2)).sum / (n - 1)

/-! ## Joining threads (platform_windows.c, lines 165-184) -/

/-- A wait call made by `platform_thread_join`. A handle is `some h` when it
was read from a slot of the `threads` array and `none` when the slot read lies
outside the array. -/
inductive Wait_Call where
  | WaitForSingleObject (handle : Option Nat)
  | WaitForMultipleObjects (nCount : Nat) (handles : List (Option Nat))
  deriving DecidableEq, Repr

/-- The outer loop of `platform_thread_join`; one unit of `fuel` per iteration.
The inner loop `for(; handle_count < 256; handle_count ++, i++)` fills all 256
slots of `handles` from `threads[i]`, `threads[i + 1]`, and so on. -/
def platform_thread_join_loop (threads : List Nat) (count : Int) : Nat → Int → List Wait_Call
  | 0, _ => []
  | fuel + 1, i =>
    if i < count then
      let handles := (List.range 256).map
        (fun (handle_count : Nat) => threads[(i + (handle_count : Int)).toNat]?)
      let handle_count := 256
      Wait_Call.WaitForMultipleObjects (handle_count % 2 ^ 32) handles
        :: platform_thread_join_loop threads count fuel (i + 256)
    else []

/-- The function `platform_thread_join`: the wait calls it makes, in order;
`threads` holds the handles of the array passed. -/
def platform_thread_join (threads : List Nat) (count : Int) : List Wait_Call :=
  if count = 1 then [Wait_Call.WaitForSingleObject threads[0]?]
  else platform_thread_join_loop threads count count.toNat 0

/-! ## Error codes (platform.h, lines 140-145; platform_windows.c, lines 102-114) -/

def PLATFORM_ERROR_OK : Nat := 0
/-- The enumerator `PLATFORM_ERROR_OTHER = INT32_MAX`. -/
def PLATFORM_ERROR_OTHER : Nat := 2 ^ 31 - 1

/-- The function `_platform_error_code`; `Platform_Error` is `uint32_t`. -/
def _platform_error_code (env : Env) (state : Bool) : Nat :=
  let err := PLATFORM_ERROR_OK
  if !state then
    let err := env.GetLastError % 2 ^ 32
    if err = 0 then PLATFORM_ERROR_OTHER else err
  else err

/-! ## Virtual memory (platform.h, lines 114-128; platform_windows.c, lines 42-77) -/

def PLATFORM_VIRTUAL_ALLOC_RESERVE : Nat := 0
def PLATFORM_VIRTUAL_ALLOC_COMMIT : Nat := 1
def PLATFORM_VIRTUAL_ALLOC_DECOMMIT : Nat := 2
def PLATFORM_VIRTUAL_ALLOC_RELEASE : Nat := 3

def PLATFORM_MEMORY_PROT_NO_ACCESS : Nat := 0
def PLATFORM_MEMORY_PROT_READ : Nat := 1
def PLATFORM_MEMORY_PROT_WRITE : Nat := 2
def PLATFORM_MEMORY_PROT_READ_WRITE : Nat := 3

def PAGE_NOACCESS : Nat := 0x01
def PAGE_READONLY : Nat := 0x02
def PAGE_READWRITE : Nat := 0x04
def PAGE_EXECUTE : Nat := 0x10
def PAGE_EXECUTE_READ : Nat := 0x20
def PAGE_EXECUTE_READWRITE : Nat := 0x40
def MEM_COMMIT : Nat := 0x1000
def MEM_RESERVE : Nat := 0x2000
def MEM_DECOMMIT : Nat := 0x4000
def MEM_RELEASE : Nat := 0x8000

/-- A call `platform_virtual_reallocate` makes to the operating system. -/
inductive Virtual_Call where
  | VirtualFree (lpAddress : Nat) (dwSize : Int) (dwFreeType : Nat)
  | VirtualAlloc (lpAddress : Nat) (dwSize : Int) (flAllocationType flProtect : Nat)
  deriving DecidableEq, Repr

/-- The function `platform_virtual_reallocate`: the pointer returned (0 is
`NULL`) and the call made. `VirtualAlloc` is the operating-system function.
The function refers to an enumerator `PLATFORM_MEMORY_PROT_EXECUTE` that the
enum `Platform_Memory_Protection` of platform.h does not define; its value is
a parameter. -/
def platform_virtual_reallocate (PLATFORM_MEMORY_PROT_EXECUTE : Nat)
    (VirtualAlloc : Nat → Int → Nat → Nat → Nat)
    (adress : Nat) (bytes : Int) (action protection : Nat) : Nat × Virtual_Call :=
  if action = PLATFORM_VIRTUAL_ALLOC_RELEASE then
    (0, Virtual_Call.VirtualFree adress 0 MEM_RELEASE)
  else if action = PLATFORM_VIRTUAL_ALLOC_DECOMMIT then
    (0, Virtual_Call.VirtualFree adress bytes MEM_DECOMMIT)
  else
    let prot := 0
    let prot := if protection = PLATFORM_MEMORY_PROT_READ then PAGE_READONLY else prot
    let prot := if protection &&& PLATFORM_MEMORY_PROT_WRITE ≠ 0 then PAGE_READWRITE else prot
    let prot := if protection = PLATFORM_MEMORY_PROT_EXECUTE then PAGE_EXECUTE else prot
    let prot :=
      if protection = (PLATFORM_MEMORY_PROT_READ ||| PLATFORM_MEMORY_PROT_EXECUTE) then
        PAGE_EXECUTE_READ
      else prot
    -- the value chosen so far is overwritten on both branches of the last `if`/`else`
    let _prot := prot
    let prot :=
      if protection &&& (PLATFORM_MEMORY_PROT_WRITE ||| PLATFORM_MEMORY_PROT_EXECUTE) ≠ 0 then
        PAGE_EXECUTE_READWRITE
      else PAGE_NOACCESS
    if action = PLATFORM_VIRTUAL_ALLOC_RESERVE then
      (VirtualAlloc adress bytes MEM_RESERVE prot,
        Virtual_Call.VirtualAlloc adress bytes MEM_RESERVE prot)
    else
      (VirtualAlloc adress bytes MEM_COMMIT prot,
        Virtual_Call.VirtualAlloc adress bytes MEM_COMMIT prot)

/-! ## Vocabulary of the unwinder and further sample inputs -/

/-- The program counters reported by the first `k` unwind steps from
`frame`/`context`, up to the first step that fails. -/
def unwind_pcs (env : Env) : Nat → STACKFRAME64 → CONTEXT → List Nat
  | 0, _, _ => []
  | k + 1, frame, context =>
    match env.StackWalk64 frame context with
    | none => []
    | some (frame, context) => frame.AddrPC :: unwind_pcs env k frame context

/-- A sample environment of a process with 129 loaded modules. -/
def example_env_crowded : Env :=
  { example_env with loaded_modules := (List.range 129).map (fun i => 0x7FF600000000 + 0x10000 * i) }

/-- The 64-bit tick count a `FILETIME` holds (`ull.QuadPart`). -/
def FILETIME.ticks (t : FILETIME) : Nat :=
  t.dwLowDateTime % 2 ^ 32 + (t.dwHighDateTime % 2 ^ 32) * 2 ^ 32

/-- The counter after `perf_end_delta` has been called with each of `deltas`,
in order, on a zero-initialised counter. -/
def perf_record (platform_perf_counter_frequency : Int) (deltas : List Int) : Perf_Counter :=
  deltas.foldl (perf_end_delta platform_perf_counter_frequency) Perf_Counter.zero

/-- What the walk is to record for `frame_count` slots after skipping
`skip_count` frames: of the program counters of the successful unwind steps
from `context`, those after the first `skip_count`, up to the first that is
zero. -/
def walk_spec (env : Env) (context : CONTEXT) (frame_count skip_count : Nat) : List Nat :=
  ((unwind_pcs env (skip_count + frame_count)
      { AddrPC := context.Rip, AddrFrame := context.Rsp, AddrStack := context.Rsp }
      context).drop skip_count).takeWhile (fun pc => pc ≠ 0)

/-! ## The functions that contain an `assert`, with the build explicit

`_sandbox_abort_filter`, `register_module` and `_platform_stack_trace_init`
above are these functions as compiled with `NDEBUG`, where `assert(e)` expands
to nothing. The definitions of this section take `NDEBUG` as an argument: with
`NDEBUG = false` a failed `assert` calls `abort()` and the function does not
go on. -/

/-- The C-runtime `abort()`, which a failed `assert` calls: it raises `SIGABRT`
and terminates the process when the handler returns. The handler that `raise`
reaches for `SIGABRT` inside a sandbox is `_sandbox_abort_filter` on its
`SIGABRT` branch, which has no `assert` and is the same in every build. -/
def abort (env : Env) (call_chain : List Nat) (s : World) : Outcome Unit :=
  match raise env SIGABRT call_chain s with
  | Outcome.returned () s => Outcome.terminated s
  | Outcome.raised info s => Outcome.raised info s
  | Outcome.jumped target s => Outcome.jumped target s
  | Outcome.terminated s => Outcome.terminated s

/-- How a function of the symbol database ends: it returns, or an `assert`
failed in it and `abort()` was called, leaving the database as given. -/
inductive Sym_Outcome where
  | returned (w : Sym_World)
  | aborted (w : Sym_World)
  deriving DecidableEq, Repr

namespace Build

/-- The function `_sandbox_abort_filter` in the build given by `NDEBUG`;
`abort_chain` is the chain of return addresses on the stack when `abort()`,
called by the failed `assert`, raises `SIGABRT`. -/
def _sandbox_abort_filter (NDEBUG : Bool) (env : Env) (signal : Int)
    (call_chain abort_chain : List Nat) (s : World) : Outcome Unit :=
  let (epoch_time, s) := platform_epoch_time env s
  if s.sandbox_state.signal_handler_depth ≤ 0 then
    Outcome.returned () s
  else
    let curr_state := s.sandbox_state
    let chosen : Option Platform_Sandbox_State :=
      if signal = SIGABRT then
        some { curr_state with exception := PLATFORM_EXCEPTION_ABORT }
      else if signal = SIGTERM then
        some { curr_state with exception := PLATFORM_EXCEPTION_TERMINATE }
      else if NDEBUG = false then
        -- assert(false && "badly registred signal handler") fails
        none
      else
        some { curr_state with exception := PLATFORM_EXCEPTION_OTHER }
    match chosen with
    | none => abort env abort_chain s
    | some curr_state =>
      let captured := platform_capture_call_stack call_chain curr_state.stack SANDBOX_MAX_STACK 1
      let curr_state := { curr_state with stack := captured.1, stack_size := captured.2 }
      let curr_state := { curr_state with epoch_time := epoch_time }
      Outcome.jumped curr_state.jump_buffer { s with sandbox_state := curr_state }

/-- The module loop of `_platform_stack_trace_init` in the build given by
`NDEBUG`, over the indices still to visit: `assert(module_handle != 0)` and the
`assert(false)` of the failure branch end the function when they fail. -/
def register_modules (NDEBUG : Bool) (env : Env) : List Nat → Sym_World → Sym_Outcome
  | [], w => Sym_Outcome.returned w
  | i :: rest, w =>
    let module_handle := (module_handles env)[i]?
    if NDEBUG = false ∧ module_handle = some 0 then
      -- assert(module_handle != 0) fails
      Sym_Outcome.aborted w
    else
      let w := { w with calls := w.calls ++ [Sym_Call.SymLoadModuleExW i module_handle] }
      let load_state := env.SymLoadModuleExW i
      if load_state = false then
        if NDEBUG = false then
          -- assert(false) fails
          Sym_Outcome.aborted w
        else
          register_modules NDEBUG env rest
            { w with stack_trace_state := { w.stack_trace_state with error := env.GetLastError } }
      else register_modules NDEBUG env rest w

/-- The function `_platform_stack_trace_init` in the build given by `NDEBUG`. -/
def _platform_stack_trace_init (NDEBUG : Bool) (env : Env) (w : Sym_World) : Sym_Outcome :=
  if w.stack_trace_state.init then Sym_Outcome.returned w
  else
    let w := InitializeCriticalSection w
    let w := EnterCriticalSection w
    let w := { w with calls := w.calls ++ [Sym_Call.SymInitialize] }
    let registered : Sym_Outcome :=
      if env.SymInitialize = false then
        if NDEBUG = false then
          -- assert(false) fails
          Sym_Outcome.aborted w
        else
          Sym_Outcome.returned
            { w with stack_trace_state := { w.stack_trace_state with error := env.GetLastError } }
      else
        let w := { w with calls := w.calls ++ [Sym_Call.SymSetOptions, Sym_Call.EnumProcessModules] }
        let module_count := module_handles_size_needed env / 8
        register_modules NDEBUG env (List.range module_count) w
    match registered with
    | Sym_Outcome.aborted w => Sym_Outcome.aborted w
    | Sym_Outcome.returned w =>
      let w := { w with stack_trace_state := { w.stack_trace_state with init := true } }
      Sym_Outcome.returned (LeaveCriticalSection w)

end Build

/-! ## Properties -/

theorem walk_loop_bounds (env : Env) (fuel : Nat) :
    ∀ (frame : STACKFRAME64) (context : CONTEXT) (frames : List Nat)
      (frame_count skip_count i : Int), 0 ≤ i → i ≤ frame_count →
      ((_platform_stack_trace_walk_loop env fuel frame context frames frame_count skip_count i).1.length
          = frames.length) ∧
      i ≤ (_platform_stack_trace_walk_loop env fuel frame context frames frame_count skip_count i).2 ∧
      (_platform_stack_trace_walk_loop env fuel frame context frames frame_count skip_count i).2
          ≤ frame_count := by
  induction fuel with
  | zero => intro frame context frames fc sk i h0 h1; simp [_platform_stack_trace_walk_loop, h1]
  | succ n ih =>
    intro frame context frames fc sk i h0 h1
    unfold _platform_stack_trace_walk_loop
    by_cases hlt : i < fc
    · rw [if_pos hlt]
      cases hsw : env.StackWalk64 frame context with
      | none => simp [h1]
      | some p =>
        obtain ⟨f2, c2⟩ := p
        simp only
        by_cases hsk : sk > 0
        · rw [if_pos hsk]
          exact ih f2 c2 frames fc (sk - 1) i h0 h1
        · rw [if_neg hsk]
          by_cases hpc : f2.AddrPC ≠ 0
          · rw [if_pos hpc]
            have := ih f2 c2 (frames.set i.toNat f2.AddrPC) fc sk (i + 1) (by omega) (by omega)
            simp only [List.length_set] at this
            exact ⟨this.1, by omega, this.2.2⟩
          · rw [if_neg hpc]; simp [h1]
    · rw [if_neg hlt]; simp [h1]



theorem steady_refl (s : World) : Steady s s := ⟨rfl, rfl, rfl, rfl, rfl, rfl, rfl, rfl, rfl⟩

theorem steady_trans {a b c : World} (h : Steady a b) (g : Steady b c) : Steady a c :=
  ⟨g.depth.trans h.depth, g.jump.trans h.jump, g.len.trans h.len, g.veh.trans h.veh,
   g.issued.trans h.issued, g.mode.trans h.mode, g.table.trans h.table,
   g.frame.trans h.frame, g.log.trans h.log⟩

theorem walk_bounds (env : Env) (context : CONTEXT) (image_type : Nat) (frames : List Nat)
    (w : Sym_World) :
    (_platform_stack_trace_walk env context image_type frames SANDBOX_MAX_STACK 0 w).1.1.length
        = frames.length ∧
    0 ≤ (_platform_stack_trace_walk env context image_type frames SANDBOX_MAX_STACK 0 w).1.2 ∧
    (_platform_stack_trace_walk env context image_type frames SANDBOX_MAX_STACK 0 w).1.2
        ≤ SANDBOX_MAX_STACK := by
  unfold _platform_stack_trace_walk
  exact walk_loop_bounds env _ _ _ _ _ _ _ (le_refl 0) (by simp [SANDBOX_MAX_STACK])

theorem filter_idle (env : Env) (info : EXCEPTION_POINTERS) (s : World)
    (h : s.sandbox_state.signal_handler_depth ≤ 0) :
    _sandbox_exception_filter env info s
      = (EXCEPTION_CONTINUE_SEARCH, { s with clock_reads := s.clock_reads + 1 }) := by
  simp [_sandbox_exception_filter, platform_epoch_time, h]

theorem filter_pass (env : Env) (info : EXCEPTION_POINTERS) (s : World)
    (h : classify info.ExceptionCode = none) :
    _sandbox_exception_filter env info s
      = (EXCEPTION_CONTINUE_SEARCH, { s with clock_reads := s.clock_reads + 1 }) := by
  simp [_sandbox_exception_filter, platform_epoch_time, h]

theorem filter_active (env : Env) (info : EXCEPTION_POINTERS) (s : World)
    (k : Platform_Exception)
    (hd : 0 < s.sandbox_state.signal_handler_depth)
    (hk : classify info.ExceptionCode = some k) :
    _sandbox_exception_filter env info s =
      (EXCEPTION_EXECUTE_HANDLER,
        { s with
          clock_reads := s.clock_reads + 1
          sandbox_state :=
            { s.sandbox_state with
              epoch_time := _filetime_to_epoch_time (env.GetSystemTimeAsFileTime s.clock_reads)
              exception := k
              context := info.ContextRecord
              stack := (_platform_stack_trace_walk env info.ContextRecord 0
                 s.sandbox_state.stack SANDBOX_MAX_STACK 0 s.sym).1.1
              stack_size := (_platform_stack_trace_walk env info.ContextRecord 0
                 s.sandbox_state.stack SANDBOX_MAX_STACK 0 s.sym).1.2 }
          sym := (_platform_stack_trace_walk env info.ContextRecord 0
                 s.sandbox_state.stack SANDBOX_MAX_STACK 0 s.sym).2 }) := by
  have : ¬ s.sandbox_state.signal_handler_depth ≤ 0 := not_le.mpr hd
  simp [_sandbox_exception_filter, platform_epoch_time, this, hk]

theorem filter_steady (env : Env) (info : EXCEPTION_POINTERS) (s : World) :
    Steady s (_sandbox_exception_filter env info s).2 := by
  by_cases hd : s.sandbox_state.signal_handler_depth ≤ 0
  · rw [filter_idle env info s hd]; exact ⟨rfl, rfl, rfl, rfl, rfl, rfl, rfl, rfl, rfl⟩
  · cases hk : classify info.ExceptionCode with
    | none => rw [filter_pass env info s hk]; exact ⟨rfl, rfl, rfl, rfl, rfl, rfl, rfl, rfl, rfl⟩
    | some k =>
      rw [filter_active env info s k (not_le.mp hd) hk]
      exact ⟨rfl, rfl, (walk_bounds env _ _ _ _).1, rfl, rfl, rfl, rfl, rfl, rfl⟩

theorem vectored_steady (env : Env) (info : EXCEPTION_POINTERS) (handlers : List Nat) :
    ∀ s : World, Steady s (call_vectored_handlers env info handlers s) := by
  induction handlers with
  | nil => intro s; exact steady_refl s
  | cons h t ih =>
    intro s
    exact steady_trans (filter_steady env info s) (ih _)


theorem classify_documented :
    ∀ p ∈ documented_kinds, classify p.1 = some p.2 := by
  decide

theorem classify_other (c : Nat) (hdoc : ∀ p ∈ documented_kinds, c ≠ p.1)
    (h1 : c ≠ CONTROL_C_EXIT) (h2 : c ≠ STILL_ACTIVE)
    (h3 : c ≠ PLATFORM_EXCEPTION_ABORT.value) (h4 : c ≠ PLATFORM_EXCEPTION_TERMINATE.value) :
    classify c = some PLATFORM_EXCEPTION_OTHER := by
  simp only [documented_kinds, List.mem_cons, List.mem_singleton, forall_eq_or_imp, forall_eq,
    List.not_mem_nil, false_implies, implies_true, and_true] at hdoc
  obtain ⟨d1, d2, d3, d4, d5, d6, d7, d8, d9, d10, d11, d12, d13, d14, d15, d16, d17, d18⟩ := hdoc
  unfold classify
  simp only [h1, h2, h3, h4, d1, d2, d3, d4, d5, d6, d7, d8, d9, d10, d11, d12, d13, d14, d15,
    d16, d17, d18, if_false, ite_self, ↓reduceIte]


theorem abort_filter_idle (env : Env) (sig : Int) (call_chain : List Nat) (s : World)
    (h : s.sandbox_state.signal_handler_depth ≤ 0) :
    _sandbox_abort_filter env sig call_chain s
      = Outcome.returned () { s with clock_reads := s.clock_reads + 1 } := by
  simp [_sandbox_abort_filter, platform_epoch_time, h]

theorem abort_filter_active (env : Env) (sig : Int) (call_chain : List Nat) (s : World)
    (h : 0 < s.sandbox_state.signal_handler_depth) :
    _sandbox_abort_filter env sig call_chain s
      = Outcome.jumped s.sandbox_state.jump_buffer
          { s with
            clock_reads := s.clock_reads + 1
            sandbox_state :=
              { s.sandbox_state with
                exception :=
                  if sig = SIGABRT then PLATFORM_EXCEPTION_ABORT
                  else if sig = SIGTERM then PLATFORM_EXCEPTION_TERMINATE
                  else PLATFORM_EXCEPTION_OTHER
                stack := (platform_capture_call_stack call_chain s.sandbox_state.stack
                  SANDBOX_MAX_STACK 1).1
                stack_size := (platform_capture_call_stack call_chain s.sandbox_state.stack
                  SANDBOX_MAX_STACK 1).2
                epoch_time :=
                  _filetime_to_epoch_time (env.GetSystemTimeAsFileTime s.clock_reads) } } := by
  have : ¬ s.sandbox_state.signal_handler_depth ≤ 0 := not_le.mpr h
  unfold _sandbox_abort_filter platform_epoch_time
  simp only []
  rw [if_neg this]
  split_ifs <;> rfl

theorem classify_synthetic (c : Nat) (k : Platform_Exception) (h : classify c = some k) :
    (k = PLATFORM_EXCEPTION_ABORT → c = 18) ∧ (k = PLATFORM_EXCEPTION_TERMINATE → c = 0x1000) := by
  unfold classify at h
  by_cases h0 : c = CONTROL_C_EXIT
  · rw [if_pos h0] at h; cases h
  rw [if_neg h0] at h
  by_cases h1 : c = STILL_ACTIVE
  · rw [if_pos h1] at h; cases h
  rw [if_neg h1] at h
  by_cases h2 : c = EXCEPTION_ACCESS_VIOLATION
  · rw [if_pos h2] at h; injection h with h; subst h
    exact ⟨fun e => (by cases e), fun e => (by cases e)⟩
  rw [if_neg h2] at h
  by_cases h3 : c = EXCEPTION_ARRAY_BOUNDS_EXCEEDED
  · rw [if_pos h3] at h; injection h with h; subst h
    exact ⟨fun e => (by cases e), fun e => (by cases e)⟩
  rw [if_neg h3] at h
  by_cases h4 : c = EXCEPTION_BREAKPOINT
  · rw [if_pos h4] at h; injection h with h; subst h
    exact ⟨fun e => (by cases e), fun e => (by cases e)⟩
  rw [if_neg h4] at h
  by_cases h5 : c = EXCEPTION_DATATYPE_MISALIGNMENT
  · rw [if_pos h5] at h; injection h with h; subst h
    exact ⟨fun e => (by cases e), fun e => (by cases e)⟩
  rw [if_neg h5] at h
  by_cases h6 : c = EXCEPTION_FLT_DENORMAL_OPERAND
  · rw [if_pos h6] at h; injection h with h; subst h
    exact ⟨fun e => (by cases e), fun e => (by cases e)⟩
  rw [if_neg h6] at h
  by_cases h7 : c = EXCEPTION_FLT_DIVIDE_BY_ZERO
  · rw [if_pos h7] at h; injection h with h; subst h
    exact ⟨fun e => (by cases e), fun e => (by cases e)⟩
  rw [if_neg h7] at h
  by_cases h8 : c = EXCEPTION_FLT_INEXACT_RESULT
  · rw [if_pos h8] at h; injection h with h; subst h
    exact ⟨fun e => (by cases e), fun e => (by cases e)⟩
  rw [if_neg h8] at h
  by_cases h9 : c = EXCEPTION_FLT_INVALID_OPERATION
  · rw [if_pos h9] at h; injection h with h; subst h
    exact ⟨fun e => (by cases e), fun e => (by cases e)⟩
  rw [if_neg h9] at h
  by_cases h10 : c = EXCEPTION_FLT_OVERFLOW
  · rw [if_pos h10] at h; injection h with h; subst h
    exact ⟨fun e => (by cases e), fun e => (by cases e)⟩
  rw [if_neg h10] at h
  by_cases h11 : c = EXCEPTION_FLT_STACK_CHECK
  · rw [if_pos h11] at h; injection h with h; subst h
    exact ⟨fun e => (by cases e), fun e => (by cases e)⟩
  rw [if_neg h11] at h
  by_cases h12 : c = EXCEPTION_FLT_UNDERFLOW
  · rw [if_pos h12] at h; injection h with h; subst h
    exact ⟨fun e => (by cases e), fun e => (by cases e)⟩
  rw [if_neg h12] at h
  by_cases h13 : c = EXCEPTION_ILLEGAL_INSTRUCTION
  · rw [if_pos h13] at h; injection h with h; subst h
    exact ⟨fun e => (by cases e), fun e => (by cases e)⟩
  rw [if_neg h13] at h
  by_cases h14 : c = EXCEPTION_IN_PAGE_ERROR
  · rw [if_pos h14] at h; injection h with h; subst h
    exact ⟨fun e => (by cases e), fun e => (by cases e)⟩
  rw [if_neg h14] at h
  by_cases h15 : c = EXCEPTION_INT_DIVIDE_BY_ZERO
  · rw [if_pos h15] at h; injection h with h; subst h
    exact ⟨fun e => (by cases e), fun e => (by cases e)⟩
  rw [if_neg h15] at h
  by_cases h16 : c = EXCEPTION_INT_OVERFLOW
  · rw [if_pos h16] at h; injection h with h; subst h
    exact ⟨fun e => (by cases e), fun e => (by cases e)⟩
  rw [if_neg h16] at h
  by_cases h17 : c = EXCEPTION_INVALID_DISPOSITION
  · rw [if_pos h17] at h; injection h with h; subst h
    exact ⟨fun e => (by cases e), fun e => (by cases e)⟩
  rw [if_neg h17] at h
  by_cases h18 : c = EXCEPTION_NONCONTINUABLE_EXCEPTION
  · rw [if_pos h18] at h; injection h with h; subst h
    exact ⟨fun e => (by cases e), fun e => (by cases e)⟩
  rw [if_neg h18] at h
  by_cases h19 : c = EXCEPTION_PRIV_INSTRUCTION
  · rw [if_pos h19] at h; injection h with h; subst h
    exact ⟨fun e => (by cases e), fun e => (by cases e)⟩
  rw [if_neg h19] at h
  by_cases h20 : c = EXCEPTION_SINGLE_STEP
  · rw [if_pos h20] at h; injection h with h; subst h
    exact ⟨fun e => (by cases e), fun e => (by cases e)⟩
  rw [if_neg h20] at h
  by_cases h21 : c = EXCEPTION_STACK_OVERFLOW
  · rw [if_pos h21] at h; injection h with h; subst h
    exact ⟨fun e => (by cases e), fun e => (by cases e)⟩
  rw [if_neg h21] at h
  by_cases h22 : c = PLATFORM_EXCEPTION_ABORT.value
  · rw [if_pos h22] at h; injection h with h; subst h
    exact ⟨fun _ => h22, fun e => (by cases e)⟩
  rw [if_neg h22] at h
  by_cases h23 : c = PLATFORM_EXCEPTION_TERMINATE.value
  · rw [if_pos h23] at h; injection h with h; subst h
    exact ⟨fun e => (by cases e), fun _ => h23⟩
  rw [if_neg h23] at h
  injection h with h; subst h
  exact ⟨fun e => (by cases e), fun e => (by cases e)⟩

/-- C1 (amended): with a sandbox active on the thread, `_sandbox_exception_filter`
records the documented kind for every code of the supported set; for a code
outside the set it records nothing and returns `EXCEPTION_CONTINUE_SEARCH` when
the code is `CONTROL_C_EXIT` or `STILL_ACTIVE`, it records ABORT for code 18 and
TERMINATE for code 0x1000 (the enum values of those kinds, listed as cases of
the switch), and it records `PLATFORM_EXCEPTION_OTHER` for every other code. -/
theorem exception_filter_classification (env : Env) (info : EXCEPTION_POINTERS) (s : World)
    (hd : 0 < s.sandbox_state.signal_handler_depth) :
    (∀ p ∈ documented_kinds, info.ExceptionCode = p.1 →
        (_sandbox_exception_filter env info s).1 = EXCEPTION_EXECUTE_HANDLER ∧
        recorded_kind env info s = p.2) ∧
    (info.ExceptionCode = CONTROL_C_EXIT ∨ info.ExceptionCode = STILL_ACTIVE →
        (_sandbox_exception_filter env info s).1 = EXCEPTION_CONTINUE_SEARCH ∧
        (_sandbox_exception_filter env info s).2.sandbox_state = s.sandbox_state) ∧
    (info.ExceptionCode = 18 →
        (_sandbox_exception_filter env info s).1 = EXCEPTION_EXECUTE_HANDLER ∧
        recorded_kind env info s = PLATFORM_EXCEPTION_ABORT) ∧
    (info.ExceptionCode = 0x1000 →
        (_sandbox_exception_filter env info s).1 = EXCEPTION_EXECUTE_HANDLER ∧
        recorded_kind env info s = PLATFORM_EXCEPTION_TERMINATE) ∧
    ((∀ p ∈ documented_kinds, info.ExceptionCode ≠ p.1) →
        info.ExceptionCode ≠ CONTROL_C_EXIT → info.ExceptionCode ≠ STILL_ACTIVE →
        info.ExceptionCode ≠ 18 → info.ExceptionCode ≠ 0x1000 →
        (_sandbox_exception_filter env info s).1 = EXCEPTION_EXECUTE_HANDLER ∧
        recorded_kind env info s = PLATFORM_EXCEPTION_OTHER) := by
  have key : ∀ k, classify info.ExceptionCode = some k →
      (_sandbox_exception_filter env info s).1 = EXCEPTION_EXECUTE_HANDLER ∧
      recorded_kind env info s = k := by
    intro k hk
    unfold recorded_kind
    rw [filter_active env info s k hd hk]
    exact ⟨rfl, rfl⟩
  refine ⟨?_, ?_, ?_, ?_, ?_⟩
  · intro p hp hc
    exact key p.2 (hc ▸ classify_documented p hp)
  · intro hc
    have hk : classify info.ExceptionCode = none := by
      rcases hc with hc | hc <;> rw [hc] <;> decide
    rw [filter_pass env info s hk]
    exact ⟨rfl, rfl⟩
  · intro hc
    exact key _ (by rw [hc]; decide)
  · intro hc
    exact key _ (by rw [hc]; decide)
  · intro hdoc h1 h2 h3 h4
    exact key _ (classify_other _ hdoc h1 h2 h3 h4)

/-- Witness of `exception_filter_classification`: the filter run on an access
violation in the world where the work of a sandbox call starts. -/
theorem exception_filter_classification_witness :
    0 < example_world_inside.sandbox_state.signal_handler_depth ∧
    recorded_kind example_env ⟨EXCEPTION_ACCESS_VIOLATION, example_context⟩ example_world_inside
      = PLATFORM_EXCEPTION_ACCESS_VIOLATION :=
  ⟨by decide,
   ((exception_filter_classification example_env
      ⟨EXCEPTION_ACCESS_VIOLATION, example_context⟩ example_world_inside (by decide)).1
      (EXCEPTION_ACCESS_VIOLATION, PLATFORM_EXCEPTION_ACCESS_VIOLATION) (by decide) rfl).2⟩

/-- C1 (counterexample): the native code 18 is outside the supported set, yet
with a sandbox active the filter records `PLATFORM_EXCEPTION_ABORT` for it, not
`PLATFORM_EXCEPTION_OTHER`. -/
theorem exception_filter_code_18_not_other :
    0 < example_world_inside.sandbox_state.signal_handler_depth ∧
    (∀ p ∈ documented_kinds, (18 : Nat) ≠ p.1) ∧
    recorded_kind example_env ⟨18, example_context⟩ example_world_inside
      = PLATFORM_EXCEPTION_ABORT ∧
    recorded_kind example_env ⟨18, example_context⟩ example_world_inside
      ≠ PLATFORM_EXCEPTION_OTHER := by
  decide

/-- C6: when the reentrancy depth of the thread is zero, for every native code
`_sandbox_exception_filter` returns `EXCEPTION_CONTINUE_SEARCH`, and for every
signal `_sandbox_abort_filter` returns to its caller instead of jumping to a
checkpoint; both leave `sandbox_state` (and everything but the clock) as it was. -/
theorem reentrancy_guard_passes_on (env : Env) (s : World)
    (h : s.sandbox_state.signal_handler_depth = 0) :
    (∀ info : EXCEPTION_POINTERS,
        (_sandbox_exception_filter env info s).1 = EXCEPTION_CONTINUE_SEARCH ∧
        (_sandbox_exception_filter env info s).2 = { s with clock_reads := s.clock_reads + 1 } ∧
        (_sandbox_exception_filter env info s).2.sandbox_state = s.sandbox_state) ∧
    (∀ (sig : Int) (call_chain : List Nat),
        _sandbox_abort_filter env sig call_chain s
          = Outcome.returned () { s with clock_reads := s.clock_reads + 1 } ∧
        ({ s with clock_reads := s.clock_reads + 1 } : World).sandbox_state = s.sandbox_state) := by
  constructor
  · intro info
    rw [filter_idle env info s (le_of_eq h)]
    exact ⟨rfl, rfl, rfl⟩
  · intro sig call_chain
    rw [abort_filter_idle env sig call_chain s (le_of_eq h)]
    exact ⟨rfl, rfl⟩

/-- Witness of `reentrancy_guard_passes_on`: a thread outside any sandbox. -/
theorem reentrancy_guard_passes_on_witness :
    example_world.sandbox_state.signal_handler_depth = 0 ∧
    (_sandbox_exception_filter example_env ⟨EXCEPTION_ACCESS_VIOLATION, example_context⟩
      example_world).1 = EXCEPTION_CONTINUE_SEARCH :=
  ⟨rfl, ((reentrancy_guard_passes_on example_env example_world rfl).1
      ⟨EXCEPTION_ACCESS_VIOLATION, example_context⟩).1⟩

/-- C7 (amended): with a sandbox active, `_sandbox_exception_filter` records
ABORT exactly for the native code 18 and TERMINATE exactly for the native code
0x1000 (the enum values of the two kinds, which its switch lists as cases); for
every other code the kind it records is neither of the two. The signal handler
`_sandbox_abort_filter` records ABORT for `SIGABRT` and TERMINATE for `SIGTERM`. -/
theorem synthetic_kinds_on_hardware_path (env : Env) (info : EXCEPTION_POINTERS) (s : World)
    (hd : 0 < s.sandbox_state.signal_handler_depth) :
    (info.ExceptionCode ≠ 18 → info.ExceptionCode ≠ 0x1000 →
        (_sandbox_exception_filter env info s).1 = EXCEPTION_EXECUTE_HANDLER →
        recorded_kind env info s ≠ PLATFORM_EXCEPTION_ABORT ∧
        recorded_kind env info s ≠ PLATFORM_EXCEPTION_TERMINATE) ∧
    (info.ExceptionCode = 18 →
        (_sandbox_exception_filter env info s).1 = EXCEPTION_EXECUTE_HANDLER ∧
        recorded_kind env info s = PLATFORM_EXCEPTION_ABORT) ∧
    (info.ExceptionCode = 0x1000 →
        (_sandbox_exception_filter env info s).1 = EXCEPTION_EXECUTE_HANDLER ∧
        recorded_kind env info s = PLATFORM_EXCEPTION_TERMINATE) ∧
    (∀ call_chain : List Nat, ∃ s', _sandbox_abort_filter env SIGABRT call_chain s
        = Outcome.jumped s.sandbox_state.jump_buffer s' ∧
        s'.sandbox_state.exception = PLATFORM_EXCEPTION_ABORT) ∧
    (∀ call_chain : List Nat, ∃ s', _sandbox_abort_filter env SIGTERM call_chain s
        = Outcome.jumped s.sandbox_state.jump_buffer s' ∧
        s'.sandbox_state.exception = PLATFORM_EXCEPTION_TERMINATE) := by
  have key : ∀ k, classify info.ExceptionCode = some k →
      (_sandbox_exception_filter env info s).1 = EXCEPTION_EXECUTE_HANDLER ∧
      recorded_kind env info s = k := by
    intro k hk
    unfold recorded_kind
    rw [filter_active env info s k hd hk]
    exact ⟨rfl, rfl⟩
  refine ⟨?_, ?_, ?_, ?_, ?_⟩
  · intro h1 h2 hx
    cases hk : classify info.ExceptionCode with
    | none =>
      rw [filter_pass env info s hk] at hx
      simp [EXCEPTION_CONTINUE_SEARCH, EXCEPTION_EXECUTE_HANDLER] at hx
    | some k =>
      rw [(key k hk).2]
      exact ⟨fun e => h1 ((classify_synthetic _ k hk).1 e),
             fun e => h2 ((classify_synthetic _ k hk).2 e)⟩
  · intro hc
    exact key _ (by rw [hc]; decide)
  · intro hc
    exact key _ (by rw [hc]; decide)
  · intro call_chain
    rw [abort_filter_active env SIGABRT call_chain s hd]
    exact ⟨_, rfl, rfl⟩
  · intro call_chain
    rw [abort_filter_active env SIGTERM call_chain s hd]
    refine ⟨_, rfl, ?_⟩
    simp [SIGTERM, SIGABRT]

/-- Witness of `synthetic_kinds_on_hardware_path`: an integer division by zero
in the world where the work of a sandbox call starts is not recorded as ABORT. -/
theorem synthetic_kinds_on_hardware_path_witness :
    0 < example_world_inside.sandbox_state.signal_handler_depth ∧
    recorded_kind example_env ⟨EXCEPTION_INT_DIVIDE_BY_ZERO, example_context⟩
      example_world_inside ≠ PLATFORM_EXCEPTION_ABORT :=
  ⟨by decide,
   ((synthetic_kinds_on_hardware_path example_env
      ⟨EXCEPTION_INT_DIVIDE_BY_ZERO, example_context⟩ example_world_inside (by decide)).1
      (by decide) (by decide) (by decide)).1⟩

/-- C7 (counterexample): a structured exception with the native code 0x1000,
handled with a sandbox active, makes `_sandbox_exception_filter` itself record
`PLATFORM_EXCEPTION_TERMINATE`. -/
theorem exception_filter_records_terminate :
    0 < example_world_inside.sandbox_state.signal_handler_depth ∧
    (_sandbox_exception_filter example_env ⟨0x1000, example_context⟩ example_world_inside).1
      = EXCEPTION_EXECUTE_HANDLER ∧
    recorded_kind example_env ⟨0x1000, example_context⟩ example_world_inside
      = PLATFORM_EXCEPTION_TERMINATE := by
  decide

theorem sandbox_of_returned (env : Env) (work : World → Outcome Unit) (error_func : Option Nat)
    (error_context : Nat) (s s_w : World)
    (h : work (sandbox_enter env s).2 = Outcome.returned () s_w) :
    platform_exception_sandbox env work error_func error_context s
      = Outcome.returned PLATFORM_EXCEPTION_NONE (sandbox_leave (sandbox_enter env s).1 s_w) := by
  unfold platform_exception_sandbox
  simp only [h]
  rfl

theorem sandbox_of_raised (env : Env) (work : World → Outcome Unit) (error_func : Option Nat)
    (error_context : Nat) (s s_w : World) (info : EXCEPTION_POINTERS)
    (h : work (sandbox_enter env s).2 = Outcome.raised info s_w)
    (hx : (_sandbox_exception_filter env info s_w).1 = EXCEPTION_EXECUTE_HANDLER) :
    platform_exception_sandbox env work error_func error_context s
      = Outcome.returned
          (sandbox_report true error_func error_context
            { (_sandbox_exception_filter env info s_w).2 with
              frame := (sandbox_enter env s).2.frame }).1
          (sandbox_leave (sandbox_enter env s).1
            (sandbox_report true error_func error_context
              { (_sandbox_exception_filter env info s_w).2 with
                frame := (sandbox_enter env s).2.frame }).2) := by
  unfold platform_exception_sandbox
  simp only [h, hx, if_true]

theorem sandbox_of_passed (env : Env) (work : World → Outcome Unit) (error_func : Option Nat)
    (error_context : Nat) (s s_w : World) (info : EXCEPTION_POINTERS)
    (h : work (sandbox_enter env s).2 = Outcome.raised info s_w)
    (hx : (_sandbox_exception_filter env info s_w).1 ≠ EXCEPTION_EXECUTE_HANDLER) :
    platform_exception_sandbox env work error_func error_context s
      = Outcome.raised info (_sandbox_exception_filter env info s_w).2 := by
  unfold platform_exception_sandbox
  simp only [h, hx, if_false]

theorem sandbox_of_jumped (env : Env) (work : World → Outcome Unit) (error_func : Option Nat)
    (error_context : Nat) (s s_w : World)
    (h : work (sandbox_enter env s).2 = Outcome.jumped (sandbox_enter env s).2.frame s_w) :
    platform_exception_sandbox env work error_func error_context s
      = Outcome.returned
          (sandbox_report true error_func error_context
            { s_w with frame := (sandbox_enter env s).2.frame }).1
          (sandbox_leave (sandbox_enter env s).1
            (sandbox_report true error_func error_context
              { s_w with frame := (sandbox_enter env s).2.frame }).2) := by
  unfold platform_exception_sandbox
  simp only [h, if_true]

theorem enter_state (env : Env) (s : World) :
    (sandbox_enter env s).2.sandbox_state
      = { Platform_Sandbox_State.zero with
          signal_handler_depth := 1, jump_buffer := s.frame + 1 } := by
  by_cases h : env.AddVectoredExceptionHandler s.handles_issued = 0 <;>
    simp [sandbox_enter, AddVectoredExceptionHandler, h, signal, SetErrorMode,
      Platform_Sandbox_State.zero]

theorem enter_frame (env : Env) (s : World) : (sandbox_enter env s).2.frame = s.frame + 1 := by
  by_cases h : env.AddVectoredExceptionHandler s.handles_issued = 0 <;>
    simp [sandbox_enter, AddVectoredExceptionHandler, h, signal, SetErrorMode,
      Platform_Sandbox_State.zero]

theorem enter_log (env : Env) (s : World) :
    (sandbox_enter env s).2.error_log = s.error_log := by
  by_cases h : env.AddVectoredExceptionHandler s.handles_issued = 0 <;>
    simp [sandbox_enter, AddVectoredExceptionHandler, h, signal, SetErrorMode,
      Platform_Sandbox_State.zero]

theorem enter_clock (env : Env) (s : World) :
    (sandbox_enter env s).2.clock_reads = s.clock_reads := by
  by_cases h : env.AddVectoredExceptionHandler s.handles_issued = 0 <;>
    simp [sandbox_enter, AddVectoredExceptionHandler, h, signal, SetErrorMode,
      Platform_Sandbox_State.zero]

theorem enter_table (env : Env) (s : World) :
    (sandbox_enter env s).2.signal_table
      = Function.update (Function.update s.signal_table SIGABRT Signal_Handler.sandbox_abort_filter)
          SIGTERM Signal_Handler.sandbox_abort_filter := by
  by_cases h : env.AddVectoredExceptionHandler s.handles_issued = 0 <;>
    simp [sandbox_enter, AddVectoredExceptionHandler, h, signal, SetErrorMode,
      Platform_Sandbox_State.zero]

theorem enter_prev_state (env : Env) (s : World) :
    (sandbox_enter env s).1.prev_state = s.sandbox_state := by
  by_cases h : env.AddVectoredExceptionHandler s.handles_issued = 0 <;>
    simp [sandbox_enter, AddVectoredExceptionHandler, h, signal, SetErrorMode,
      Platform_Sandbox_State.zero]

theorem enter_caller_frame (env : Env) (s : World) :
    (sandbox_enter env s).1.caller_frame = s.frame := by
  by_cases h : env.AddVectoredExceptionHandler s.handles_issued = 0 <;>
    simp [sandbox_enter, AddVectoredExceptionHandler, h, signal, SetErrorMode,
      Platform_Sandbox_State.zero]

theorem enter_prev_error_mode (env : Env) (s : World) :
    (sandbox_enter env s).1.prev_error_mode = s.error_mode := by
  by_cases h : env.AddVectoredExceptionHandler s.handles_issued = 0 <;>
    simp [sandbox_enter, AddVectoredExceptionHandler, h, signal, SetErrorMode,
      Platform_Sandbox_State.zero]

theorem enter_prev_abrt (env : Env) (s : World) :
    (sandbox_enter env s).1.prev_abrt = s.signal_table SIGABRT := by
  by_cases h : env.AddVectoredExceptionHandler s.handles_issued = 0 <;>
    simp [sandbox_enter, AddVectoredExceptionHandler, h, signal, SetErrorMode,
      Platform_Sandbox_State.zero]

theorem enter_prev_term (env : Env) (s : World) :
    (sandbox_enter env s).1.prev_term = s.signal_table SIGTERM := by
  have h : SIGTERM ≠ SIGABRT := by decide
  by_cases h0 : env.AddVectoredExceptionHandler s.handles_issued = 0 <;>
    simp [sandbox_enter, AddVectoredExceptionHandler, h0, signal, SetErrorMode,
      Function.update_noteq h]

theorem enter_handlers (env : Env) (s : World) :
    (sandbox_enter env s).2.vectored_handlers
      = if (sandbox_enter env s).1.vector_exception_handler = 0 then s.vectored_handlers
        else (sandbox_enter env s).1.vector_exception_handler :: s.vectored_handlers := by
  unfold sandbox_enter AddVectoredExceptionHandler
  by_cases h : env.AddVectoredExceptionHandler s.handles_issued = 0
  · simp [h, signal, SetErrorMode]
  · simp [h, signal, SetErrorMode]

theorem leave_state (l : Sandbox_Locals) (s : World) :
    (sandbox_leave l s).sandbox_state = l.prev_state := by
  by_cases h1 : s.sandbox_state.signal_handler_depth - 1 < 0 <;>
    by_cases h2 : l.vector_exception_handler = 0 <;>
    simp [sandbox_leave, RemoveVectoredExceptionHandler, signal, SetErrorMode, h1, h2]

theorem leave_frame (l : Sandbox_Locals) (s : World) :
    (sandbox_leave l s).frame = l.caller_frame := by
  by_cases h1 : s.sandbox_state.signal_handler_depth - 1 < 0 <;>
    by_cases h2 : l.vector_exception_handler = 0 <;>
    simp [sandbox_leave, RemoveVectoredExceptionHandler, signal, SetErrorMode, h1, h2]

theorem leave_log (l : Sandbox_Locals) (s : World) :
    (sandbox_leave l s).error_log = s.error_log := by
  by_cases h1 : s.sandbox_state.signal_handler_depth - 1 < 0 <;>
    by_cases h2 : l.vector_exception_handler = 0 <;>
    simp [sandbox_leave, RemoveVectoredExceptionHandler, signal, SetErrorMode, h1, h2]

theorem leave_error_mode (l : Sandbox_Locals) (s : World) :
    (sandbox_leave l s).error_mode = l.prev_error_mode := by
  by_cases h1 : s.sandbox_state.signal_handler_depth - 1 < 0 <;>
    by_cases h2 : l.vector_exception_handler = 0 <;>
    simp [sandbox_leave, RemoveVectoredExceptionHandler, signal, SetErrorMode, h1, h2]

theorem leave_table (l : Sandbox_Locals) (s : World) :
    (sandbox_leave l s).signal_table
      = Function.update (Function.update s.signal_table SIGABRT l.prev_abrt) SIGTERM l.prev_term := by
  by_cases h1 : s.sandbox_state.signal_handler_depth - 1 < 0 <;>
    by_cases h2 : l.vector_exception_handler = 0 <;>
    simp [sandbox_leave, RemoveVectoredExceptionHandler, signal, SetErrorMode, h1, h2]

theorem leave_handlers (l : Sandbox_Locals) (s : World) :
    (sandbox_leave l s).vectored_handlers
      = if l.vector_exception_handler ≠ 0 then s.vectored_handlers.erase l.vector_exception_handler
        else s.vectored_handlers := by
  by_cases h1 : s.sandbox_state.signal_handler_depth - 1 < 0 <;>
    by_cases h2 : l.vector_exception_handler = 0 <;>
    simp [sandbox_leave, RemoveVectoredExceptionHandler, signal, SetErrorMode, h1, h2]

theorem classify_none (c : Nat) (h : classify c = none) :
    c = CONTROL_C_EXIT ∨ c = STILL_ACTIVE := by
  unfold classify at h
  by_cases h0 : c = CONTROL_C_EXIT
  · rw [if_pos h0] at h; exact Or.inl h0
  rw [if_neg h0] at h
  by_cases h1 : c = STILL_ACTIVE
  · rw [if_pos h1] at h; exact Or.inr h1
  rw [if_neg h1] at h
  by_cases h2 : c = EXCEPTION_ACCESS_VIOLATION
  · rw [if_pos h2] at h; cases h
  rw [if_neg h2] at h
  by_cases h3 : c = EXCEPTION_ARRAY_BOUNDS_EXCEEDED
  · rw [if_pos h3] at h; cases h
  rw [if_neg h3] at h
  by_cases h4 : c = EXCEPTION_BREAKPOINT
  · rw [if_pos h4] at h; cases h
  rw [if_neg h4] at h
  by_cases h5 : c = EXCEPTION_DATATYPE_MISALIGNMENT
  · rw [if_pos h5] at h; cases h
  rw [if_neg h5] at h
  by_cases h6 : c = EXCEPTION_FLT_DENORMAL_OPERAND
  · rw [if_pos h6] at h; cases h
  rw [if_neg h6] at h
  by_cases h7 : c = EXCEPTION_FLT_DIVIDE_BY_ZERO
  · rw [if_pos h7] at h; cases h
  rw [if_neg h7] at h
  by_cases h8 : c = EXCEPTION_FLT_INEXACT_RESULT
  · rw [if_pos h8] at h; cases h
  rw [if_neg h8] at h
  by_cases h9 : c = EXCEPTION_FLT_INVALID_OPERATION
  · rw [if_pos h9] at h; cases h
  rw [if_neg h9] at h
  by_cases h10 : c = EXCEPTION_FLT_OVERFLOW
  · rw [if_pos h10] at h; cases h
  rw [if_neg h10] at h
  by_cases h11 : c = EXCEPTION_FLT_STACK_CHECK
  · rw [if_pos h11] at h; cases h
  rw [if_neg h11] at h
  by_cases h12 : c = EXCEPTION_FLT_UNDERFLOW
  · rw [if_pos h12] at h; cases h
  rw [if_neg h12] at h
  by_cases h13 : c = EXCEPTION_ILLEGAL_INSTRUCTION
  · rw [if_pos h13] at h; cases h
  rw [if_neg h13] at h
  by_cases h14 : c = EXCEPTION_IN_PAGE_ERROR
  · rw [if_pos h14] at h; cases h
  rw [if_neg h14] at h
  by_cases h15 : c = EXCEPTION_INT_DIVIDE_BY_ZERO
  · rw [if_pos h15] at h; cases h
  rw [if_neg h15] at h
  by_cases h16 : c = EXCEPTION_INT_OVERFLOW
  · rw [if_pos h16] at h; cases h
  rw [if_neg h16] at h
  by_cases h17 : c = EXCEPTION_INVALID_DISPOSITION
  · rw [if_pos h17] at h; cases h
  rw [if_neg h17] at h
  by_cases h18 : c = EXCEPTION_NONCONTINUABLE_EXCEPTION
  · rw [if_pos h18] at h; cases h
  rw [if_neg h18] at h
  by_cases h19 : c = EXCEPTION_PRIV_INSTRUCTION
  · rw [if_pos h19] at h; cases h
  rw [if_neg h19] at h
  by_cases h20 : c = EXCEPTION_SINGLE_STEP
  · rw [if_pos h20] at h; cases h
  rw [if_neg h20] at h
  by_cases h21 : c = EXCEPTION_STACK_OVERFLOW
  · rw [if_pos h21] at h; cases h
  rw [if_neg h21] at h
  by_cases h22 : c = PLATFORM_EXCEPTION_ABORT.value
  · rw [if_pos h22] at h; cases h
  rw [if_neg h22] at h
  by_cases h23 : c = PLATFORM_EXCEPTION_TERMINATE.value
  · rw [if_pos h23] at h; cases h
  rw [if_neg h23] at h
  cases h

theorem classify_some (c : Nat) (h1 : c ≠ CONTROL_C_EXIT) (h2 : c ≠ STILL_ACTIVE) :
    ∃ k, classify c = some k := by
  cases h : classify c with
  | some k => exact ⟨k, rfl⟩
  | none => rcases classify_none c h with e | e
            · exact absurd e h1
            · exact absurd e h2

theorem report_fault (error_func : Nat) (error_context : Nat) (s : World) :
    sandbox_report true (some error_func) error_context s
      = (s.sandbox_state.exception,
         { s with error_log := s.error_log ++
            [⟨error_func, error_context, error_of_state s.sandbox_state⟩] }) := rfl

theorem report_fault_null (error_context : Nat) (s : World) :
    sandbox_report true none error_context s = (s.sandbox_state.exception, s) := rfl

/-- C3: for every work function that returns normally in the world the sandbox
prepared for it, `platform_exception_sandbox` returns `PLATFORM_EXCEPTION_NONE`
and makes no `error_func` invocation: none before the work starts, none after
it has returned. -/
theorem normal_return_yields_none (env : Env) (work : World → Outcome Unit)
    (error_func : Option Nat) (error_context : Nat) (s s_w : World)
    (h : work (sandbox_enter env s).2 = Outcome.returned () s_w) :
    (sandbox_enter env s).2.error_log = s.error_log ∧
    ∃ s', platform_exception_sandbox env work error_func error_context s
        = Outcome.returned PLATFORM_EXCEPTION_NONE s' ∧
      s'.error_log = s_w.error_log := by
  refine ⟨enter_log env s, _, sandbox_of_returned env work error_func error_context s s_w h, ?_⟩
  exact leave_log _ _

/-- Witness of `normal_return_yields_none`: the work that returns at once. -/
theorem normal_return_yields_none_witness :
    ∃ s', platform_exception_sandbox example_env (Work.run example_env Work.done) (some 7) 1
        example_world = Outcome.returned PLATFORM_EXCEPTION_NONE s' ∧
      s'.error_log = [] :=
  (normal_return_yields_none example_env (Work.run example_env Work.done) (some 7) 1
    example_world example_world_inside rfl).2

/-- The code `CONTROL_C_EXIT`, which the filter lists under `//Non errors:`, is
no fault: raised inside the sandbox it is passed on, the call does not return a
kind and `error_func` is not invoked. -/
theorem control_c_exit_passes_through :
    ∃ s', platform_exception_sandbox example_env
        (Work.run example_env (Work.fault ⟨CONTROL_C_EXIT, example_context⟩))
        (some 7) 1 example_world = Outcome.raised ⟨CONTROL_C_EXIT, example_context⟩ s' ∧
      s'.error_log = [] :=
  ⟨_, rfl, rfl⟩

/-- C5 (amended): the work starts in a `sandbox_state` that is zeroed except
for a depth of 1 and the checkpoint just stored by `setjmp`; and whenever
`platform_exception_sandbox` returns, `sandbox_state` equals its value before
the call. The call does return after a normal return of the work, after a
classified hardware fault and after a jump to its checkpoint. -/
theorem sandbox_state_restored (env : Env) (work : World → Outcome Unit)
    (error_func : Option Nat) (error_context : Nat) (s : World) :
    (sandbox_enter env s).2.sandbox_state
      = { Platform_Sandbox_State.zero with
          signal_handler_depth := 1, jump_buffer := s.frame + 1 } ∧
    (∀ k s', platform_exception_sandbox env work error_func error_context s
        = Outcome.returned k s' → s'.sandbox_state = s.sandbox_state) ∧
    (∀ s_w, work (sandbox_enter env s).2 = Outcome.returned () s_w →
      ∃ k s', platform_exception_sandbox env work error_func error_context s
        = Outcome.returned k s' ∧ s'.sandbox_state = s.sandbox_state) ∧
    (∀ info s_w, work (sandbox_enter env s).2 = Outcome.raised info s_w →
      0 < s_w.sandbox_state.signal_handler_depth →
      info.ExceptionCode ≠ CONTROL_C_EXIT → info.ExceptionCode ≠ STILL_ACTIVE →
      ∃ k s', platform_exception_sandbox env work error_func error_context s
        = Outcome.returned k s' ∧ s'.sandbox_state = s.sandbox_state) ∧
    (∀ s_w, work (sandbox_enter env s).2 = Outcome.jumped (s.frame + 1) s_w →
      ∃ k s', platform_exception_sandbox env work error_func error_context s
        = Outcome.returned k s' ∧ s'.sandbox_state = s.sandbox_state) := by
  have restore : ∀ w : World,
      (sandbox_leave (sandbox_enter env s).1 w).sandbox_state = s.sandbox_state := by
    intro w
    rw [leave_state, enter_prev_state]
  refine ⟨enter_state env s, ?_, ?_, ?_, ?_⟩
  · intro k s' hr
    cases hw : work (sandbox_enter env s).2 with
    | returned u s_w =>
      rw [sandbox_of_returned env work error_func error_context s s_w hw] at hr
      injection hr with _ hs
      rw [← hs]; exact restore _
    | raised info s_w =>
      by_cases hx : (_sandbox_exception_filter env info s_w).1 = EXCEPTION_EXECUTE_HANDLER
      · rw [sandbox_of_raised env work error_func error_context s s_w info hw hx] at hr
        injection hr with _ hs
        rw [← hs]; exact restore _
      · rw [sandbox_of_passed env work error_func error_context s s_w info hw hx] at hr
        cases hr
    | jumped target s_w =>
      by_cases ht : target = (sandbox_enter env s).2.frame
      · rw [ht] at hw
        rw [sandbox_of_jumped env work error_func error_context s s_w hw] at hr
        injection hr with _ hs
        rw [← hs]; exact restore _
      · unfold platform_exception_sandbox at hr
        simp only [hw, ht, if_false] at hr
        cases hr
    | terminated s_w =>
      unfold platform_exception_sandbox at hr
      simp only [hw] at hr
      cases hr
  · intro s_w hw
    exact ⟨_, _, sandbox_of_returned env work error_func error_context s s_w hw, restore _⟩
  · intro info s_w hw hd h1 h2
    obtain ⟨k, hk⟩ := classify_some info.ExceptionCode h1 h2
    have hx : (_sandbox_exception_filter env info s_w).1 = EXCEPTION_EXECUTE_HANDLER := by
      rw [filter_active env info s_w k hd hk]
    exact ⟨_, _, sandbox_of_raised env work error_func error_context s s_w info hw hx, restore _⟩
  · intro s_w hw
    rw [← enter_frame env s] at hw
    exact ⟨_, _, sandbox_of_jumped env work error_func error_context s s_w hw, restore _⟩

/-- Witness of `sandbox_state_restored`: a sandbox call whose work aborts,
made from a thread outside any sandbox, returns with the state it found. -/
theorem sandbox_state_restored_witness :
    ∃ k s', platform_exception_sandbox example_env
        (Work.run example_env (Work.raise SIGABRT [0x401000, 0x401010, 0x401020] Work.done))
        (some 7) 1 example_world = Outcome.returned k s' ∧
      s'.sandbox_state = example_world.sandbox_state :=
  (sandbox_state_restored example_env
    (Work.run example_env (Work.raise SIGABRT [0x401000, 0x401010, 0x401020] Work.done))
    (some 7) 1 example_world).2.2.2.2 _ rfl

/-- C5 (counterexample): when the work of a sandbox call starts, the checkpoint
field of `sandbox_state` holds what `setjmp` stored, so the state is not the
zeroed state with only the depth set to 1. -/
theorem work_sees_checkpoint :
    example_world_inside = (sandbox_enter example_env example_world).2 ∧
    example_world_inside.sandbox_state.jump_buffer = 1 ∧
    example_world_inside.sandbox_state
      ≠ { Platform_Sandbox_State.zero with signal_handler_depth := 1 } := by
  refine ⟨rfl, rfl, ?_⟩
  intro h
  have hj := congrArg Platform_Sandbox_State.jump_buffer h
  exact absurd hj (by decide)

theorem raise_inside (env : Env) (sig : Int) (call_chain : List Nat) (s : World)
    (ht : s.signal_table sig = Signal_Handler.sandbox_abort_filter)
    (hd : 0 < s.sandbox_state.signal_handler_depth) :
    raise env sig call_chain s
      = Outcome.jumped s.sandbox_state.jump_buffer
          { s with
            signal_table := Function.update s.signal_table sig Signal_Handler.SIG_DFL
            clock_reads := s.clock_reads + 1
            sandbox_state :=
              { s.sandbox_state with
                exception :=
                  if sig = SIGABRT then PLATFORM_EXCEPTION_ABORT
                  else if sig = SIGTERM then PLATFORM_EXCEPTION_TERMINATE
                  else PLATFORM_EXCEPTION_OTHER
                stack := (platform_capture_call_stack call_chain s.sandbox_state.stack
                  SANDBOX_MAX_STACK 1).1
                stack_size := (platform_capture_call_stack call_chain s.sandbox_state.stack
                  SANDBOX_MAX_STACK 1).2
                epoch_time :=
                  _filetime_to_epoch_time (env.GetSystemTimeAsFileTime s.clock_reads) } } := by
  unfold raise
  rw [ht]
  simp only []
  have hd2 : 0 < (signal sig Signal_Handler.SIG_DFL s).2.sandbox_state.signal_handler_depth := hd
  rw [abort_filter_active env sig call_chain _ hd2]
  rfl

theorem run_raise_jumped (env : Env) (sig : Int) (call_chain : List Nat) (rest : Work)
    (s s' : World) (target : Nat)
    (h : raise env sig call_chain s = Outcome.jumped target s') :
    Work.run env (Work.raise sig call_chain rest) s = Outcome.jumped target s' := by
  show (match raise env sig call_chain s with
    | Outcome.returned () s => Work.run env rest s
    | Outcome.raised info s => Outcome.raised info s
    | Outcome.jumped target s => Outcome.jumped target s
    | Outcome.terminated s => Outcome.terminated s) = _
  rw [h]

theorem enter_table_at (env : Env) (s : World) (sig : Int)
    (hs : sig = SIGABRT ∨ sig = SIGTERM ∨
      s.signal_table sig = Signal_Handler.sandbox_abort_filter) :
    (sandbox_enter env s).2.signal_table sig = Signal_Handler.sandbox_abort_filter := by
  rw [enter_table]
  by_cases h1 : sig = SIGTERM
  · rw [h1, Function.update_same]
  · rw [Function.update_noteq h1]
    by_cases h2 : sig = SIGABRT
    · rw [h2, Function.update_same]
    · rw [Function.update_noteq h2]
      rcases hs with h | h | h
      · exact absurd h h2
      · exact absurd h h1
      · exact h

theorem raise_calls_filter (env : Env) (sig : Int) (call_chain : List Nat) (s : World)
    (ht : s.signal_table sig = Signal_Handler.sandbox_abort_filter) :
    raise env sig call_chain s
      = _sandbox_abort_filter env sig call_chain (signal sig Signal_Handler.SIG_DFL s).2 := by
  unfold raise
  rw [ht]

theorem enter_stack (env : Env) (s : World) :
    (sandbox_enter env s).2.sandbox_state.stack = List.replicate SANDBOX_MAX_STACK 0 := by
  rw [enter_state]
  rfl

theorem capture_count (call_chain stack : List Nat) :
    (platform_capture_call_stack call_chain stack SANDBOX_MAX_STACK 1).2
      = ((((call_chain.drop 2).take 256).length % 2 ^ 16 : Nat) : Int) := by
  unfold platform_capture_call_stack CaptureStackBackTrace
  rw [if_neg (by decide)]
  rfl

theorem epoch_time_value (env : Env) (s : World) :
    (platform_epoch_time env s).1
      = _filetime_to_epoch_time (env.GetSystemTimeAsFileTime s.clock_reads) := by
  simp only [platform_epoch_time]

theorem jumped_reported (env : Env) (work : World → Outcome Unit)
    (error_func error_context : Nat) (s s_w : World)
    (h : work (sandbox_enter env s).2 = Outcome.jumped (sandbox_enter env s).2.frame s_w) :
    platform_exception_sandbox env work (some error_func) error_context s
      = Outcome.returned s_w.sandbox_state.exception
          (sandbox_leave (sandbox_enter env s).1
            { s_w with
              frame := (sandbox_enter env s).2.frame
              error_log := s_w.error_log ++
                [⟨error_func, error_context, error_of_state s_w.sandbox_state⟩] }) := by
  have e := sandbox_of_jumped env work (some error_func) error_context s s_w h
  rw [report_fault] at e
  exact e

/-- The handler as compiled with `NDEBUG`, with a sandbox active: it records
ABORT for `SIGABRT`, TERMINATE for `SIGTERM` and OTHER for any other signal,
stores the captured stack and its count and the time sampled at its entry, and
jumps to the checkpoint of `sandbox_state`; a work that raises such a signal
inside `platform_exception_sandbox` makes the call return exactly that kind and
deliver one record with that kind, count and time. -/
theorem abort_path_spec (env : Env) (sig : Int) (call_chain : List Nat) :
    (∀ s : World, 0 < s.sandbox_state.signal_handler_depth →
      ∃ s', _sandbox_abort_filter env sig call_chain s
          = Outcome.jumped s.sandbox_state.jump_buffer s' ∧
        s'.sandbox_state.exception =
          (if sig = SIGABRT then PLATFORM_EXCEPTION_ABORT
           else if sig = SIGTERM then PLATFORM_EXCEPTION_TERMINATE
           else PLATFORM_EXCEPTION_OTHER) ∧
        s'.sandbox_state.stack = (platform_capture_call_stack call_chain s.sandbox_state.stack
          SANDBOX_MAX_STACK 1).1 ∧
        s'.sandbox_state.stack_size = (platform_capture_call_stack call_chain
          s.sandbox_state.stack SANDBOX_MAX_STACK 1).2 ∧
        s'.sandbox_state.epoch_time = (platform_epoch_time env s).1 ∧
        s'.error_log = s.error_log) ∧
    (∀ (rest : Work) (error_func error_context : Nat) (s : World),
      (sig = SIGABRT ∨ sig = SIGTERM ∨
        s.signal_table sig = Signal_Handler.sandbox_abort_filter) →
      ∃ s' record,
        platform_exception_sandbox env (Work.run env (Work.raise sig call_chain rest))
            (some error_func) error_context s
          = Outcome.returned
              (if sig = SIGABRT then PLATFORM_EXCEPTION_ABORT
               else if sig = SIGTERM then PLATFORM_EXCEPTION_TERMINATE
               else PLATFORM_EXCEPTION_OTHER) s' ∧
        s'.error_log = s.error_log ++ [⟨error_func, error_context, record⟩] ∧
        record.exception =
          (if sig = SIGABRT then PLATFORM_EXCEPTION_ABORT
           else if sig = SIGTERM then PLATFORM_EXCEPTION_TERMINATE
           else PLATFORM_EXCEPTION_OTHER) ∧
        record.call_stack_size = (platform_capture_call_stack call_chain
          (List.replicate SANDBOX_MAX_STACK 0) SANDBOX_MAX_STACK 1).2 ∧
        record.epoch_time = (platform_epoch_time env s).1) := by
  have first : ∀ s : World, 0 < s.sandbox_state.signal_handler_depth →
      ∃ s', _sandbox_abort_filter env sig call_chain s
          = Outcome.jumped s.sandbox_state.jump_buffer s' ∧
        s'.sandbox_state.exception =
          (if sig = SIGABRT then PLATFORM_EXCEPTION_ABORT
           else if sig = SIGTERM then PLATFORM_EXCEPTION_TERMINATE
           else PLATFORM_EXCEPTION_OTHER) ∧
        s'.sandbox_state.stack = (platform_capture_call_stack call_chain s.sandbox_state.stack
          SANDBOX_MAX_STACK 1).1 ∧
        s'.sandbox_state.stack_size = (platform_capture_call_stack call_chain
          s.sandbox_state.stack SANDBOX_MAX_STACK 1).2 ∧
        s'.sandbox_state.epoch_time = (platform_epoch_time env s).1 ∧
        s'.error_log = s.error_log := by
    intro s hd
    rw [abort_filter_active env sig call_chain s hd]
    exact ⟨_, rfl, rfl, rfl, rfl, rfl, rfl⟩
  refine ⟨first, ?_⟩
  intro rest error_func error_context s hs
  have ht := enter_table_at env s sig hs
  have hst := enter_state env s
  have hd : 0 < (signal sig Signal_Handler.SIG_DFL
      (sandbox_enter env s).2).2.sandbox_state.signal_handler_depth := by
    show 0 < (sandbox_enter env s).2.sandbox_state.signal_handler_depth
    rw [hst]; exact Int.one_pos
  obtain ⟨s2, hj, hk, _, hn, ht2, hl⟩ := first _ hd
  rw [← raise_calls_filter env sig call_chain _ ht] at hj
  have hb : (signal sig Signal_Handler.SIG_DFL (sandbox_enter env s).2).2.sandbox_state.jump_buffer
      = (sandbox_enter env s).2.frame := by
    show (sandbox_enter env s).2.sandbox_state.jump_buffer = _
    rw [hst, enter_frame]
  rw [hb] at hj
  have hw := run_raise_jumped env sig call_chain rest _ _ _ hj
  have e := jumped_reported env _ error_func error_context s _ hw
  rw [hk] at e
  have hlog : (sandbox_leave (sandbox_enter env s).1
      { s2 with
        frame := (sandbox_enter env s).2.frame
        error_log := s2.error_log ++
          [⟨error_func, error_context, error_of_state s2.sandbox_state⟩] }).error_log
      = s.error_log ++ [⟨error_func, error_context, error_of_state s2.sandbox_state⟩] := by
    rw [leave_log]
    show s2.error_log ++ _ = _
    rw [hl]
    show (sandbox_enter env s).2.error_log ++ _ = _
    rw [enter_log]
  have hsize : (error_of_state s2.sandbox_state).call_stack_size
      = (platform_capture_call_stack call_chain (List.replicate SANDBOX_MAX_STACK 0)
          SANDBOX_MAX_STACK 1).2 := by
    show s2.sandbox_state.stack_size = _
    rw [hn]
    show (platform_capture_call_stack call_chain (sandbox_enter env s).2.sandbox_state.stack
      SANDBOX_MAX_STACK 1).2 = _
    rw [enter_stack]
  have htime : (error_of_state s2.sandbox_state).epoch_time = (platform_epoch_time env s).1 := by
    show s2.sandbox_state.epoch_time = _
    have hc : (signal sig Signal_Handler.SIG_DFL (sandbox_enter env s).2).2.clock_reads
        = s.clock_reads := enter_clock env s
    rw [ht2, epoch_time_value, epoch_time_value, hc]
  exact ⟨_, _, e, hlog, hk, hsize, htime⟩

theorem kept_refl (s : World) : Kept s s := ⟨rfl, rfl, rfl, rfl, rfl⟩

theorem kept_trans {a b c : World} (h : Kept a b) (g : Kept b c) : Kept a c :=
  ⟨g.state.trans h.state, g.table.trans h.table, g.frame.trans h.frame, g.veh.trans h.veh,
   g.mode.trans h.mode⟩

theorem within_trans {a b c : World} (h : Within a b) (g : Within b c) : Within a c :=
  ⟨g.depth.trans h.depth, g.jump.trans h.jump, g.len.trans h.len, g.veh.trans h.veh,
   fun sig h1 h2 => (g.table sig h1 h2).trans (h.table sig h1 h2)⟩

theorem kept_within {a b : World} (h : Kept a b) : Within a b :=
  ⟨by rw [h.state], by rw [h.state], by rw [h.state], h.veh, fun sig _ _ => by rw [h.table]⟩

theorem steady_within {a b : World} (h : Steady a b) : Within a b :=
  ⟨h.depth, h.jump, h.len, h.veh, fun sig _ _ => by rw [h.table]⟩

theorem kept_inside {a b : World} (h : Kept a b) (i : Inside a) : Inside b :=
  ⟨by rw [h.state]; exact i.depth, by rw [h.state, h.frame]; exact i.jump,
   by rw [h.state]; exact i.len, by rw [h.table]; exact i.abrt, by rw [h.table]; exact i.term⟩

theorem logged_refl (callbacks : List Nat) (s : World) : Logged callbacks s s :=
  ⟨[], by simp, by simp⟩

theorem logged_of_eq (callbacks : List Nat) {s s' : World} (h : s'.error_log = s.error_log) :
    Logged callbacks s s' :=
  ⟨[], by simp [h], by simp⟩

theorem logged_trans {c1 c2 c : List Nat} {a b d : World} (h : Logged c1 a b)
    (g : Logged c2 b d) (h1 : ∀ x ∈ c1, x ∈ c) (h2 : ∀ x ∈ c2, x ∈ c) : Logged c a d := by
  obtain ⟨d1, e1, p1⟩ := h
  obtain ⟨d2, e2, p2⟩ := g
  refine ⟨d1 ++ d2, by rw [e2, e1, List.append_assoc], ?_⟩
  intro e he
  rcases List.mem_append.mp he with m | m
  · exact ⟨h1 _ (p1 e m).1, (p1 e m).2⟩
  · exact ⟨h2 _ (p2 e m).1, (p2 e m).2⟩

theorem inside_enter (env : Env) (s : World) : Inside (sandbox_enter env s).2 := by
  refine ⟨?_, ?_, ?_, ?_, ?_⟩
  · rw [enter_state]
  · rw [enter_state, enter_frame]
  · rw [enter_stack]; simp
  · rw [enter_table, Function.update_noteq (by decide), Function.update_same]
  · rw [enter_table, Function.update_same]

theorem capture_spec (call_chain stack : List Nat) (h : stack.length = SANDBOX_MAX_STACK) :
    (platform_capture_call_stack call_chain stack SANDBOX_MAX_STACK 1).1.length = stack.length ∧
    0 ≤ (platform_capture_call_stack call_chain stack SANDBOX_MAX_STACK 1).2 ∧
    (platform_capture_call_stack call_chain stack SANDBOX_MAX_STACK 1).2 ≤ SANDBOX_MAX_STACK := by
  have hlen : ((call_chain.drop 2).take 256).length ≤ 256 := by
    rw [List.length_take]; exact Nat.min_le_left _ _
  refine ⟨?_, ?_, ?_⟩
  · unfold platform_capture_call_stack CaptureStackBackTrace
    rw [if_neg (by decide)]
    show (((call_chain.drop 2).take 256) ++ stack.drop ((call_chain.drop 2).take 256).length).length
      = stack.length
    rw [List.length_append, List.length_drop, h]
    simp only [SANDBOX_MAX_STACK]
    omega
  · rw [capture_count]; exact Int.natCast_nonneg _
  · rw [capture_count]
    have : ((call_chain.drop 2).take 256).length % 2 ^ 16 ≤ 256 :=
      le_trans (Nat.mod_le _ _) hlen
    simp only [SANDBOX_MAX_STACK]
    exact_mod_cast this

theorem leave_kept (env : Env) (s x : World)
    (hv : x.vectored_handlers = (sandbox_enter env s).2.vectored_handlers)
    (ht : ∀ sig, sig ≠ SIGABRT → sig ≠ SIGTERM →
      x.signal_table sig = (sandbox_enter env s).2.signal_table sig) :
    Kept s (sandbox_leave (sandbox_enter env s).1 x) := by
  refine ⟨?_, ?_, ?_, ?_, ?_⟩
  · rw [leave_state, enter_prev_state]
  · rw [leave_table, enter_prev_abrt, enter_prev_term]
    funext sig
    by_cases h1 : sig = SIGTERM
    · rw [h1, Function.update_same]
    · rw [Function.update_noteq h1]
      by_cases h2 : sig = SIGABRT
      · rw [h2, Function.update_same]
      · rw [Function.update_noteq h2, ht sig h2 h1, enter_table, Function.update_noteq h1,
          Function.update_noteq h2]
  · rw [leave_frame, enter_caller_frame]
  · rw [leave_handlers, hv, enter_handlers]
    by_cases h : (sandbox_enter env s).1.vector_exception_handler = 0
    · simp [h]
    · simp [h]
  · rw [leave_error_mode, enter_prev_error_mode]

theorem report_any (error_func : Option Nat) (error_context : Nat) (x : World) :
    (sandbox_report true error_func error_context x).1 = x.sandbox_state.exception ∧
    (sandbox_report true error_func error_context x).2.vectored_handlers = x.vectored_handlers ∧
    (sandbox_report true error_func error_context x).2.signal_table = x.signal_table ∧
    (sandbox_report true error_func error_context x).2.error_log
      = x.error_log ++ error_func.toList.map
          (fun f => ⟨f, error_context, error_of_state x.sandbox_state⟩) := by
  cases error_func with
  | none => exact ⟨rfl, rfl, rfl, by simp [sandbox_report]⟩
  | some f => exact ⟨rfl, rfl, rfl, rfl⟩

theorem ok_ending_fault : ∀ (w : Work) (info : EXCEPTION_POINTERS), w.ok →
    w.ending = Ending.faults info → classify info.ExceptionCode ≠ none := by
  intro w
  induction w with
  | done => intro info _ h; cases h
  | fault i => intro info hok h; injection h with h; subst h; exact hok
  | raise sig chain rest _ => intro info _ h; cases h
  | sandbox inner ef ec rest _ ih => intro info hok h; exact ih info hok.2 h

theorem ok_ending_signal : ∀ (w : Work) (sig : Int), w.ok →
    w.ending = Ending.signals sig → sig = SIGABRT ∨ sig = SIGTERM := by
  intro w
  induction w with
  | done => intro sig _ h; cases h
  | fault i => intro sig _ h; cases h
  | raise sg chain rest _ => intro sig hok h; injection h with h; subst h; exact hok
  | sandbox inner ef ec rest _ ih => intro sig hok h; exact ih sig hok.2 h

theorem reported_spec (env : Env) (w : Work) (error_func : Option Nat) (error_context : Nat)
    (s x : World) (hne : w.ending ≠ Ending.returns)
    (hres : platform_exception_sandbox env (w.run env) error_func error_context s
      = Outcome.returned (sandbox_report true error_func error_context x).1
          (sandbox_leave (sandbox_enter env s).1
            (sandbox_report true error_func error_context x).2))
    (hv : x.vectored_handlers = (sandbox_enter env s).2.vectored_handlers)
    (ht : ∀ sig, sig ≠ SIGABRT → sig ≠ SIGTERM →
      x.signal_table sig = (sandbox_enter env s).2.signal_table sig)
    (hkind : x.sandbox_state.exception = w.ending.kind)
    (hb0 : 0 ≤ x.sandbox_state.stack_size)
    (hb1 : x.sandbox_state.stack_size ≤ SANDBOX_MAX_STACK)
    (hlen : x.sandbox_state.stack.length = SANDBOX_MAX_STACK)
    (hlog : ∃ d, x.error_log = s.error_log ++ d ∧
      ∀ e ∈ d, e.error_func ∈ w.callbacks ∧ e.bounded) :
    Sandbox_Spec env w error_func error_context s := by
  obtain ⟨r1, r2, r3, r4⟩ := report_any error_func error_context x
  obtain ⟨d, hd, hp⟩ := hlog
  rw [r1, hkind] at hres
  refine ⟨_, hres, leave_kept env s _ (r2.trans hv) (fun sig h1 h2 => ?_), d,
    error_func.toList.map (fun f => ⟨f, error_context, error_of_state x.sandbox_state⟩),
    ?_, hp, ?_⟩
  · rw [r3]; exact ht sig h1 h2
  · rw [leave_log, r4, hd, List.append_assoc]
  · unfold Own_Report
    cases hE : w.ending with
    | returns => exact absurd hE hne
    | faults info =>
      cases error_func with
      | none => rfl
      | some f => exact ⟨_, rfl, by rw [← hE]; exact hkind, hb0, hb1, hlen⟩
    | signals sig =>
      cases error_func with
      | none => rfl
      | some f => exact ⟨_, rfl, by rw [← hE]; exact hkind, hb0, hb1, hlen⟩

theorem sandbox_spec_of_run (env : Env) (w : Work) (error_func : Option Nat)
    (error_context : Nat) (s : World) (hok : w.ok)
    (h : Run_Spec env w (sandbox_enter env s).2) :
    Sandbox_Spec env w error_func error_context s := by
  have hin := inside_enter env s
  unfold Run_Spec at h
  cases hE : w.ending with
  | returns =>
    rw [hE] at h
    obtain ⟨s_w, hr, hk, d, hd, hp⟩ := h
    have hres := sandbox_of_returned env (w.run env) error_func error_context s s_w hr
    refine ⟨_, by rw [hE]; exact hres,
      leave_kept env s s_w hk.veh (fun sig _ _ => by rw [hk.table]), d, [], ?_, hp, ?_⟩
    · rw [leave_log, hd, enter_log, List.append_nil]
    · rw [hE]; simp [Own_Report]
  | faults info =>
    rw [hE] at h
    obtain ⟨s_w, hr, hwi, d, hd, hp⟩ := h
    have hc := ok_ending_fault w info hok hE
    obtain ⟨k, hk⟩ := Option.ne_none_iff_exists'.mp hc
    have hdep : 0 < s_w.sandbox_state.signal_handler_depth := by
      rw [hwi.depth, hin.depth]; exact Int.one_pos
    have hfa := filter_active env info s_w k hdep hk
    have hx : (_sandbox_exception_filter env info s_w).1 = EXCEPTION_EXECUTE_HANDLER := by
      rw [hfa]
    have hst := filter_steady env info s_w
    have hwb := walk_bounds env info.ContextRecord 0 s_w.sandbox_state.stack s_w.sym
    have hres := sandbox_of_raised env (w.run env) error_func error_context s s_w info hr hx
    refine reported_spec env w error_func error_context s _ (by rw [hE]; exact fun e => by cases e)
      hres ?_ ?_ ?_ ?_ ?_ ?_ ?_
    · show (_sandbox_exception_filter env info s_w).2.vectored_handlers = _
      rw [hst.veh, hwi.veh]
    · intro sig h1 h2
      show (_sandbox_exception_filter env info s_w).2.signal_table sig = _
      rw [hst.table, hwi.table sig h1 h2]
    · show (_sandbox_exception_filter env info s_w).2.sandbox_state.exception = _
      rw [hfa, hE]
      show k = (classify info.ExceptionCode).getD PLATFORM_EXCEPTION_OTHER
      rw [hk]; rfl
    · show 0 ≤ (_sandbox_exception_filter env info s_w).2.sandbox_state.stack_size
      rw [hfa]; exact hwb.2.1
    · show (_sandbox_exception_filter env info s_w).2.sandbox_state.stack_size ≤ _
      rw [hfa]; exact hwb.2.2
    · show (_sandbox_exception_filter env info s_w).2.sandbox_state.stack.length = _
      rw [hst.len, hwi.len, hin.len]
    · refine ⟨d, ?_, hp⟩
      show (_sandbox_exception_filter env info s_w).2.error_log = _
      rw [hst.log, hd, enter_log]
  | signals sig =>
    rw [hE] at h
    obtain ⟨s_w, hr, hwi, ⟨d, hd, hp⟩, hk, hb0, hb1⟩ := h
    have hres := sandbox_of_jumped env (w.run env) error_func error_context s s_w hr
    refine reported_spec env w error_func error_context s _ (by rw [hE]; exact fun e => by cases e)
      hres hwi.veh hwi.table ?_ hb0 hb1 ?_ ?_
    · rw [hE]; exact hk
    · show s_w.sandbox_state.stack.length = _
      rw [hwi.len, hin.len]
    · exact ⟨d, by show s_w.error_log = _; rw [hd, enter_log], hp⟩

theorem run_sandbox_step (env : Env) (inner rest : Work) (error_func : Option Nat)
    (error_context : Nat) (s s2 : World) (k : Platform_Exception)
    (h : platform_exception_sandbox env (inner.run env) error_func error_context s
      = Outcome.returned k s2) :
    Work.run env (Work.sandbox inner error_func error_context rest) s = Work.run env rest s2 := by
  show (match platform_exception_sandbox env (Work.run env inner) error_func error_context s with
    | Outcome.returned _ s => Work.run env rest s
    | Outcome.raised info s => Outcome.raised info s
    | Outcome.jumped target s => Outcome.jumped target s
    | Outcome.terminated s => Outcome.terminated s) = _
  rw [h]

theorem own_report_logged (ending : Ending) (error_func : Option Nat) (error_context : Nat)
    (own : List Error_Call) (h : Own_Report ending error_func error_context own) :
    ∀ e ∈ own, e.error_func ∈ error_func.toList ∧ e.bounded := by
  unfold Own_Report at h
  cases ending with
  | returns => simp only at h; subst h; simp
  | faults info =>
    cases error_func with
    | none => simp only at h; subst h; simp
    | some f =>
      obtain ⟨record, ho, _, hb⟩ := h
      subst ho
      intro e he
      rw [List.mem_singleton] at he
      subst he
      exact ⟨by simp, hb⟩
  | signals sig =>
    cases error_func with
    | none => simp only at h; subst h; simp
    | some f =>
      obtain ⟨record, ho, _, hb⟩ := h
      subst ho
      intro e he
      rw [List.mem_singleton] at he
      subst he
      exact ⟨by simp, hb⟩

theorem sandbox_spec_logged (inner : Work) (error_func : Option Nat)
    (error_context : Nat) (s s2 : World) (d own : List Error_Call)
    (hlog : s2.error_log = s.error_log ++ (d ++ own))
    (hp : ∀ e ∈ d, e.error_func ∈ inner.callbacks ∧ e.bounded)
    (hown : Own_Report inner.ending error_func error_context own) (rest : Work) :
    Logged (Work.sandbox inner error_func error_context rest).callbacks s s2 := by
  refine ⟨d ++ own, hlog, ?_⟩
  intro e he
  show e.error_func ∈ error_func.toList ++ (inner.callbacks ++ rest.callbacks) ∧ e.bounded
  rcases List.mem_append.mp he with m | m
  · exact ⟨List.mem_append_right _ (List.mem_append_left _ (hp e m).1), (hp e m).2⟩
  · have := own_report_logged _ _ _ _ hown e m
    exact ⟨List.mem_append_left _ this.1, this.2⟩

theorem run_spec (env : Env) : ∀ w : Work, w.ok → ∀ s : World, Inside s → Run_Spec env w s := by
  intro w
  induction w with
  | done =>
    intro _ s _
    exact ⟨s, rfl, kept_refl s, logged_refl _ s⟩
  | fault info =>
    intro _ s _
    have hst := vectored_steady env info s.vectored_handlers s
    exact ⟨_, rfl, steady_within hst, logged_of_eq _ hst.log⟩
  | raise sig call_chain rest _ =>
    intro hok s hin
    have ht : s.signal_table sig = Signal_Handler.sandbox_abort_filter := by
      rcases hok with h | h
      · rw [h]; exact hin.abrt
      · rw [h]; exact hin.term
    have hd : 0 < s.sandbox_state.signal_handler_depth := by rw [hin.depth]; exact Int.one_pos
    have hr := raise_inside env sig call_chain s ht hd
    rw [hin.jump] at hr
    have hc := capture_spec call_chain s.sandbox_state.stack hin.len
    refine ⟨_, run_raise_jumped env sig call_chain rest _ _ _ hr, ⟨rfl, rfl, hc.1, rfl, ?_⟩,
      logged_of_eq _ rfl, rfl, hc.2.1, hc.2.2⟩
    intro sg h1 h2
    have hne : sg ≠ sig := by
      rcases hok with h | h
      · rw [h]; exact h1
      · rw [h]; exact h2
    exact Function.update_noteq hne _ _
  | sandbox inner error_func error_context rest ih_inner ih_rest =>
    intro hok s hin
    obtain ⟨s2, hcall, hkept, d, own, hlog, hp, hown⟩ :=
      sandbox_spec_of_run env inner error_func error_context s hok.1
        (ih_inner hok.1 _ (inside_enter env s))
    have hin2 := kept_inside hkept hin
    have hrest := ih_rest hok.2 s2 hin2
    have hstep := run_sandbox_step env inner rest error_func error_context s s2 _ hcall
    have hl1 := sandbox_spec_logged inner error_func error_context s s2 d own hlog hp hown rest
    have hsub : ∀ x ∈ rest.callbacks,
        x ∈ (Work.sandbox inner error_func error_context rest).callbacks := by
      intro x hx
      exact List.mem_append_right _ (List.mem_append_right _ hx)
    unfold Run_Spec at hrest ⊢
    show (match rest.ending with
      | Ending.returns => _
      | Ending.faults info => _
      | Ending.signals sig => _)
    rw [hstep]
    cases hE : rest.ending with
    | returns =>
      rw [hE] at hrest
      obtain ⟨s', hr, hk, hl⟩ := hrest
      exact ⟨s', hr, kept_trans hkept hk, logged_trans hl1 hl (fun _ h => h) hsub⟩
    | faults info =>
      rw [hE] at hrest
      obtain ⟨s', hr, hk, hl⟩ := hrest
      exact ⟨s', hr, within_trans (kept_within hkept) hk, logged_trans hl1 hl (fun _ h => h) hsub⟩
    | signals sig =>
      rw [hE] at hrest
      obtain ⟨s', hr, hk, hl, h1, h2, h3⟩ := hrest
      rw [hkept.frame] at hr
      exact ⟨s', hr, within_trans (kept_within hkept) hk, logged_trans hl1 hl (fun _ h => h) hsub,
        h1, h2, h3⟩

theorem sandbox_spec (env : Env) (w : Work) (error_func : Option Nat) (error_context : Nat)
    (s : World) (hok : w.ok) : Sandbox_Spec env w error_func error_context s :=
  sandbox_spec_of_run env w error_func error_context s hok
    (run_spec env w hok _ (inside_enter env s))

/-- C10: every record delivered to `error_func` while a sandbox call runs, by
the call itself or by a sandbox nested in its work, on the hardware-fault path
and on the software-abort path, for every unwinder and every call chain, has
`0 <= call_stack_size <= SANDBOX_MAX_STACK` and an address buffer of exactly
`SANDBOX_MAX_STACK` entries. The two handlers themselves never store a count
outside that range. -/
theorem delivered_stack_is_bounded (env : Env) :
    (∀ (w : Work) (error_func : Option Nat) (error_context : Nat) (s : World), w.ok →
      ∃ k s' delivered,
        platform_exception_sandbox env (w.run env) error_func error_context s
          = Outcome.returned k s' ∧
        s'.error_log = s.error_log ++ delivered ∧
        ∀ e ∈ delivered, 0 ≤ e.error.call_stack_size ∧
          e.error.call_stack_size ≤ SANDBOX_MAX_STACK ∧
          e.error.call_stack.length = SANDBOX_MAX_STACK) ∧
    (∀ (info : EXCEPTION_POINTERS) (s : World),
      (_sandbox_exception_filter env info s).1 = EXCEPTION_EXECUTE_HANDLER →
      0 ≤ (_sandbox_exception_filter env info s).2.sandbox_state.stack_size ∧
      (_sandbox_exception_filter env info s).2.sandbox_state.stack_size ≤ SANDBOX_MAX_STACK ∧
      (_sandbox_exception_filter env info s).2.sandbox_state.stack.length
        = s.sandbox_state.stack.length) ∧
    (∀ (sig : Int) (call_chain : List Nat) (s s' : World) (target : Nat),
      _sandbox_abort_filter env sig call_chain s = Outcome.jumped target s' →
      0 ≤ s'.sandbox_state.stack_size ∧ s'.sandbox_state.stack_size ≤ SANDBOX_MAX_STACK) := by
  refine ⟨?_, ?_, ?_⟩
  · intro w error_func error_context s hok
    obtain ⟨s', hcall, _, d, own, hlog, hp, hown⟩ :=
      sandbox_spec env w error_func error_context s hok
    refine ⟨_, s', d ++ own, hcall, hlog, ?_⟩
    intro e he
    rcases List.mem_append.mp he with m | m
    · exact (hp e m).2
    · exact (own_report_logged _ _ _ _ hown e m).2
  · intro info s hx
    by_cases hd : s.sandbox_state.signal_handler_depth ≤ 0
    · rw [filter_idle env info s hd] at hx
      simp [EXCEPTION_CONTINUE_SEARCH, EXCEPTION_EXECUTE_HANDLER] at hx
    · cases hk : classify info.ExceptionCode with
      | none =>
        rw [filter_pass env info s hk] at hx
        simp [EXCEPTION_CONTINUE_SEARCH, EXCEPTION_EXECUTE_HANDLER] at hx
      | some k =>
        have hwb := walk_bounds env info.ContextRecord 0 s.sandbox_state.stack s.sym
        rw [filter_active env info s k (not_le.mp hd) hk]
        exact ⟨hwb.2.1, hwb.2.2, hwb.1⟩
  · intro sig call_chain s s' target hj
    by_cases hd : s.sandbox_state.signal_handler_depth ≤ 0
    · rw [abort_filter_idle env sig call_chain s hd] at hj
      cases hj
    · rw [abort_filter_active env sig call_chain s (not_le.mp hd)] at hj
      injection hj with _ hs
      subst hs
      show 0 ≤ (platform_capture_call_stack call_chain s.sandbox_state.stack
          SANDBOX_MAX_STACK 1).2 ∧ _ ≤ _
      rw [capture_count]
      have hlen : ((call_chain.drop 2).take 256).length ≤ 256 := by
        rw [List.length_take]; exact Nat.min_le_left _ _
      have : ((call_chain.drop 2).take 256).length % 2 ^ 16 ≤ 256 :=
        le_trans (Nat.mod_le _ _) hlen
      refine ⟨Int.natCast_nonneg _, ?_⟩
      simp only [SANDBOX_MAX_STACK]
      exact_mod_cast this

/-- Witness of `delivered_stack_is_bounded`: an inner sandbox whose work divides
by zero, followed by an `abort()` of the outer work. -/
theorem delivered_stack_is_bounded_witness :
    ∃ k s' delivered,
      platform_exception_sandbox example_env
          ((Work.sandbox (Work.fault ⟨EXCEPTION_INT_DIVIDE_BY_ZERO, example_context⟩) (some 8) 2
            (Work.raise SIGABRT [0x401000, 0x401010, 0x401020] Work.done)).run example_env)
          (some 7) 1 example_world
        = Outcome.returned k s' ∧
      s'.error_log = example_world.error_log ++ delivered ∧
      ∀ e ∈ delivered, 0 ≤ e.error.call_stack_size ∧
        e.error.call_stack_size ≤ SANDBOX_MAX_STACK ∧
        e.error.call_stack.length = SANDBOX_MAX_STACK :=
  (delivered_stack_is_bounded example_env).1 _ (some 7) 1 example_world
    ⟨by show classify EXCEPTION_INT_DIVIDE_BY_ZERO ≠ none; decide, Or.inl rfl⟩

/-- C9 (the code at a failing input): a work that dereferences a null pointer
where the unwinder finds two frames. The record handed to `error_func` has
`call_stack_size = 2`, and what its `call_stack` field points to is the raw
address buffer of the thread's state, the two program counters followed by
zeroes (shown here for its first three slots): the addresses were not translated into stack trace entries. -/
theorem sandbox_record_holds_raw_addresses :
    ∃ s' record,
      platform_exception_sandbox example_env
          ((Work.fault ⟨EXCEPTION_ACCESS_VIOLATION, example_context⟩).run example_env)
          (some 7) 1 example_world
        = Outcome.returned PLATFORM_EXCEPTION_ACCESS_VIOLATION s' ∧
      s'.error_log = [⟨7, 1, record⟩] ∧
      record.call_stack_size = 2 ∧
      record.call_stack.take 3 = [0x401010, 0x401020, 0] :=
  ⟨_, _, rfl, rfl, by decide, by decide⟩

/-- The code `STILL_ACTIVE`, which the filter lists under `//Non errors:`, is
no fault: raised by the inner work it is passed on by the inner and by the
outer call, neither returns a kind and no `error_func` is invoked. -/
theorem nested_still_active_escapes :
    (∃ s2, platform_exception_sandbox example_env
        ((Work.fault ⟨STILL_ACTIVE, example_context⟩).run example_env) (some 8) 2
        (sandbox_enter example_env example_world).2
      = Outcome.raised ⟨STILL_ACTIVE, example_context⟩ s2) ∧
    (∃ s', platform_exception_sandbox example_env
        ((Work.sandbox (Work.fault ⟨STILL_ACTIVE, example_context⟩) (some 8) 2
          Work.done).run example_env) (some 7) 1 example_world
      = Outcome.raised ⟨STILL_ACTIVE, example_context⟩ s' ∧
      s'.error_log = []) :=
  ⟨⟨_, rfl⟩, ⟨_, rfl, rfl⟩⟩

theorem to_string_identifier (k : Platform_Exception) :
    platform_exception_to_string k.value = k.identifier := by
  cases k <;> rfl

theorem identifier_injective (a b : Platform_Exception)
    (h : a.identifier = b.identifier) : a = b := by
  cases a <;> cases b <;> first | rfl | (exfalso; revert h; decide)

/-- C12: on the enum, `platform_exception_to_string` returns the identifier of
the enumerator itself (for instance "PLATFORM_EXCEPTION_ACCESS_VIOLATION" for
`PLATFORM_EXCEPTION_ACCESS_VIOLATION`), never the empty string, and different
strings for different enumerators; being a function of its argument alone, it
gives the same string for the same value. -/
theorem exception_names_are_distinct :
    (∀ k : Platform_Exception, platform_exception_to_string k.value = k.identifier) ∧
    platform_exception_to_string PLATFORM_EXCEPTION_ACCESS_VIOLATION.value
      = "PLATFORM_EXCEPTION_ACCESS_VIOLATION" ∧
    (∀ k : Platform_Exception, platform_exception_to_string k.value ≠ "") ∧
    (∀ a b : Platform_Exception, a ≠ b →
      platform_exception_to_string a.value ≠ platform_exception_to_string b.value) ∧
    (∀ x y : Nat, x = y → platform_exception_to_string x = platform_exception_to_string y) := by
  refine ⟨to_string_identifier, rfl, ?_, ?_, ?_⟩
  · intro k
    rw [to_string_identifier]
    cases k <;> decide
  · intro a b hab h
    rw [to_string_identifier, to_string_identifier] at h
    exact hab (identifier_injective a b h)
  · intro x y h
    rw [h]

theorem init_done (env : Env) (w : Sym_World) (h : w.stack_trace_state.init = true) :
    _platform_stack_trace_init env w = w := by
  simp [_platform_stack_trace_init, h]

theorem register_fold (env : Env) (l : List Nat) :
    ∀ w : Sym_World,
      (l.foldl (register_module env) w).calls
        = w.calls ++ l.map (fun i => Sym_Call.SymLoadModuleExW i (module_handles env)[i]?) ∧
      (l.foldl (register_module env) w).stack_trace_state.lock = w.stack_trace_state.lock ∧
      (l.foldl (register_module env) w).stack_trace_state.init = w.stack_trace_state.init := by
  induction l with
  | nil => intro w; simp
  | cons i t ih =>
    intro w
    rw [List.foldl_cons]
    obtain ⟨h1, h2, h3⟩ := ih (register_module env w i)
    have hc : (register_module env w i).calls
        = w.calls ++ [Sym_Call.SymLoadModuleExW i (module_handles env)[i]?] := by
      unfold register_module
      by_cases hl : env.SymLoadModuleExW i = false <;> simp [hl]
    have hk : (register_module env w i).stack_trace_state.lock = w.stack_trace_state.lock := by
      unfold register_module
      by_cases hl : env.SymLoadModuleExW i = false <;> simp [hl]
    have hi : (register_module env w i).stack_trace_state.init = w.stack_trace_state.init := by
      unfold register_module
      by_cases hl : env.SymLoadModuleExW i = false <;> simp [hl]
    refine ⟨?_, h2.trans hk, h3.trans hi⟩
    rw [h1, hc, List.map_cons, List.append_assoc, List.singleton_append]

theorem init_first (env : Env) (w : Sym_World) (h0 : w.stack_trace_state.init = false)
    (h1 : env.SymInitialize = true) :
    (_platform_stack_trace_init env w).calls
      = w.calls ++ ([Sym_Call.InitializeCriticalSection, Sym_Call.EnterCriticalSection,
          Sym_Call.SymInitialize, Sym_Call.SymSetOptions, Sym_Call.EnumProcessModules]
        ++ (List.range (module_handles_size_needed env / 8)).map
            (fun i => Sym_Call.SymLoadModuleExW i (module_handles env)[i]?)
        ++ [Sym_Call.LeaveCriticalSection]) ∧
    (_platform_stack_trace_init env w).stack_trace_state.init = true ∧
    (_platform_stack_trace_init env w).stack_trace_state.lock = ⟨true, 0⟩ := by
  unfold _platform_stack_trace_init
  simp only [h0, h1, Bool.false_eq_true, Bool.true_eq_false, if_false, ↓reduceIte]
  obtain ⟨e1, e2, _⟩ := register_fold env (List.range (module_handles_size_needed env / 8))
    { stack_trace_state := (EnterCriticalSection (InitializeCriticalSection w)).stack_trace_state
      calls := (EnterCriticalSection (InitializeCriticalSection w)).calls ++
        [Sym_Call.SymInitialize] ++ [Sym_Call.SymSetOptions, Sym_Call.EnumProcessModules] }
  refine ⟨?_, rfl, ?_⟩
  · simp only [LeaveCriticalSection]
    rw [e1]
    simp [EnterCriticalSection, InitializeCriticalSection]
  · simp only [LeaveCriticalSection]
    rw [e2]
    simp [EnterCriticalSection, InitializeCriticalSection]

theorem init_failed (env : Env) (w : Sym_World) (h0 : w.stack_trace_state.init = false)
    (h1 : env.SymInitialize = false) :
    (_platform_stack_trace_init env w).calls
      = w.calls ++ [Sym_Call.InitializeCriticalSection, Sym_Call.EnterCriticalSection,
          Sym_Call.SymInitialize, Sym_Call.LeaveCriticalSection] ∧
    (_platform_stack_trace_init env w).stack_trace_state.init = true := by
  unfold _platform_stack_trace_init
  simp [h0, h1, EnterCriticalSection, InitializeCriticalSection, LeaveCriticalSection]

theorem init_marks (env : Env) (w : Sym_World) :
    (_platform_stack_trace_init env w).stack_trace_state.init = true := by
  cases h0 : w.stack_trace_state.init with
  | true => rw [init_done env w h0]; exact h0
  | false =>
    cases h1 : env.SymInitialize with
    | true => exact (init_first env w h0 h1).2.1
    | false => exact (init_failed env w h0 h1).2

theorem init_appends (env : Env) (w : Sym_World) :
    ∃ extra, (_platform_stack_trace_init env w).calls = w.calls ++ extra := by
  cases h0 : w.stack_trace_state.init with
  | true => exact ⟨[], by rw [init_done env w h0, List.append_nil]⟩
  | false =>
    cases h1 : env.SymInitialize with
    | true => exact ⟨_, (init_first env w h0 h1).1⟩
    | false => exact ⟨_, (init_failed env w h0 h1).1⟩

/-- C15: `_platform_stack_trace_init` on a database that is already initialised
makes no call to the backend or to the lock and leaves `stack_trace_state`
unchanged; a database is always initialised after one call, so a second call
in a row changes nothing. -/
theorem stack_trace_init_idempotent (env : Env) (w : Sym_World) :
    (w.stack_trace_state.init = true → _platform_stack_trace_init env w = w) ∧
    (_platform_stack_trace_init env w).stack_trace_state.init = true ∧
    _platform_stack_trace_init env (_platform_stack_trace_init env w)
      = _platform_stack_trace_init env w ∧
    (_platform_stack_trace_init env (_platform_stack_trace_init env w)).calls
      = (_platform_stack_trace_init env w).calls :=
  ⟨init_done env w, init_marks env w, init_done env _ (init_marks env w),
   by rw [init_done env _ (init_marks env w)]⟩

/-- Witness of `stack_trace_init_idempotent`: the database left by a first
initialisation is not touched by a second one. -/
theorem stack_trace_init_idempotent_witness :
    (_platform_stack_trace_init example_env example_world.sym).stack_trace_state.init = true ∧
    _platform_stack_trace_init example_env
        (_platform_stack_trace_init example_env example_world.sym)
      = _platform_stack_trace_init example_env example_world.sym :=
  ⟨by decide,
   (stack_trace_init_idempotent example_env
      (_platform_stack_trace_init example_env example_world.sym)).1 (by decide)⟩

theorem module_handles_get (env : Env) (i : Nat) (h1 : i < env.loaded_modules.length)
    (h2 : i < MAX_MODULES) : (module_handles env)[i]? = env.loaded_modules[i]? := by
  unfold module_handles
  have hl : i < (env.loaded_modules.take MAX_MODULES).length := by
    rw [List.length_take]; exact lt_min h2 h1
  rw [List.getElem?_append_left hl, List.getElem?_take_of_lt h2]

/-- As compiled with `NDEBUG`, a first `_platform_stack_trace_init` whose
`SymInitialize` succeeded makes, between `EnumProcessModules` and the release
of the lock, one `SymLoadModuleExW` call for every index below `module_count`,
in order, whatever the earlier ones returned, and ends with the database
marked initialised; each index below the number of modules and below
`MAX_MODULES` registers the module enumerated at that index. -/
theorem init_registers_every_module (env : Env) (w : Sym_World)
    (h0 : w.stack_trace_state.init = false) (h1 : env.SymInitialize = true) :
    (_platform_stack_trace_init env w).calls
      = w.calls ++ ([Sym_Call.InitializeCriticalSection, Sym_Call.EnterCriticalSection,
          Sym_Call.SymInitialize, Sym_Call.SymSetOptions, Sym_Call.EnumProcessModules]
        ++ (List.range (module_handles_size_needed env / 8)).map
            (fun i => Sym_Call.SymLoadModuleExW i (module_handles env)[i]?)
        ++ [Sym_Call.LeaveCriticalSection]) ∧
    (_platform_stack_trace_init env w).stack_trace_state.init = true ∧
    (∀ i, i < env.loaded_modules.length → i < MAX_MODULES →
      (module_handles env)[i]? = env.loaded_modules[i]?) ∧
    (8 * env.loaded_modules.length < 2 ^ 32 →
      module_handles_size_needed env / 8 = env.loaded_modules.length) := by
  refine ⟨(init_first env w h0 h1).1, (init_first env w h0 h1).2.1,
    module_handles_get env, ?_⟩
  intro hlt
  unfold module_handles_size_needed
  rw [Nat.mod_eq_of_lt hlt]
  omega

theorem walk_sym (env : Env) (context : CONTEXT) (image_type : Nat) (frames : List Nat)
    (frame_count skip_count : Int) (w : Sym_World) :
    (_platform_stack_trace_walk env context image_type frames frame_count skip_count w).2
      = LeaveCriticalSection (EnterCriticalSection (_platform_stack_trace_init env w)) := rfl

/-- C17 (amended): the classification takes no lock and the software-abort
handler leaves the symbol database alone, but handling a hardware fault in
`_sandbox_exception_filter` runs `_platform_stack_trace_walk`, which
initialises the symbol database when it is not initialised yet and then
acquires the symbol database lock around the unwind loop and releases it: the
calls recorded for the handling end with `EnterCriticalSection`,
`LeaveCriticalSection`. -/
theorem hardware_fault_handling_takes_lock (env : Env) (info : EXCEPTION_POINTERS) (s : World)
    (hd : 0 < s.sandbox_state.signal_handler_depth)
    (hk : classify info.ExceptionCode ≠ none) :
    (_sandbox_exception_filter env info s).2.sym
      = LeaveCriticalSection (EnterCriticalSection (_platform_stack_trace_init env s.sym)) ∧
    (∃ before, (_sandbox_exception_filter env info s).2.sym.calls
      = s.sym.calls ++ before
          ++ [Sym_Call.EnterCriticalSection, Sym_Call.LeaveCriticalSection]) ∧
    (s.sym.stack_trace_state.init = true →
      (_sandbox_exception_filter env info s).2.sym.calls
        = s.sym.calls ++ [Sym_Call.EnterCriticalSection, Sym_Call.LeaveCriticalSection]) ∧
    (∀ (sig : Int) (call_chain : List Nat) (target : Nat) (s' : World),
      _sandbox_abort_filter env sig call_chain s = Outcome.jumped target s' →
      s'.sym = s.sym) := by
  obtain ⟨k, hk'⟩ := Option.ne_none_iff_exists'.mp hk
  have hsym : (_sandbox_exception_filter env info s).2.sym
      = LeaveCriticalSection (EnterCriticalSection (_platform_stack_trace_init env s.sym)) := by
    rw [filter_active env info s k hd hk']
    exact walk_sym env info.ContextRecord 0 s.sandbox_state.stack SANDBOX_MAX_STACK 0 s.sym
  refine ⟨hsym, ?_, ?_, ?_⟩
  · obtain ⟨extra, he⟩ := init_appends env s.sym
    refine ⟨extra, ?_⟩
    rw [hsym]
    show ((_platform_stack_trace_init env s.sym).calls ++ [Sym_Call.EnterCriticalSection])
      ++ [Sym_Call.LeaveCriticalSection] = _
    rw [he]
    simp
  · intro hi
    rw [hsym, init_done env s.sym hi]
    show (s.sym.calls ++ [Sym_Call.EnterCriticalSection]) ++ [Sym_Call.LeaveCriticalSection] = _
    simp
  · intro sig call_chain target s' hj
    rw [abort_filter_active env sig call_chain s hd] at hj
    injection hj with _ hs
    rw [← hs]

/-- Witness of `hardware_fault_handling_takes_lock`: an access violation
handled in the world where the work of a sandbox call starts. -/
theorem hardware_fault_handling_takes_lock_witness :
    ∃ before,
      (_sandbox_exception_filter example_env ⟨EXCEPTION_ACCESS_VIOLATION, example_context⟩
        example_world_inside).2.sym.calls
        = example_world_inside.sym.calls ++ before
            ++ [Sym_Call.EnterCriticalSection, Sym_Call.LeaveCriticalSection] :=
  (hardware_fault_handling_takes_lock example_env ⟨EXCEPTION_ACCESS_VIOLATION, example_context⟩
    example_world_inside (by decide) (by decide)).2.1

set_option maxRecDepth 100000 in
/-- C17 (counterexample): handling an access violation in
`_sandbox_exception_filter`, in the world where the work of a sandbox call
starts, enters the symbol database lock twice, once inside the database
initialisation and once around the unwind loop. -/
theorem fault_handling_enters_lock :
    example_world_inside.sym.calls = [] ∧
    (_sandbox_exception_filter example_env ⟨EXCEPTION_ACCESS_VIOLATION, example_context⟩
      example_world_inside).2.sym.calls.count Sym_Call.EnterCriticalSection = 2 := by
  decide

/-- C19 (the code at a failing input): `platform_init(); platform_deinit();
platform_init();` from a fresh process. The second `platform_init` finds
`stack_trace_state.init` still set, so it makes no `InitializeCriticalSection`
and no `SymInitialize` call: the database stays marked initialised while its
lock is deleted, and what the last `platform_init` adds to the calls is only
the teardown of its leading `platform_deinit`. -/
theorem symbol_database_not_reinitialized :
    (platform_init example_env (platform_deinit
        (platform_init example_env example_world.sym))).stack_trace_state.init = true ∧
    (platform_init example_env (platform_deinit
        (platform_init example_env example_world.sym))).stack_trace_state.lock.initialized
      = false ∧
    (platform_init example_env (platform_deinit
        (platform_init example_env example_world.sym))).calls
      = (platform_deinit (platform_init example_env example_world.sym)).calls
          ++ [Sym_Call.SymCleanup, Sym_Call.DeleteCriticalSection] ∧
    (platform_init example_env (platform_deinit
        (platform_init example_env example_world.sym))).calls.count Sym_Call.SymInitialize
      = 1 := by
  have h1 : (platform_init example_env example_world.sym).stack_trace_state.init = true :=
    init_marks example_env _
  have h2 : (platform_deinit (platform_deinit
      (platform_init example_env example_world.sym))).stack_trace_state.init = true := h1
  have e : platform_init example_env (platform_deinit
      (platform_init example_env example_world.sym))
      = platform_deinit (platform_deinit (platform_init example_env example_world.sym)) :=
    init_done example_env _ h2
  rw [e]
  refine ⟨h1, rfl, ?_, ?_⟩
  · simp [platform_deinit, _platform_stack_trace_deinit, DeleteCriticalSection]
  · decide

theorem update_pair_restore (t x : Int → Signal_Handler) (a b : Signal_Handler)
    (h : ∀ sig, sig ≠ SIGABRT → sig ≠ SIGTERM → x sig = t sig) :
    Function.update (Function.update x SIGABRT a) SIGTERM b
      = Function.update (Function.update t SIGABRT a) SIGTERM b := by
  funext sig
  by_cases h1 : sig = SIGTERM
  · rw [h1, Function.update_same, Function.update_same]
  · rw [Function.update_noteq h1, Function.update_noteq h1]
    by_cases h2 : sig = SIGABRT
    · rw [h2, Function.update_same, Function.update_same]
    · rw [Function.update_noteq h2, Function.update_noteq h2, h sig h2 h1]

theorem update_pair_self (t : Int → Signal_Handler) :
    Function.update (Function.update t SIGABRT (t SIGABRT)) SIGTERM (t SIGTERM) = t := by
  funext sig
  by_cases h1 : sig = SIGTERM
  · rw [h1, Function.update_same]
  · rw [Function.update_noteq h1]
    by_cases h2 : sig = SIGABRT
    · rw [h2, Function.update_same]
    · rw [Function.update_noteq h2]

/-- C11 (amended): take two `platform_exception_sandbox` calls A and B where B
installs its `SIGABRT`/`SIGTERM` handlers after A did and before A restores.
A saves the dispositions found before its install; B saves the sandbox's own
handler `_sandbox_abort_filter`, which A installed. When B restores first and
A second, the dispositions of all signals are those from before A's install;
when A restores first and B second, `SIGABRT` and `SIGTERM` are left on
`_sandbox_abort_filter`. -/
theorem trap_restore_order (env : Env) (s x : World)
    (hx : ∀ sig, sig ≠ SIGABRT → sig ≠ SIGTERM → x.signal_table sig = s.signal_table sig) :
    (sandbox_enter env s).1.prev_abrt = s.signal_table SIGABRT ∧
    (sandbox_enter env s).1.prev_term = s.signal_table SIGTERM ∧
    (sandbox_enter env (sandbox_enter env s).2).1.prev_abrt
      = Signal_Handler.sandbox_abort_filter ∧
    (sandbox_enter env (sandbox_enter env s).2).1.prev_term
      = Signal_Handler.sandbox_abort_filter ∧
    (sandbox_leave (sandbox_enter env s).1
      (sandbox_leave (sandbox_enter env (sandbox_enter env s).2).1 x)).signal_table
      = s.signal_table ∧
    (sandbox_leave (sandbox_enter env (sandbox_enter env s).2).1
      (sandbox_leave (sandbox_enter env s).1 x)).signal_table
      = Function.update
          (Function.update s.signal_table SIGABRT Signal_Handler.sandbox_abort_filter)
          SIGTERM Signal_Handler.sandbox_abort_filter := by
  have hin := inside_enter env s
  have hb1 : (sandbox_enter env (sandbox_enter env s).2).1.prev_abrt
      = Signal_Handler.sandbox_abort_filter := by rw [enter_prev_abrt]; exact hin.abrt
  have hb2 : (sandbox_enter env (sandbox_enter env s).2).1.prev_term
      = Signal_Handler.sandbox_abort_filter := by rw [enter_prev_term]; exact hin.term
  refine ⟨enter_prev_abrt env s, enter_prev_term env s, hb1, hb2, ?_, ?_⟩
  · rw [leave_table, leave_table, enter_prev_abrt env s, enter_prev_term env s]
    rw [update_pair_restore s.signal_table _ _ _ ?_]
    · exact update_pair_self s.signal_table
    · intro sig h1 h2
      rw [Function.update_noteq h2, Function.update_noteq h1]
      exact hx sig h1 h2
  · rw [leave_table, leave_table, hb1, hb2]
    apply update_pair_restore
    intro sig h1 h2
    rw [Function.update_noteq h2, Function.update_noteq h1]
    exact hx sig h1 h2

/-- Witness of `trap_restore_order`: two overlapping calls in a fresh process,
restored while the dispositions are as the second install left them. -/
theorem trap_restore_order_witness :
    (sandbox_leave (sandbox_enter example_env example_world).1
      (sandbox_leave (sandbox_enter example_env (sandbox_enter example_env example_world).2).1
        (sandbox_enter example_env (sandbox_enter example_env example_world).2).2)).signal_table
      = example_world.signal_table :=
  (trap_restore_order example_env example_world
    (sandbox_enter example_env (sandbox_enter example_env example_world).2).2
    (fun sig h1 h2 => by
      rw [enter_table, enter_table, Function.update_noteq h2, Function.update_noteq h1,
        Function.update_noteq h2, Function.update_noteq h1])).2.2.2.2.1

/-- C11 (counterexample): in a fresh process, where `SIGABRT` has the default
disposition, A installs and then B installs. B saves `_sandbox_abort_filter`,
not the default disposition A saved; and when A restores before B, `SIGABRT`
is left on `_sandbox_abort_filter` instead of the default disposition. -/
theorem restore_out_of_order_leaves_handler :
    example_world.signal_table SIGABRT = Signal_Handler.SIG_DFL ∧
    (sandbox_enter example_env example_world).1.prev_abrt = Signal_Handler.SIG_DFL ∧
    (sandbox_enter example_env (sandbox_enter example_env example_world).2).1.prev_abrt
      = Signal_Handler.sandbox_abort_filter ∧
    (sandbox_leave (sandbox_enter example_env (sandbox_enter example_env example_world).2).1
      (sandbox_leave (sandbox_enter example_env example_world).1
        (sandbox_enter example_env (sandbox_enter example_env example_world).2).2)).signal_table
      SIGABRT = Signal_Handler.sandbox_abort_filter := by
  decide

theorem memmove_length (dst src : List Nat) (n : Nat) :
    (memmove dst src n).length = dst.length := by
  unfold memmove
  simp only [List.length_take, List.length_append, List.length_drop, List.length_replicate]
  omega

theorem entry_line_indep (b : Dbghelp) (l1 l2 : IMAGEHLP_LINE64)
    (e : Platform_Stack_Trace_Entry) (a : Nat) :
    (translate_entry b l1 e a).1 = (translate_entry b l2 e a).1 := by
  unfold translate_entry
  by_cases h : a = 0
  · simp [h]
  · simp only [h, if_false]
    cases b.SymGetLineFromAddr64 a <;> rfl

theorem translate_loop (b : Dbghelp) (stack : List Nat) (line0 : IMAGEHLP_LINE64) :
    ∀ n, n ≤ stack.length →
      ((List.range n).foldl (translate_step b stack)
          (List.replicate stack.length Platform_Stack_Trace_Entry.zero, line0)).1.length
        = stack.length ∧
      (∀ j, j < n →
        ((List.range n).foldl (translate_step b stack)
          (List.replicate stack.length Platform_Stack_Trace_Entry.zero, line0)).1[j]?
          = (stack[j]?).map
              (fun a => (translate_entry b line0 Platform_Stack_Trace_Entry.zero a).1)) ∧
      (∀ j, n ≤ j → j < stack.length →
        ((List.range n).foldl (translate_step b stack)
          (List.replicate stack.length Platform_Stack_Trace_Entry.zero, line0)).1[j]?
          = some Platform_Stack_Trace_Entry.zero) := by
  intro n
  induction n with
  | zero =>
    intro _
    refine ⟨by simp, fun j hj => absurd hj (Nat.not_lt_zero j), fun j _ hj => ?_⟩
    simp [hj]
  | succ n ih =>
    intro hn
    obtain ⟨h1, h2, h3⟩ := ih (Nat.le_of_succ_le hn)
    rw [List.range_succ, List.foldl_append]
    simp only [List.foldl_cons, List.foldl_nil]
    generalize (List.range n).foldl (translate_step b stack)
      (List.replicate stack.length Platform_Stack_Trace_Entry.zero, line0) = st at h1 h2 h3
    have hlt : n < stack.length := hn
    have hz : st.1.getD n Platform_Stack_Trace_Entry.zero = Platform_Stack_Trace_Entry.zero := by
      rw [List.getD_eq_getElem?_getD, h3 n (le_refl n) hlt]; rfl
    have hs : stack.getD n 0 = stack[n] := List.getD_eq_getElem _ _ hlt
    unfold translate_step
    simp only [hz, hs]
    refine ⟨by rw [List.length_set]; exact h1, fun j hj => ?_, fun j hj1 hj2 => ?_⟩
    · by_cases hjn : j = n
      · subst hjn
        rw [List.getElem?_set_self (by rw [h1]; exact hlt), List.getElem?_eq_getElem hlt]
        simp only [Option.map_some']
        rw [entry_line_indep b st.2 line0]
      · rw [List.getElem?_set_ne (fun h => hjn h.symm)]
        exact h2 j (by omega)
    · rw [List.getElem?_set_ne (by omega)]
      exact h3 j (by omega) hj2

theorem translate_entries (env : Env) (b : Dbghelp) (stack : List Nat) (w : Sym_World) :
    (platform_translate_call_stack env b stack w).1
      = stack.map (fun a =>
          (translate_entry b ⟨0, []⟩ Platform_Stack_Trace_Entry.zero a).1) := by
  unfold platform_translate_call_stack
  by_cases h0 : stack.length = 0
  · rw [if_pos h0]
    rw [List.length_eq_zero] at h0
    rw [h0]; rfl
  · rw [if_neg h0]
    obtain ⟨h1, h2, _⟩ := translate_loop b stack ⟨0, []⟩ stack.length (le_refl _)
    apply List.ext_getElem?
    intro j
    by_cases hj : j < stack.length
    · rw [List.getElem?_map]
      exact h2 j hj
    · rw [List.getElem?_eq_none (by simp only; rw [h1]; omega),
        List.getElem?_eq_none (by rw [List.length_map]; omega)]

theorem strlen_le (s : List Nat) : strlen s ≤ s.length :=
  (List.takeWhile_prefix _).length_le

theorem set_last_zero (l : List Nat) (h : l.length = 256) :
    (l.set (256 - 1) 0).length = 256 ∧ (l.set (256 - 1) 0)[255]? = some 0 := by
  refine ⟨by rw [List.length_set]; exact h, ?_⟩
  exact List.getElem?_set_self (by rw [h]; decide)

theorem entry_address (b : Dbghelp) (line : IMAGEHLP_LINE64) (e : Platform_Stack_Trace_Entry)
    (a : Nat) : (translate_entry b line e a).1.address = a := by
  unfold translate_entry
  by_cases h : a = 0
  · simp [h]
  · simp only [h, if_false]
    cases b.SymGetLineFromAddr64 a <;> cases b.SymGetModuleInfo64 a <;>
      by_cases hn : ((b.SymFromAddr a).getD []).head?.getD 0 = 0 <;> simp [hn]

theorem entry_zero_address (b : Dbghelp) (line : IMAGEHLP_LINE64)
    (e : Platform_Stack_Trace_Entry) :
    (translate_entry b line e 0).1 = { e with address := 0 } := by
  unfold translate_entry
  simp

theorem entry_fields (b : Dbghelp) (line : IMAGEHLP_LINE64) (e : Platform_Stack_Trace_Entry)
    (a : Nat) (h : a ≠ 0) :
    (translate_entry b line e a).1.function
      = ((if ((b.SymFromAddr a).getD []).headD 0 ≠ 0 then
            memmove e.function (b.UnDecorateSymbolName ((b.SymFromAddr a).getD []))
              (min (b.UnDecorateSymbolName ((b.SymFromAddr a).getD [])).length 256)
          else e.function).set (256 - 1) 0) ∧
    (translate_entry b line e a).1.module
      = ((match b.SymGetModuleInfo64 a with
          | some ImageName => memmove e.module ImageName 255
          | none => e.module).set (256 - 1) 0) ∧
    (translate_entry b line e a).1.file
      = ((match b.SymGetLineFromAddr64 a with
          | some found => memmove e.file found.FileName
              (if strlen found.FileName > 255 then 255 else strlen found.FileName)
          | none => e.file).set (256 - 1) 0) ∧
    (translate_entry b line e a).1.line
      = (match b.SymGetLineFromAddr64 a with
          | some found => (found.LineNumber : Int)
          | none => e.line) := by
  unfold translate_entry
  simp only [h, if_false]
  cases b.SymGetLineFromAddr64 a <;> cases b.SymGetModuleInfo64 a <;>
    by_cases hn : ((b.SymFromAddr a).getD []).head?.getD 0 = 0 <;>
    simp [hn]

theorem zero_fields :
    Platform_Stack_Trace_Entry.zero.function = List.replicate 256 0 ∧
    Platform_Stack_Trace_Entry.zero.module = List.replicate 256 0 ∧
    Platform_Stack_Trace_Entry.zero.file = List.replicate 256 0 ∧
    Platform_Stack_Trace_Entry.zero.line = 0 := ⟨rfl, rfl, rfl, rfl⟩

theorem replicate_terminated :
    (List.replicate 256 (0 : Nat)).length = 256 ∧ (List.replicate 256 (0 : Nat))[255]? = some 0 :=
  ⟨List.length_replicate _ _, List.getElem?_replicate_of_lt (by decide)⟩

theorem entry_terminated (b : Dbghelp) (line : IMAGEHLP_LINE64) (a : Nat) :
    (translate_entry b line Platform_Stack_Trace_Entry.zero a).1.function.length = 256 ∧
    (translate_entry b line Platform_Stack_Trace_Entry.zero a).1.function[255]? = some 0 ∧
    (translate_entry b line Platform_Stack_Trace_Entry.zero a).1.module.length = 256 ∧
    (translate_entry b line Platform_Stack_Trace_Entry.zero a).1.module[255]? = some 0 ∧
    (translate_entry b line Platform_Stack_Trace_Entry.zero a).1.file.length = 256 ∧
    (translate_entry b line Platform_Stack_Trace_Entry.zero a).1.file[255]? = some 0 := by
  by_cases h : a = 0
  · subst h
    rw [entry_zero_address]
    exact ⟨replicate_terminated.1, replicate_terminated.2, replicate_terminated.1,
      replicate_terminated.2, replicate_terminated.1, replicate_terminated.2⟩
  · obtain ⟨h1, h2, h3, _⟩ := entry_fields b line Platform_Stack_Trace_Entry.zero a h
    rw [h1, h2, h3]
    have l1 : (if ((b.SymFromAddr a).getD []).headD 0 ≠ 0 then
        memmove Platform_Stack_Trace_Entry.zero.function
          (b.UnDecorateSymbolName ((b.SymFromAddr a).getD []))
          (min (b.UnDecorateSymbolName ((b.SymFromAddr a).getD [])).length 256)
        else Platform_Stack_Trace_Entry.zero.function).length = 256 := by
      split_ifs
      · rw [memmove_length]; exact replicate_terminated.1
      · exact replicate_terminated.1
    have l2 : (match b.SymGetModuleInfo64 a with
        | some ImageName => memmove Platform_Stack_Trace_Entry.zero.module ImageName 255
        | none => Platform_Stack_Trace_Entry.zero.module).length = 256 := by
      cases b.SymGetModuleInfo64 a with
      | none => exact replicate_terminated.1
      | some n => simp only; rw [memmove_length]; exact replicate_terminated.1
    have l3 : (match b.SymGetLineFromAddr64 a with
        | some found => memmove Platform_Stack_Trace_Entry.zero.file found.FileName
            (if strlen found.FileName > 255 then 255 else strlen found.FileName)
        | none => Platform_Stack_Trace_Entry.zero.file).length = 256 := by
      cases b.SymGetLineFromAddr64 a with
      | none => exact replicate_terminated.1
      | some n => simp only; rw [memmove_length]; exact replicate_terminated.1
    exact ⟨(set_last_zero _ l1).1, (set_last_zero _ l1).2, (set_last_zero _ l2).1,
      (set_last_zero _ l2).2, (set_last_zero _ l3).1, (set_last_zero _ l3).2⟩

theorem long_file_name (dst name : List Nat) (hd : dst.length = 256) (h : 255 < strlen name) :
    (memmove dst name (if strlen name > 255 then 255 else strlen name)).set (256 - 1) 0
      = name.take 255 ++ [0] := by
  have hl : 255 ≤ name.length := le_trans (Nat.le_of_lt h) (strlen_le name)
  rw [if_pos h]
  unfold memmove
  rw [List.take_append_of_le_length hl]
  have hlen : (name.take 255).length = 255 := by rw [List.length_take]; exact min_eq_left hl
  have hdrop : (dst.drop 255).length = 1 := by rw [List.length_drop, hd]
  obtain ⟨x, hx⟩ := List.length_eq_one.mp hdrop
  rw [hx, hd, List.take_of_length_le (by rw [List.length_append, hlen]; rfl)]
  rw [List.set_append_right _ _ (by rw [hlen]), hlen]
  rfl

/-- C13: for every address list and every outcome of the symbol, module and
line lookups, with names of any length, `platform_translate_call_stack` yields
one entry per address, and in each entry the `function`, `module` and `file`
fields still have their 256 bytes with a zero byte at index 255; a resolved
file name longer than 255 bytes is stored as its first 255 bytes followed by
the terminator. -/
theorem translated_strings_are_terminated (env : Env) (b : Dbghelp) (stack : List Nat)
    (w : Sym_World) :
    (platform_translate_call_stack env b stack w).1.length = stack.length ∧
    (∀ e ∈ (platform_translate_call_stack env b stack w).1,
      e.function.length = 256 ∧ e.function[255]? = some 0 ∧
      e.module.length = 256 ∧ e.module[255]? = some 0 ∧
      e.file.length = 256 ∧ e.file[255]? = some 0) ∧
    (∀ (i a : Nat) (found : IMAGEHLP_LINE64), stack[i]? = some a → a ≠ 0 →
      b.SymGetLineFromAddr64 a = some found → 255 < strlen found.FileName →
      ∃ e, (platform_translate_call_stack env b stack w).1[i]? = some e ∧
        e.file = found.FileName.take 255 ++ [0]) := by
  rw [translate_entries]
  refine ⟨List.length_map _ _, ?_, ?_⟩
  · intro e he
    obtain ⟨a, _, rfl⟩ := List.mem_map.mp he
    exact entry_terminated b _ a
  · intro i a found hi ha hf hlen
    refine ⟨_, by rw [List.getElem?_map, hi]; rfl, ?_⟩
    rw [(entry_fields b _ Platform_Stack_Trace_Entry.zero a ha).2.2.1, hf]
    exact long_file_name _ _ replicate_terminated.1 hlen

/-- C14: in every batch, the entry of an address is the entry that translating
that address alone gives, whatever the other addresses of the batch resolve
to; its `address` field is the input address; its `file` is empty and its
`line` 0 when the line lookup fails, its `function` is empty when the symbol
lookup fails and its `module` is empty when the module lookup fails. -/
theorem lookup_failure_degrades_one_entry (env : Env) (b : Dbghelp) (stack : List Nat)
    (w w' : Sym_World) (i a : Nat) (h : stack[i]? = some a) :
    ∃ e, (platform_translate_call_stack env b stack w).1[i]? = some e ∧
      (platform_translate_call_stack env b [a] w').1 = [e] ∧
      e.address = a ∧
      (b.SymGetLineFromAddr64 a = none → e.file = List.replicate 256 0 ∧ e.line = 0) ∧
      (b.SymFromAddr a = none → e.function = List.replicate 256 0) ∧
      (b.SymGetModuleInfo64 a = none → e.module = List.replicate 256 0) := by
  rw [translate_entries, translate_entries]
  refine ⟨(translate_entry b ⟨0, []⟩ Platform_Stack_Trace_Entry.zero a).1,
    by rw [List.getElem?_map, h]; rfl, rfl, entry_address b _ _ a, ?_, ?_, ?_⟩
  · intro hf
    by_cases ha : a = 0
    · subst ha; rw [entry_zero_address]; exact ⟨rfl, rfl⟩
    · obtain ⟨_, _, h3, h4⟩ := entry_fields b ⟨0, []⟩ Platform_Stack_Trace_Entry.zero a ha
      rw [h3, h4, hf]
      exact ⟨List.set_replicate_self, rfl⟩
  · intro hf
    by_cases ha : a = 0
    · subst ha; rw [entry_zero_address]; rfl
    · rw [(entry_fields b ⟨0, []⟩ Platform_Stack_Trace_Entry.zero a ha).1, hf]
      simp only [Option.getD_none, List.headD_nil, ne_eq, not_true_eq_false, if_false]
      exact List.set_replicate_self
  · intro hf
    by_cases ha : a = 0
    · subst ha; rw [entry_zero_address]; rfl
    · rw [(entry_fields b ⟨0, []⟩ Platform_Stack_Trace_Entry.zero a ha).2.1, hf]
      exact List.set_replicate_self

theorem lowest_set_bit_spec (width mask : Nat) (h0 : mask ≠ 0) (hw : mask < 2 ^ width) :
    ∃ i, i < width ∧ lowest_set_bit width mask = some i ∧ mask.testBit i = true ∧
      ∀ j, j < i → mask.testBit j = false := by
  unfold lowest_set_bit
  cases hf : (List.range width).find? (fun i => mask.testBit i) with
  | none =>
    exfalso
    apply h0
    apply Nat.zero_of_testBit_eq_false
    intro i
    by_cases hi : i < width
    · have := List.find?_eq_none.mp hf i (List.mem_range.mpr hi)
      simpa using this
    · apply Nat.testBit_eq_false_of_lt
      exact lt_of_lt_of_le hw (Nat.pow_le_pow_right (by decide) (not_lt.mp hi))
  | some i =>
    obtain ⟨h1, h2, h3⟩ := List.find?_range_eq_some.mp hf
    refine ⟨i, List.mem_range.mp h2, rfl, h1, ?_⟩
    intro j hj
    simpa using h3 j hj

theorem bit_of_testBit (num i : Nat) (h : num.testBit i = true) : num &&& (1 <<< i) ≠ 0 := by
  intro h0
  have : (num &&& (1 <<< i)).testBit i = true := by
    rw [Nat.testBit_and, h, Nat.one_shiftLeft, Nat.testBit_two_pow_self]
    rfl
  rw [h0, Nat.zero_testBit] at this
  exact Bool.false_ne_true this

/-- The `_MSC_VER` branch satisfies the invariant documented in the header:
for every non-zero 32-bit `num` the bit at the returned position is set, and
the position is that of the lowest set bit. -/
theorem msvc_first_set_bit32 (num : Nat) (h0 : num ≠ 0) (hw : num < 2 ^ 32) :
    0 ≤ MSVC.platform_find_first_set_bit32 num ∧ MSVC.platform_find_first_set_bit32 num < 32 ∧
    num &&& (1 <<< (MSVC.platform_find_first_set_bit32 num).toNat) ≠ 0 := by
  obtain ⟨i, hi, e, hb, _⟩ := lowest_set_bit_spec 32 num h0 hw
  simp only [MSVC.platform_find_first_set_bit32, _BitScanForward, e, Option.getD_some,
    Int.toNat_ofNat]
  exact ⟨Int.natCast_nonneg i, by exact_mod_cast hi, bit_of_testBit num i hb⟩

/-- The 64-bit function of the `_MSC_VER` branch satisfies the documented
invariant as well. -/
theorem msvc_first_set_bit64 (num : Nat) (h0 : num ≠ 0) (hw : num < 2 ^ 64) :
    0 ≤ MSVC.platform_find_first_set_bit64 num ∧ MSVC.platform_find_first_set_bit64 num < 64 ∧
    num &&& (1 <<< (MSVC.platform_find_first_set_bit64 num).toNat) ≠ 0 := by
  obtain ⟨i, hi, e, hb, _⟩ := lowest_set_bit_spec 64 num h0 hw
  simp only [MSVC.platform_find_first_set_bit64, _BitScanForward64, e, Option.getD_some,
    Int.toNat_ofNat]
  exact ⟨Int.natCast_nonneg i, by exact_mod_cast hi, bit_of_testBit num i hb⟩

/-- The GCC/Clang branch returns the mirror image of the position the
`_MSC_VER` branch returns: `31 - p` (resp. `63 - p`) for the lowest set
bit `p`. -/
theorem gcc_first_set_bit_mirrors (num : Nat) (h0 : num ≠ 0) :
    (num < 2 ^ 32 → GCC.platform_find_first_set_bit32 num
        = 31 - MSVC.platform_find_first_set_bit32 num) ∧
    (num < 2 ^ 64 → GCC.platform_find_first_set_bit64 num
        = 63 - MSVC.platform_find_first_set_bit64 num) := by
  constructor
  · intro hw
    obtain ⟨i, _, e, _, _⟩ := lowest_set_bit_spec 32 num h0 hw
    simp only [GCC.platform_find_first_set_bit32, MSVC.platform_find_first_set_bit32,
      __builtin_ctz, _BitScanForward, e, Option.getD_some]
    omega
  · intro hw
    obtain ⟨i, _, e, _, _⟩ := lowest_set_bit_spec 64 num h0 hw
    simp only [GCC.platform_find_first_set_bit64, MSVC.platform_find_first_set_bit64,
      __builtin_ctzll, _BitScanForward64, e, Option.getD_some]
    omega

/-- C20: at `num = 1` the GCC/Clang `platform_find_first_set_bit32` returns 31
and `platform_find_first_set_bit64` returns 63, positions whose bit is clear
in `num`, so `num & (1 << position)` is 0; the `_MSC_VER` functions return
position 0 for the same input, whose bit is set. -/
theorem gcc_first_set_bit_breaks_invariant :
    GCC.platform_find_first_set_bit32 1 = 31 ∧
    1 &&& (1 <<< (GCC.platform_find_first_set_bit32 1).toNat) = 0 ∧
    GCC.platform_find_first_set_bit64 1 = 63 ∧
    1 &&& (1 <<< (GCC.platform_find_first_set_bit64 1).toNat) = 0 ∧
    MSVC.platform_find_first_set_bit32 1 = 0 ∧
    MSVC.platform_find_first_set_bit64 1 = 0 ∧
    1 &&& (1 <<< (MSVC.platform_find_first_set_bit32 1).toNat) ≠ 0 := by
  have g32 : GCC.platform_find_first_set_bit32 1 = 31 := by decide
  have g64 : GCC.platform_find_first_set_bit64 1 = 63 := by decide
  have m32 : MSVC.platform_find_first_set_bit32 1 = 0 := by decide
  have m64 : MSVC.platform_find_first_set_bit64 1 = 0 := by decide
  rw [g32, g64, m32, m64]
  decide

/-- Witness for C13: the sample backend resolves 0x401010 to a 300-byte file
name, which is stored as its first 255 bytes and a terminator. -/
theorem translated_strings_are_terminated_witness :
    ∃ e, (platform_translate_call_stack example_env example_dbghelp [0x401010, 0, 0x401020]
        example_world.sym).1[0]? = some e ∧
      e.file = (List.replicate 300 99).take 255 ++ [0] :=
  (translated_strings_are_terminated example_env example_dbghelp [0x401010, 0, 0x401020]
    example_world.sym).2.2 0 0x401010 ⟨42, List.replicate 300 99⟩ rfl (by decide) rfl
    (by rw [strlen, List.takeWhile_replicate, if_pos (by decide), List.length_replicate]; decide)

/-- Witness for C14: in the batch `[0x401010, 0x500000]` the second address has
no symbol, module or line record. -/
theorem lookup_failure_degrades_one_entry_witness :
    ∃ e, (platform_translate_call_stack example_env example_dbghelp [0x401010, 0x500000]
        example_world.sym).1[1]? = some e ∧
      (platform_translate_call_stack example_env example_dbghelp [0x500000]
        example_world.sym).1 = [e] ∧
      e.address = 0x500000 ∧ e.file = List.replicate 256 0 ∧ e.line = 0 ∧
      e.function = List.replicate 256 0 ∧ e.module = List.replicate 256 0 := by
  obtain ⟨e, h1, h2, h3, h4, h5, h6⟩ := lookup_failure_degrades_one_entry example_env
    example_dbghelp [0x401010, 0x500000] example_world.sym example_world.sym 1 0x500000 rfl
  exact ⟨e, h1, h2, h3, (h4 rfl).1, (h4 rfl).2, h5 rfl, h6 rfl⟩

theorem ticks_lt (t : FILETIME) : t.ticks < 2 ^ 64 := by
  unfold FILETIME.ticks
  have h1 : t.dwLowDateTime % 2 ^ 32 < 2 ^ 32 := Nat.mod_lt _ (by norm_num)
  have h2 : t.dwHighDateTime % 2 ^ 32 < 2 ^ 32 := Nat.mod_lt _ (by norm_num)
  norm_num at h1 h2 ⊢
  omega

theorem to_int64_offset (q : Nat) (h : q < 2 ^ 64) :
    to_int64 ((q / 10 + (2 ^ 64 - 11644473600000000)) % 2 ^ 64)
      = ((q / 10 : Nat) : Int) - 11644473600000000 := by
  unfold to_int64
  norm_num at h ⊢
  split_ifs <;> omega

theorem epoch_time_eq (t : FILETIME) :
    _filetime_to_epoch_time t = ((t.ticks / 10 : Nat) : Int) - 11644473600000000 :=
  to_int64_offset t.ticks (ticks_lt t)

/-- C23: `_filetime_to_epoch_time` returns `floor(t / 10) - 11644473600000000`
for every `FILETIME` with tick count `t` (every 64-bit count is the tick count
of a `FILETIME`); the tick count 116444736000000000 of 1970-01-01T00:00:00Z
maps to 0, one second later maps to 1000000, and the result is monotonically
non-decreasing in the tick count. -/
theorem epoch_time_is_microseconds :
    (∀ t : FILETIME,
      _filetime_to_epoch_time t = ((t.ticks / 10 : Nat) : Int) - 11644473600000000) ∧
    (∀ n : Nat, n < 2 ^ 64 → (FILETIME.mk (n % 2 ^ 32) (n / 2 ^ 32)).ticks = n) ∧
    (∀ t : FILETIME, t.ticks = 116444736000000000 → _filetime_to_epoch_time t = 0) ∧
    (∀ t : FILETIME, t.ticks = 116444736000000000 + 10000000 →
      _filetime_to_epoch_time t = 1000000) ∧
    (∀ t u : FILETIME, t.ticks ≤ u.ticks →
      _filetime_to_epoch_time t ≤ _filetime_to_epoch_time u) := by
  refine ⟨epoch_time_eq, ?_, ?_, ?_, ?_⟩
  · intro n hn
    unfold FILETIME.ticks
    norm_num at hn ⊢
    omega
  · intro t ht
    rw [epoch_time_eq, ht]
    norm_num
  · intro t ht
    rw [epoch_time_eq, ht]
    norm_num
  · intro t u h
    rw [epoch_time_eq, epoch_time_eq]
    have : t.ticks / 10 ≤ u.ticks / 10 := Nat.div_le_div_right h
    omega

/-- Witness for C23: the `FILETIME` of 1970-01-01T00:00:01Z. -/
theorem epoch_time_is_microseconds_witness :
    (FILETIME.mk 3587643008 27111902).ticks = 116444736000000000 + 10000000 ∧
    _filetime_to_epoch_time (FILETIME.mk 3587643008 27111902) = 1000000 :=
  ⟨by decide, epoch_time_is_microseconds.2.2.2.1 (FILETIME.mk 3587643008 27111902) (by decide)⟩

/-- C26: `_platform_error_code(state)` is `PLATFORM_ERROR_OK` exactly when
`state` is true; for a false `state` it is the last-error value of the
operating system when that is non-zero and `PLATFORM_ERROR_OTHER`, which is
not `PLATFORM_ERROR_OK`, when the operating system reports 0. -/
theorem error_code_ok_iff_state (env : Env) (state : Bool) :
    (_platform_error_code env state = PLATFORM_ERROR_OK ↔ state = true) ∧
    (state = false → env.GetLastError % 2 ^ 32 ≠ 0 →
      _platform_error_code env state = env.GetLastError % 2 ^ 32) ∧
    (state = false → env.GetLastError % 2 ^ 32 = 0 →
      _platform_error_code env state = PLATFORM_ERROR_OTHER) ∧
    (state = false → _platform_error_code env state ≠ PLATFORM_ERROR_OK) ∧
    PLATFORM_ERROR_OTHER ≠ PLATFORM_ERROR_OK := by
  have hne : PLATFORM_ERROR_OTHER ≠ PLATFORM_ERROR_OK := by decide
  cases state with
  | true => simp [_platform_error_code, hne]
  | false =>
    simp only [_platform_error_code, Bool.not_false, if_true]
    generalize env.GetLastError % 2 ^ 32 = e
    by_cases h : e = 0
    · simp [h, hne]
    · have hne0 : ¬PLATFORM_ERROR_OTHER = 0 := hne
      simp [h, hne0, PLATFORM_ERROR_OK]

/-- Witness for C26: a failed operation after which the operating system
reports error 5, and one after which it reports 0. -/
theorem error_code_ok_iff_state_witness :
    _platform_error_code { example_env with GetLastError := 5 } false = 5 ∧
    _platform_error_code example_env false = PLATFORM_ERROR_OTHER :=
  ⟨(error_code_ok_iff_state { example_env with GetLastError := 5 } false).2.1 rfl (by decide),
   (error_code_ok_iff_state example_env false).2.2.1 rfl (by decide)⟩

theorem and_write_ne_zero (a E : Nat) (h : a.testBit 1 = true) :
    a &&& (PLATFORM_MEMORY_PROT_WRITE ||| E) ≠ 0 := by
  intro h0
  have : (a &&& (PLATFORM_MEMORY_PROT_WRITE ||| E)).testBit 1 = true := by
    rw [Nat.testBit_and, Nat.testBit_or, h]
    have : PLATFORM_MEMORY_PROT_WRITE.testBit 1 = true := by decide
    rw [this]
    rfl
  rw [h0, Nat.zero_testBit] at this
  exact Bool.false_ne_true this

/-- The actions `RELEASE` and `DECOMMIT` return `NULL` whatever the protection,
and `PLATFORM_MEMORY_PROT_NO_ACCESS` is passed on as `PAGE_NOACCESS`. -/
theorem virtual_release_returns_null (E : Nat) (VirtualAlloc : Nat → Int → Nat → Nat → Nat)
    (adress : Nat) (bytes : Int) (protection : Nat) :
    platform_virtual_reallocate E VirtualAlloc adress bytes PLATFORM_VIRTUAL_ALLOC_RELEASE
      protection = (0, Virtual_Call.VirtualFree adress 0 MEM_RELEASE) ∧
    platform_virtual_reallocate E VirtualAlloc adress bytes PLATFORM_VIRTUAL_ALLOC_DECOMMIT
      protection = (0, Virtual_Call.VirtualFree adress bytes MEM_DECOMMIT) ∧
    (platform_virtual_reallocate E VirtualAlloc adress bytes PLATFORM_VIRTUAL_ALLOC_COMMIT
      PLATFORM_MEMORY_PROT_NO_ACCESS).2
      = Virtual_Call.VirtualAlloc adress bytes MEM_COMMIT PAGE_NOACCESS := by
  refine ⟨?_, ?_, ?_⟩
  · simp [platform_virtual_reallocate]
  · simp [platform_virtual_reallocate, PLATFORM_VIRTUAL_ALLOC_DECOMMIT,
      PLATFORM_VIRTUAL_ALLOC_RELEASE]
  · simp [platform_virtual_reallocate, PLATFORM_VIRTUAL_ALLOC_COMMIT,
      PLATFORM_VIRTUAL_ALLOC_DECOMMIT, PLATFORM_VIRTUAL_ALLOC_RELEASE,
      PLATFORM_VIRTUAL_ALLOC_RESERVE, PLATFORM_MEMORY_PROT_NO_ACCESS]

theorem virtual_commit (E : Nat) (VirtualAlloc : Nat → Int → Nat → Nat → Nat)
    (adress : Nat) (bytes : Int) (protection : Nat) :
    (platform_virtual_reallocate E VirtualAlloc adress bytes PLATFORM_VIRTUAL_ALLOC_COMMIT
      protection).2
      = Virtual_Call.VirtualAlloc adress bytes MEM_COMMIT
          (if protection &&& (PLATFORM_MEMORY_PROT_WRITE ||| E) ≠ 0 then PAGE_EXECUTE_READWRITE
           else PAGE_NOACCESS) := by
  simp [platform_virtual_reallocate, PLATFORM_VIRTUAL_ALLOC_COMMIT,
    PLATFORM_VIRTUAL_ALLOC_DECOMMIT, PLATFORM_VIRTUAL_ALLOC_RELEASE,
    PLATFORM_VIRTUAL_ALLOC_RESERVE]

theorem virtual_reserve (E : Nat) (VirtualAlloc : Nat → Int → Nat → Nat → Nat)
    (adress : Nat) (bytes : Int) (protection : Nat) :
    (platform_virtual_reallocate E VirtualAlloc adress bytes PLATFORM_VIRTUAL_ALLOC_RESERVE
      protection).2
      = Virtual_Call.VirtualAlloc adress bytes MEM_RESERVE
          (if protection &&& (PLATFORM_MEMORY_PROT_WRITE ||| E) ≠ 0 then PAGE_EXECUTE_READWRITE
           else PAGE_NOACCESS) := by
  simp [platform_virtual_reallocate, PLATFORM_VIRTUAL_ALLOC_COMMIT,
    PLATFORM_VIRTUAL_ALLOC_DECOMMIT, PLATFORM_VIRTUAL_ALLOC_RELEASE,
    PLATFORM_VIRTUAL_ALLOC_RESERVE]

/-- C29 (the code at failing inputs): whatever value the enumerator
`PLATFORM_MEMORY_PROT_EXECUTE` has, committing 4096 bytes with
`PLATFORM_MEMORY_PROT_READ` does not pass `PAGE_READONLY` to `VirtualAlloc`
(with the value 4 it passes `PAGE_NOACCESS`), and committing or reserving with
`PLATFORM_MEMORY_PROT_WRITE` or `PLATFORM_MEMORY_PROT_READ_WRITE` passes
`PAGE_EXECUTE_READWRITE`, not `PAGE_READWRITE`. -/
theorem virtual_protection_is_overwritten (E : Nat)
    (VirtualAlloc : Nat → Int → Nat → Nat → Nat) :
    (platform_virtual_reallocate E VirtualAlloc 0 4096 PLATFORM_VIRTUAL_ALLOC_COMMIT
      PLATFORM_MEMORY_PROT_READ).2
      ≠ Virtual_Call.VirtualAlloc 0 4096 MEM_COMMIT PAGE_READONLY ∧
    (platform_virtual_reallocate 4 VirtualAlloc 0 4096 PLATFORM_VIRTUAL_ALLOC_COMMIT
      PLATFORM_MEMORY_PROT_READ).2
      = Virtual_Call.VirtualAlloc 0 4096 MEM_COMMIT PAGE_NOACCESS ∧
    (platform_virtual_reallocate E VirtualAlloc 0 4096 PLATFORM_VIRTUAL_ALLOC_COMMIT
      PLATFORM_MEMORY_PROT_WRITE).2
      = Virtual_Call.VirtualAlloc 0 4096 MEM_COMMIT PAGE_EXECUTE_READWRITE ∧
    (platform_virtual_reallocate E VirtualAlloc 0 4096 PLATFORM_VIRTUAL_ALLOC_RESERVE
      PLATFORM_MEMORY_PROT_READ_WRITE).2
      = Virtual_Call.VirtualAlloc 0 4096 MEM_RESERVE PAGE_EXECUTE_READWRITE ∧
    PAGE_EXECUTE_READWRITE ≠ PAGE_READWRITE := by
  refine ⟨?_, ?_, ?_, ?_, by decide⟩
  · rw [virtual_commit]
    split_ifs
    · simp [PAGE_EXECUTE_READWRITE, PAGE_READONLY]
    · simp [PAGE_NOACCESS, PAGE_READONLY]
  · rw [virtual_commit]
    rfl
  · rw [virtual_commit, if_pos (and_write_ne_zero _ E (by decide))]
  · rw [virtual_reserve, if_pos (and_write_ne_zero _ E (by decide))]

/-- The GCC/Clang `platform_find_last_set_bit32` returns the position of the
lowest set bit, the position the `_MSC_VER` branch returns from
`platform_find_first_set_bit32`. -/
theorem gcc_last_set_bit_is_lowest (num : Nat) (h0 : num ≠ 0) :
    (num < 2 ^ 32 → GCC.platform_find_last_set_bit32 num
        = MSVC.platform_find_first_set_bit32 num) ∧
    (num < 2 ^ 64 → GCC.platform_find_last_set_bit64 num
        = MSVC.platform_find_first_set_bit64 num) := by
  constructor
  · intro hw
    obtain ⟨i, _, e, _, _⟩ := lowest_set_bit_spec 32 num h0 hw
    simp [GCC.platform_find_last_set_bit32, MSVC.platform_find_first_set_bit32,
      __builtin_ffs, _BitScanForward, e]
  · intro hw
    obtain ⟨i, _, e, _, _⟩ := lowest_set_bit_spec 64 num h0 hw
    simp [GCC.platform_find_last_set_bit64, MSVC.platform_find_first_set_bit64,
      __builtin_ffsll, _BitScanForward64, e]

/-- C21 (the code at failing inputs): for `num = 2` both branches return
position 1 from `platform_find_last_set_bit32` and from
`platform_find_last_set_bit64`, and `num & (1 << (32 - 1))`, resp.
`num & (1 << (64 - 1))`, is 0; for `num = 6` the `_MSC_VER` branch returns 2,
the highest set bit, and the GCC/Clang branch returns 1, the lowest. -/
theorem last_set_bit_breaks_invariant :
    MSVC.platform_find_last_set_bit32 2 = 1 ∧
    GCC.platform_find_last_set_bit32 2 = 1 ∧
    2 &&& ((1 <<< (32 - MSVC.platform_find_last_set_bit32 2).toNat) % 2 ^ 32) = 0 ∧
    2 &&& ((1 <<< (32 - GCC.platform_find_last_set_bit32 2).toNat) % 2 ^ 32) = 0 ∧
    MSVC.platform_find_last_set_bit64 2 = 1 ∧
    GCC.platform_find_last_set_bit64 2 = 1 ∧
    2 &&& ((1 <<< (64 - MSVC.platform_find_last_set_bit64 2).toNat) % 2 ^ 64) = 0 ∧
    2 &&& ((1 <<< (64 - GCC.platform_find_last_set_bit64 2).toNat) % 2 ^ 64) = 0 ∧
    MSVC.platform_find_last_set_bit32 6 = 2 ∧
    GCC.platform_find_last_set_bit32 6 = 1 := by
  have m32 : MSVC.platform_find_last_set_bit32 2 = 1 := by decide
  have g32 : GCC.platform_find_last_set_bit32 2 = 1 := by decide
  have m64 : MSVC.platform_find_last_set_bit64 2 = 1 := by decide
  have g64 : GCC.platform_find_last_set_bit64 2 = 1 := by decide
  have m6 : MSVC.platform_find_last_set_bit32 6 = 2 := by decide
  have g6 : GCC.platform_find_last_set_bit32 6 = 1 := by decide
  rw [m32, g32, m64, g64, m6, g6]
  decide

theorem wrap_int64_add (a b : Int) : wrap_int64 (a + wrap_int64 b) = wrap_int64 (a + b) := by
  unfold wrap_int64
  norm_num
  omega

theorem wrap_int32_add (a b : Int) : wrap_int32 (a + wrap_int32 b) = wrap_int32 (a + b) := by
  unfold wrap_int32
  norm_num
  omega

/-- The `_MSC_VER` branch matches the header: the additions return the value
`*target` held before and leave `old + value`, the subtractions return the old
value and leave `old - value` (wrapping). -/
theorem msvc_atomic_add_returns_old (target value : Int) :
    MSVC.platform_atomic_add64 target value = (target, wrap_int64 (target + value)) ∧
    MSVC.platform_atomic_add32 target value = (target, wrap_int32 (target + value)) ∧
    MSVC.platform_atomic_sub64 target value = (target, wrap_int64 (target - value)) ∧
    MSVC.platform_atomic_sub32 target value = (target, wrap_int32 (target - value)) := by
  refine ⟨rfl, rfl, ?_, ?_⟩
  · simp only [MSVC.platform_atomic_sub64, MSVC.platform_atomic_add64,
      _InterlockedExchangeAdd64, wrap_int64_add]
    rfl
  · simp only [MSVC.platform_atomic_sub32, MSVC.platform_atomic_add32,
      _InterlockedExchangeAdd, wrap_int32_add]
    rfl

/-- The GCC/Clang branch returns the value `*target` holds after the
operation, for every input. -/
theorem gcc_atomic_add_returns_result (target value : Int) :
    GCC.platform_atomic_add64 target value
      = (wrap_int64 (target + value), wrap_int64 (target + value)) ∧
    GCC.platform_atomic_add32 target value
      = (wrap_int32 (target + value), wrap_int32 (target + value)) ∧
    GCC.platform_atomic_sub64 target value
      = (wrap_int64 (target - value), wrap_int64 (target - value)) ∧
    GCC.platform_atomic_sub32 target value
      = (wrap_int32 (target - value), wrap_int32 (target - value)) :=
  ⟨rfl, rfl, rfl, rfl⟩

/-- C22 (the code at a failing input): with `*target == 0`,
`platform_atomic_add64(target, 1)` of the GCC/Clang branch returns 1, the new
value, where the `_MSC_VER` branch returns 0, the old one (likewise the 32-bit
addition and the subtractions from 5 of 2); so the first
`perf_end_atomic_delta` on a zeroed counter sees `runs == 1` on GCC/Clang,
skips the first-run set-up and leaves `min_counter` at 0 and `frquency` at 0,
and sees `runs == 0` on MSVC. -/
theorem gcc_atomic_add_returns_new_value :
    GCC.platform_atomic_add64 0 1 = (1, 1) ∧
    MSVC.platform_atomic_add64 0 1 = (0, 1) ∧
    GCC.platform_atomic_add32 0 1 = (1, 1) ∧
    MSVC.platform_atomic_add32 0 1 = (0, 1) ∧
    GCC.platform_atomic_sub64 5 2 = (3, 3) ∧
    MSVC.platform_atomic_sub64 5 2 = (5, 3) ∧
    GCC.platform_atomic_sub32 5 2 = (3, 3) ∧
    MSVC.platform_atomic_sub32 5 2 = (5, 3) ∧
    (perf_end_atomic_delta GCC.platform_atomic_add64 10000000 Perf_Counter.zero 7 true).1 = 1 ∧
    (perf_end_atomic_delta GCC.platform_atomic_add64 10000000 Perf_Counter.zero 7 true).2
      = { counter := 7, runs := 1, frquency := 0, mean_estimate := 0,
          sum_of_squared_offset_counters := 49, max_counter := 7, min_counter := 0 } ∧
    (perf_end_atomic_delta MSVC.platform_atomic_add64 10000000 Perf_Counter.zero 7 true).1 = 0 ∧
    (perf_end_atomic_delta MSVC.platform_atomic_add64 10000000 Perf_Counter.zero 7 true).2
      = { counter := 7, runs := 1, frquency := 10000000, mean_estimate := 7,
          sum_of_squared_offset_counters := 0, max_counter := 7, min_counter := 7 } := by
  refine ⟨?_, ?_, ?_, ?_, ?_, ?_, ?_, ?_, ?_, ?_, ?_, ?_⟩ <;> decide

theorem thread_join_first_batch (threads : List Nat) (count : Int) (h : 1 < count) :
    ∃ rest, platform_thread_join threads count
      = Wait_Call.WaitForMultipleObjects 256
          ((List.range 256).map (fun handle_count => threads[handle_count]?)) :: rest ∧
      rest = platform_thread_join_loop threads count (count.toNat - 1) 256 := by
  unfold platform_thread_join
  rw [if_neg (by omega)]
  obtain ⟨n, hn⟩ : ∃ n, count.toNat = n + 1 := ⟨count.toNat - 1, by omega⟩
  have e : platform_thread_join_loop threads count (n + 1) 0
      = Wait_Call.WaitForMultipleObjects 256
          ((List.range 256).map (fun handle_count => threads[handle_count]?))
        :: platform_thread_join_loop threads count n 256 := by
    rw [platform_thread_join_loop, if_pos (by omega)]
    simp
  rw [hn, e]
  exact ⟨_, rfl, by simp⟩

/-- C25 (the code at a failing input): `platform_thread_join(threads, 2)` on
an array of two handles makes one `WaitForMultipleObjects` call with 256
handles; the first two are the handles of the array and each of the other 254
is read from `threads[k]` with `k >= 2`, outside the array. -/
theorem thread_join_reads_past_count :
    ∃ handles, platform_thread_join [7, 8] 2
        = [Wait_Call.WaitForMultipleObjects 256 handles] ∧
      handles.length = 256 ∧
      handles.take 3 = [some 7, some 8, none] ∧
      ∀ k, 2 ≤ k → k < 256 → handles[k]? = some none := by
  refine ⟨(List.range 256).map (fun handle_count => [7, 8][handle_count]?), ?_, ?_, ?_, ?_⟩
  · obtain ⟨rest, h, hr⟩ := thread_join_first_batch [7, 8] 2 (by decide)
    rw [h, hr]
    rfl
  · simp
  · rw [← List.map_take, List.take_range]
    rfl
  · intro k h1 h2
    rw [List.getElem?_map, List.getElem?_range h2]
    simp
    omega

theorem module_handles_length (env : Env) : (module_handles env).length = MAX_MODULES := by
  unfold module_handles
  rw [List.length_append, List.length_take, List.length_replicate]
  omega

theorem init_reads_past_array (env : Env) (w : Sym_World)
    (h0 : w.stack_trace_state.init = false) (h1 : env.SymInitialize = true)
    (h2 : MAX_MODULES < env.loaded_modules.length)
    (h3 : 8 * env.loaded_modules.length < 2 ^ 32) :
    Sym_Call.SymLoadModuleExW MAX_MODULES none ∈ (_platform_stack_trace_init env w).calls := by
  rw [(init_first env w h0 h1).1]
  apply List.mem_append_right
  apply List.mem_append_left
  apply List.mem_append_right
  apply List.mem_map.mpr
  refine ⟨MAX_MODULES, List.mem_range.mpr ?_, ?_⟩
  · unfold module_handles_size_needed
    rw [Nat.mod_eq_of_lt h3]
    omega
  · rw [List.getElem?_eq_none (by rw [module_handles_length])]

/-- C30 (the code at a failing input): in a process with 129 loaded modules
the first `_platform_stack_trace_init` reads `module_handles[128]`, one slot
past the 128 slots of the array, and registers what it reads there. -/
theorem init_reads_past_module_handles :
    example_env_crowded.loaded_modules.length = 129 ∧
    (module_handles example_env_crowded).length = 128 ∧
    module_handles_size_needed example_env_crowded / 8 = 129 ∧
    Sym_Call.SymLoadModuleExW 128 none
      ∈ (_platform_stack_trace_init example_env_crowded example_world.sym).calls := by
  have hl : example_env_crowded.loaded_modules.length = 129 := by
    simp [example_env_crowded]
  refine ⟨hl, module_handles_length _, ?_, ?_⟩
  · unfold module_handles_size_needed
    rw [hl]
    decide
  · exact init_reads_past_array example_env_crowded example_world.sym rfl rfl
      (by rw [hl]; decide) (by rw [hl]; decide)

theorem wrap_int64_id (x : Int) (h1 : -(2 ^ 63) ≤ x) (h2 : x < 2 ^ 63) : wrap_int64 x = x := by
  unfold wrap_int64
  norm_num at h1 h2 ⊢
  omega

theorem perf_end_delta_fields (freq : Int) (c : Perf_Counter) (d : Int) :
    (perf_end_delta freq c d).runs = wrap_int64 (c.runs + 1) ∧
    (perf_end_delta freq c d).counter = wrap_int64 (c.counter + d) ∧
    (perf_end_delta freq c d).min_counter
      = MIN (if c.runs = 0 then INT64_MAX else c.min_counter) d ∧
    (perf_end_delta freq c d).max_counter
      = MAX (if c.runs = 0 then INT64_MIN else c.max_counter) d := by
  unfold perf_end_delta
  by_cases h : c.runs = 0 <;> simp [h]

theorem perf_record_snoc (freq : Int) (ds : List Int) (d : Int) :
    perf_record freq (ds ++ [d]) = perf_end_delta freq (perf_record freq ds) d := by
  simp [perf_record, List.foldl_append]

theorem perf_record_spec (freq : Int) (ds : List Int) :
    (∀ d ∈ ds, 0 ≤ d) → ds.sum < 2 ^ 63 → (ds.length : Int) < 2 ^ 63 →
    (perf_record freq ds).runs = ds.length ∧
    (perf_record freq ds).counter = ds.sum ∧
    (ds ≠ [] → (perf_record freq ds).min_counter ∈ ds ∧
      (∀ d ∈ ds, (perf_record freq ds).min_counter ≤ d) ∧
      (perf_record freq ds).max_counter ∈ ds ∧
      (∀ d ∈ ds, d ≤ (perf_record freq ds).max_counter)) := by
  induction ds using List.reverseRecOn with
  | nil => intro _ _ _; exact ⟨rfl, rfl, fun h => absurd rfl h⟩
  | append_singleton ds d ih =>
    intro hpos hsum hlen
    have hd : 0 ≤ d := hpos d (by simp)
    have hpos1 : ∀ x ∈ ds, 0 ≤ x := fun x hx => hpos x (by simp [hx])
    have hs0 : 0 ≤ ds.sum := List.sum_nonneg hpos1
    rw [List.sum_append, List.sum_singleton] at hsum
    rw [List.length_append, List.length_singleton] at hlen
    push_cast at hlen
    obtain ⟨hr, hc, hm⟩ := ih hpos1 (by omega) (by omega)
    obtain ⟨f1, f2, f3, f4⟩ := perf_end_delta_fields freq (perf_record freq ds) d
    rw [perf_record_snoc]
    refine ⟨?_, ?_, ?_⟩
    · rw [f1, hr, wrap_int64_id _ (by omega) (by omega)]
      simp
    · rw [f2, hc, wrap_int64_id _ (by omega) (by omega)]
      simp
    · intro _
      rw [f3, f4, hr]
      by_cases he : ds = []
      · subst he
        have h1 : MIN INT64_MAX d = d := by
          unfold MIN INT64_MAX
          simp at hsum
          rw [if_neg (by omega)]
        have h2 : MAX INT64_MIN d = d := by
          unfold MAX INT64_MIN
          rw [if_neg (by omega)]
        simp [h1, h2]
      · have hn : ¬ ((ds.length : Int) = 0) := by
          intro h0
          exact he (List.length_eq_zero.mp (by exact_mod_cast h0))
        obtain ⟨m1, m2, m3, m4⟩ := hm he
        rw [if_neg hn, if_neg hn]
        unfold MIN MAX
        refine ⟨?_, ?_, ?_, ?_⟩
        · split_ifs <;> simp [m1]
        · intro x hx
          rcases List.mem_append.mp hx with hx | hx
          · have := m2 x hx
            split_ifs <;> omega
          · simp at hx
            subst hx
            split_ifs <;> omega
        · split_ifs <;> simp [m3]
        · intro x hx
          rcases List.mem_append.mp hx with hx | hx
          · have := m4 x hx
            split_ifs <;> omega
          · simp at hx
            subst hx
            split_ifs <;> omega

theorem min_times_length_le_sum (ds : List Int) (m : Int) (h : ∀ d ∈ ds, m ≤ d) :
    m * ds.length ≤ ds.sum := by
  induction ds with
  | nil => simp
  | cons a l ih =>
    have h1 := h a (by simp)
    have h2 := ih (fun d hd => h d (by simp [hd]))
    simp only [List.length_cons, List.sum_cons]
    push_cast
    nlinarith

theorem sum_le_max_times_length (ds : List Int) (m : Int) (h : ∀ d ∈ ds, d ≤ m) :
    ds.sum ≤ m * ds.length := by
  induction ds with
  | nil => simp
  | cons a l ih =>
    have h1 := h a (by simp)
    have h2 := ih (fun d hd => h d (by simp [hd]))
    simp only [List.length_cons, List.sum_cons]
    push_cast
    nlinarith

/-- C27: after `n >= 1` calls `perf_end_delta(counter, d_i)` on a
zero-initialised counter, with every `d_i >= 0`, the sum of the `d_i` and `n`
below `2^63`: `runs = n`, `counter` is the sum of the `d_i`, `min_counter` is
the smallest and `max_counter` the largest of the `d_i`; so
`min_counter * runs <= counter` and `max_counter * runs >= counter`, the first
assertion of `perf_get_stats` passes, and the second passes when its product
`max_counter * runs` does not overflow; both pass on the untouched zero
counter. -/
theorem perf_counter_tracks_deltas (freq : Int) (ds : List Int) (hne : ds ≠ [])
    (hpos : ∀ d ∈ ds, 0 ≤ d) (hsum : ds.sum < 2 ^ 63) (hlen : (ds.length : Int) < 2 ^ 63) :
    (perf_record freq ds).runs = ds.length ∧
    (perf_record freq ds).counter = ds.sum ∧
    (perf_record freq ds).min_counter ∈ ds ∧
    (∀ d ∈ ds, (perf_record freq ds).min_counter ≤ d) ∧
    (perf_record freq ds).max_counter ∈ ds ∧
    (∀ d ∈ ds, d ≤ (perf_record freq ds).max_counter) ∧
    (perf_record freq ds).min_counter * (perf_record freq ds).runs
      ≤ (perf_record freq ds).counter ∧
    (perf_record freq ds).max_counter * (perf_record freq ds).runs
      ≥ (perf_record freq ds).counter ∧
    perf_get_stats_assert_min (perf_record freq ds) = true ∧
    ((perf_record freq ds).max_counter * (perf_record freq ds).runs < 2 ^ 63 →
      perf_get_stats_assert_max (perf_record freq ds) = true) ∧
    perf_get_stats_assert_min Perf_Counter.zero = true ∧
    perf_get_stats_assert_max Perf_Counter.zero = true := by
  obtain ⟨hr, hc, hm⟩ := perf_record_spec freq ds hpos hsum hlen
  obtain ⟨m1, m2, m3, m4⟩ := hm hne
  have a1 := min_times_length_le_sum ds _ m2
  have a2 := sum_le_max_times_length ds _ m4
  have p1 : 0 ≤ (perf_record freq ds).min_counter := hpos _ m1
  have p2 : 0 ≤ (perf_record freq ds).min_counter * (ds.length : Int) :=
    mul_nonneg p1 (Int.natCast_nonneg _)
  have s0 : 0 ≤ ds.sum := List.sum_nonneg hpos
  refine ⟨hr, hc, m1, m2, m3, m4, ?_, ?_, ?_, ?_, by decide, by decide⟩
  · rw [hr, hc]; exact a1
  · rw [hr, hc]; exact a2
  · unfold perf_get_stats_assert_min
    rw [hr, hc, wrap_int64_id _ (by omega) (by omega)]
    exact decide_eq_true a1
  · intro hmax
    unfold perf_get_stats_assert_max
    rw [hr] at hmax
    rw [hr, hc, wrap_int64_id _ (by omega) hmax]
    exact decide_eq_true a2

/-- Witness for C27: the deltas 3, 1, 2. -/
theorem perf_counter_tracks_deltas_witness :
    (perf_record 10000000 [3, 1, 2]).runs = 3 ∧
    (perf_record 10000000 [3, 1, 2]).counter = 6 ∧
    (perf_record 10000000 [3, 1, 2]).min_counter = 1 ∧
    (perf_record 10000000 [3, 1, 2]).max_counter = 3 ∧
    perf_get_stats_assert_min (perf_record 10000000 [3, 1, 2]) = true := by
  have h := perf_counter_tracks_deltas 10000000 [3, 1, 2] (by decide) (by decide) (by decide)
    (by decide)
  exact ⟨h.1, h.2.1, by decide, by decide, h.2.2.2.2.2.2.2.2.1⟩

/-- C28 (the code at failing inputs): for the deltas 5, 5 the counter holds
`counter = 10`, `sum_of_squared_offset_counters = 0` (offsets are taken from
`mean_estimate = 5`), and the variance expression of `perf_get_stats` is
`(0 - 10 * 10 / 2) / (2 - 1) = -50`, while the sample variance of equal deltas
is 0; for the deltas 1, 3 the expression is `-4` and the sample variance
is 2. -/
theorem variance_mixes_offset_and_raw_sums :
    perf_record 10000000 [5, 5]
      = { counter := 10, runs := 2, frquency := 10000000, mean_estimate := 5,
          sum_of_squared_offset_counters := 0, max_counter := 5, min_counter := 5 } ∧
    perf_get_stats_varience_ns (perf_record 10000000 [5, 5]) = -50 ∧
    sample_variance [5, 5] = 0 ∧
    perf_get_stats_varience_ns (perf_record 10000000 [1, 3]) = -4 ∧
    sample_variance [1, 3] = 2 := by
  have e1 : perf_record 10000000 [5, 5]
      = { counter := 10, runs := 2, frquency := 10000000, mean_estimate := 5,
          sum_of_squared_offset_counters := 0, max_counter := 5, min_counter := 5 } := by
    decide
  have e2 : perf_record 10000000 [1, 3]
      = { counter := 4, runs := 2, frquency := 10000000, mean_estimate := 1,
          sum_of_squared_offset_counters := 4, max_counter := 3, min_counter := 1 } := by
    decide
  refine ⟨e1, ?_, ?_, ?_, ?_⟩
  · rw [e1]; norm_num [perf_get_stats_varience_ns]
  · norm_num [sample_variance]
  · rw [e2]; norm_num [perf_get_stats_varience_ns]
  · norm_num [sample_variance]

theorem unwind_pcs_length (env : Env) :
    ∀ (k : Nat) (frame : STACKFRAME64) (context : CONTEXT),
      (unwind_pcs env k frame context).length ≤ k := by
  intro k
  induction k with
  | zero => intro _ _; simp [unwind_pcs]
  | succ n ih =>
    intro frame context
    unfold unwind_pcs
    cases h : env.StackWalk64 frame context with
    | none => simp
    | some p =>
      obtain ⟨f, c⟩ := p
      simp only [List.length_cons]
      exact Nat.succ_le_succ (ih f c)

theorem take_succ_set (frames : List Nat) (i pc : Nat) (h : i < frames.length) :
    (frames.set i pc).take (i + 1) = frames.take i ++ [pc] := by
  rw [List.set_eq_take_append_cons_drop, if_pos h, List.take_append_eq_append_take,
    List.length_take, Nat.min_eq_left (Nat.le_of_lt h), List.take_take,
    Nat.min_eq_right (Nat.le_succ i), Nat.add_sub_cancel_left]
  rfl

theorem walk_loop_spec (env : Env) :
    ∀ (fuel : Nat) (frame : STACKFRAME64) (context : CONTEXT) (frames : List Nat)
      (fc sk i : Nat), i ≤ fc → fc ≤ frames.length → sk + (fc - i) ≤ fuel →
      _platform_stack_trace_walk_loop env fuel frame context frames (fc : Int) (sk : Int) (i : Int)
        = (frames.take i
            ++ ((unwind_pcs env (sk + (fc - i)) frame context).drop sk).takeWhile
                (fun pc => pc ≠ 0)
            ++ frames.drop (i + (((unwind_pcs env (sk + (fc - i)) frame context).drop
                sk).takeWhile (fun pc => pc ≠ 0)).length),
           ((i + (((unwind_pcs env (sk + (fc - i)) frame context).drop sk).takeWhile
                (fun pc => pc ≠ 0)).length : Nat) : Int)) := by
  intro fuel
  induction fuel with
  | zero =>
    intro frame context frames fc sk i h1 h2 h3
    have e1 : sk = 0 := by omega
    have e2 : fc - i = 0 := by omega
    subst e1
    rw [e2]
    simp [_platform_stack_trace_walk_loop, unwind_pcs]
  | succ n ih =>
    intro frame context frames fc sk i h1 h2 h3
    unfold _platform_stack_trace_walk_loop
    by_cases hlt : (i : Int) < (fc : Int)
    · rw [if_pos hlt]
      have hlt' : i < fc := by exact_mod_cast hlt
      obtain ⟨k, hk⟩ : ∃ k, sk + (fc - i) = k + 1 := ⟨sk + (fc - i) - 1, by omega⟩
      rw [hk]
      unfold unwind_pcs
      cases hsw : env.StackWalk64 frame context with
      | none => simp
      | some p =>
        obtain ⟨f2, c2⟩ := p
        simp only
        by_cases hsk : (sk : Int) > 0
        · rw [if_pos hsk]
          have hsk' : 0 < sk := by exact_mod_cast hsk
          obtain ⟨s, hs⟩ : ∃ s, sk = s + 1 := ⟨sk - 1, by omega⟩
          subst hs
          have hk' : k = s + (fc - i) := by omega
          have hc : (((s + 1 : Nat) : Int) - 1) = ((s : Nat) : Int) := by push_cast; ring
          rw [hc, ih f2 c2 frames fc s i h1 h2 (by omega), hk']
          simp only [List.drop_succ_cons]
        · rw [if_neg hsk]
          have hsk' : sk = 0 := by
            have : ¬ (0 < sk) := by exact_mod_cast hsk
            omega
          subst hsk'
          by_cases hpc : f2.AddrPC ≠ 0
          · rw [if_pos hpc]
            have hc : ((i : Int) + 1) = ((i + 1 : Nat) : Int) := by push_cast; ring
            have hk' : k = 0 + (fc - (i + 1)) := by omega
            rw [hc, Int.toNat_ofNat,
              ih f2 c2 (frames.set i f2.AddrPC) fc 0 (i + 1) (by omega)
                (by rw [List.length_set]; exact h2) (by omega), ← hk']
            simp only [List.drop_zero, Nat.cast_zero]
            rw [List.takeWhile_cons_of_pos (by simpa using hpc),
              take_succ_set frames i _ (by omega),
              List.drop_set_of_lt _ _ (by omega)]
            simp only [List.length_cons, List.append_assoc, List.singleton_append]
            refine Prod.ext ?_ ?_
            · simp only
              congr 3
              omega
            · simp only
              congr 1
              omega
          · rw [if_neg hpc]
            have hz : f2.AddrPC = 0 := by simpa using hpc
            simp [hz]
    · rw [if_neg hlt]
      have hge : fc ≤ i := by
        have : ¬ (i < fc) := by exact_mod_cast hlt
        omega
      have e2 : fc - i = 0 := by omega
      rw [e2, Nat.add_zero, List.drop_eq_nil_of_le (unwind_pcs_length env sk frame context)]
      simp

theorem takeWhile_stop (p : Nat → Bool) :
    ∀ l : List Nat, l[(l.takeWhile p).length]? = none ∨
      ∃ x, l[(l.takeWhile p).length]? = some x ∧ p x = false := by
  intro l
  induction l with
  | nil => left; rfl
  | cons a t ih =>
    by_cases h : p a = true
    · rw [List.takeWhile_cons_of_pos h]
      simpa using ih
    · rw [List.takeWhile_cons_of_neg h]
      right
      exact ⟨a, by simp, by simpa using h⟩

theorem walk_spec_length (env : Env) (context : CONTEXT) (fc sk : Nat) :
    (walk_spec env context fc sk).length ≤ fc := by
  unfold walk_spec
  refine le_trans (List.takeWhile_sublist _).length_le ?_
  rw [List.length_drop]
  have := unwind_pcs_length env (sk + fc)
    { AddrPC := context.Rip, AddrFrame := context.Rsp, AddrStack := context.Rsp } context
  omega

theorem walk_eq_loop (env : Env) (context : CONTEXT) (image_type : Nat) (frames : List Nat)
    (frame_count skip_count : Int) (w : Sym_World) :
    (_platform_stack_trace_walk env context image_type frames frame_count skip_count w).1
      = _platform_stack_trace_walk_loop env (skip_count.toNat + frame_count.toNat)
          { AddrPC := context.Rip, AddrFrame := context.Rsp, AddrStack := context.Rsp }
          context frames frame_count skip_count 0 := rfl

/-- C24: for every CPU context, `frame_count >= 0`, `skip_count >= 0`, buffer
of at least `frame_count` slots and every behaviour of `StackWalk64`,
`_platform_stack_trace_walk` returns `n` with `0 <= n <= frame_count`; the
first `n` slots of `frames` hold, in order, the program counters of the
successful unwind steps after the first `skip_count` ones, all non-zero, and
the other slots are untouched; when `n < frame_count` the walk stopped because
the next unwind step failed or reported a zero program counter; and the loop
ends of itself within `skip_count + frame_count` iterations (one unwind step
each): more fuel gives the same result. -/
theorem walk_records_unwound_frames (env : Env) (context : CONTEXT) (image_type : Nat)
    (frames : List Nat) (frame_count skip_count : Int) (w : Sym_World)
    (hfc : 0 ≤ frame_count) (hsk : 0 ≤ skip_count) (hlen : frame_count.toNat ≤ frames.length) :
    (_platform_stack_trace_walk env context image_type frames frame_count skip_count w).1.2
      = (walk_spec env context frame_count.toNat skip_count.toNat).length ∧
    0 ≤ (_platform_stack_trace_walk env context image_type frames frame_count skip_count w).1.2 ∧
    (_platform_stack_trace_walk env context image_type frames frame_count skip_count w).1.2
      ≤ frame_count ∧
    (_platform_stack_trace_walk env context image_type frames frame_count skip_count w).1.1
      = walk_spec env context frame_count.toNat skip_count.toNat
        ++ frames.drop (walk_spec env context frame_count.toNat skip_count.toNat).length ∧
    (∀ pc ∈ walk_spec env context frame_count.toNat skip_count.toNat, pc ≠ 0) ∧
    (((unwind_pcs env (skip_count.toNat + frame_count.toNat)
        { AddrPC := context.Rip, AddrFrame := context.Rsp, AddrStack := context.Rsp }
        context).drop skip_count.toNat)[(walk_spec env context frame_count.toNat
          skip_count.toNat).length]? = none ∨
     ((unwind_pcs env (skip_count.toNat + frame_count.toNat)
        { AddrPC := context.Rip, AddrFrame := context.Rsp, AddrStack := context.Rsp }
        context).drop skip_count.toNat)[(walk_spec env context frame_count.toNat
          skip_count.toNat).length]? = some 0) ∧
    (∀ fuel, skip_count.toNat + frame_count.toNat ≤ fuel →
      _platform_stack_trace_walk_loop env fuel
          { AddrPC := context.Rip, AddrFrame := context.Rsp, AddrStack := context.Rsp }
          context frames frame_count skip_count 0
        = (_platform_stack_trace_walk env context image_type frames frame_count
            skip_count w).1) := by
  have key : ∀ fuel, skip_count.toNat + frame_count.toNat ≤ fuel →
      _platform_stack_trace_walk_loop env fuel
          { AddrPC := context.Rip, AddrFrame := context.Rsp, AddrStack := context.Rsp }
          context frames frame_count skip_count 0
        = (walk_spec env context frame_count.toNat skip_count.toNat
            ++ frames.drop (walk_spec env context frame_count.toNat skip_count.toNat).length,
           ((walk_spec env context frame_count.toNat skip_count.toNat).length : Int)) := by
    intro fuel hf
    have h := walk_loop_spec env fuel
      { AddrPC := context.Rip, AddrFrame := context.Rsp, AddrStack := context.Rsp }
      context frames frame_count.toNat skip_count.toNat 0 (Nat.zero_le _) hlen (by omega)
    rw [Int.toNat_of_nonneg hfc, Int.toNat_of_nonneg hsk] at h
    rw [show ((0 : Nat) : Int) = 0 from rfl] at h
    rw [h]
    simp [walk_spec]
  have hl := walk_spec_length env context frame_count.toNat skip_count.toNat
  rw [walk_eq_loop, key _ (le_refl _)]
  refine ⟨rfl, Int.natCast_nonneg _, ?_, rfl, ?_, ?_, key⟩
  · have : ((walk_spec env context frame_count.toNat skip_count.toNat).length : Int)
        ≤ (frame_count.toNat : Int) := by exact_mod_cast hl
    rw [Int.toNat_of_nonneg hfc] at this
    exact this
  · intro pc hpc
    have := List.mem_takeWhile_imp hpc
    simpa using this
  · rcases takeWhile_stop (fun pc => decide (pc ≠ 0))
      ((unwind_pcs env (skip_count.toNat + frame_count.toNat)
        { AddrPC := context.Rip, AddrFrame := context.Rsp, AddrStack := context.Rsp }
        context).drop skip_count.toNat) with h | ⟨x, h1, h2⟩
    · left; exact h
    · right
      have hx : x = 0 := by simpa using h2
      rw [← hx]
      exact h1

/-- Witness for C24: two frames can be unwound from the sample context; with
one frame skipped and four slots the walk records the second frame only. -/
theorem walk_records_unwound_frames_witness :
    (_platform_stack_trace_walk example_env example_context 0 [0, 0, 0, 0] 4 1
      example_world.sym).1.2 = 1 ∧
    (_platform_stack_trace_walk example_env example_context 0 [0, 0, 0, 0] 4 1
      example_world.sym).1.1 = [0x401020, 0, 0, 0] := by
  have h := walk_records_unwound_frames example_env example_context 0 [0, 0, 0, 0] 4 1
    example_world.sym (by decide) (by decide) (by decide)
  have e : walk_spec example_env example_context (4 : Int).toNat (1 : Int).toNat = [0x401020] := by
    decide
  rw [e] at h
  exact ⟨h.1, h.2.2.2.1⟩

/-- On `SIGABRT`, on `SIGTERM` and in the build with `NDEBUG` the handler does
not reach a failing `assert`: it is the function `_sandbox_abort_filter`. -/
theorem build_filter_agree (NDEBUG : Bool) (env : Env) (sig : Int)
    (call_chain abort_chain : List Nat) (s : World)
    (h : sig = SIGABRT ∨ sig = SIGTERM ∨ NDEBUG = true) :
    Build._sandbox_abort_filter NDEBUG env sig call_chain abort_chain s
      = _sandbox_abort_filter env sig call_chain s := by
  unfold Build._sandbox_abort_filter _sandbox_abort_filter
  simp only []
  by_cases hd : (platform_epoch_time env s).2.sandbox_state.signal_handler_depth ≤ 0
  · rw [if_pos hd, if_pos hd]
  · rw [if_neg hd, if_neg hd]
    by_cases ha : sig = SIGABRT
    · rw [if_pos ha, if_pos ha]
    · by_cases ht : sig = SIGTERM
      · rw [if_neg ha, if_neg ha, if_pos ht, if_pos ht]
      · have hn : NDEBUG = true := by
          rcases h with h | h | h
          · exact absurd h ha
          · exact absurd h ht
          · exact h
        subst hn
        rw [if_neg ha, if_neg ha, if_neg ht, if_neg ht, if_neg (by decide)]

/-- In the build with assertions the handler, called with a sandbox active for
a signal other than `SIGABRT` and `SIGTERM`, fails its `assert` and calls
`abort()`. -/
theorem build_filter_assert (env : Env) (sig : Int) (call_chain abort_chain : List Nat)
    (s : World) (hd : 0 < s.sandbox_state.signal_handler_depth)
    (ha : sig ≠ SIGABRT) (ht : sig ≠ SIGTERM) :
    Build._sandbox_abort_filter false env sig call_chain abort_chain s
      = abort env abort_chain (platform_epoch_time env s).2 := by
  unfold Build._sandbox_abort_filter
  simp only []
  have hd2 : ¬ (platform_epoch_time env s).2.sandbox_state.signal_handler_depth ≤ 0 :=
    not_le.mpr hd
  rw [if_neg hd2, if_neg ha, if_neg ht, if_pos trivial]

theorem abort_inside (env : Env) (abort_chain : List Nat) (s : World)
    (hd : 0 < s.sandbox_state.signal_handler_depth)
    (ht : s.signal_table SIGABRT = Signal_Handler.sandbox_abort_filter) :
    ∃ s', abort env abort_chain s = Outcome.jumped s.sandbox_state.jump_buffer s' ∧
      s'.sandbox_state.exception = PLATFORM_EXCEPTION_ABORT ∧
      s'.error_log = s.error_log := by
  unfold abort
  rw [raise_inside env SIGABRT abort_chain s ht hd]
  exact ⟨_, rfl, by simp, rfl⟩

theorem abort_outside (env : Env) (abort_chain : List Nat) (s : World)
    (ht : s.signal_table SIGABRT ≠ Signal_Handler.sandbox_abort_filter) :
    ∃ s', abort env abort_chain s = Outcome.terminated s' ∧
      s'.sandbox_state = s.sandbox_state ∧ s'.error_log = s.error_log := by
  unfold abort raise
  cases h : s.signal_table SIGABRT with
  | SIG_DFL => exact ⟨_, rfl, rfl, rfl⟩
  | SIG_IGN => exact ⟨_, rfl, rfl, rfl⟩
  | sandbox_abort_filter => exact absurd h ht
  | other f => exact ⟨_, rfl, rfl, rfl⟩

/-- C8 (amended): with a sandbox active, in both builds, `_sandbox_abort_filter`
records ABORT for `SIGABRT` and TERMINATE for `SIGTERM`, stores the captured
stack and its count and the time sampled at its entry, and jumps to the
checkpoint of `sandbox_state`; a work that raises one of these signals inside
`platform_exception_sandbox` makes the call return exactly that kind and
deliver one record with that kind, count and time. For any other signal the
build with `NDEBUG` records OTHER in the same way, while the build with
assertions fails `assert(false && "badly registred signal handler")` and calls
`abort()`: it records ABORT and jumps to the checkpoint when `SIGABRT` is
handled by the sandbox, and the process is terminated otherwise. -/
theorem abort_path_reports_signal_kind (NDEBUG : Bool) (env : Env) (sig : Int)
    (call_chain abort_chain : List Nat) :
    (∀ s : World, 0 < s.sandbox_state.signal_handler_depth →
      (sig = SIGABRT ∨ sig = SIGTERM ∨ NDEBUG = true) →
      ∃ s', Build._sandbox_abort_filter NDEBUG env sig call_chain abort_chain s
          = Outcome.jumped s.sandbox_state.jump_buffer s' ∧
        s'.sandbox_state.exception =
          (if sig = SIGABRT then PLATFORM_EXCEPTION_ABORT
           else if sig = SIGTERM then PLATFORM_EXCEPTION_TERMINATE
           else PLATFORM_EXCEPTION_OTHER) ∧
        s'.sandbox_state.stack = (platform_capture_call_stack call_chain s.sandbox_state.stack
          SANDBOX_MAX_STACK 1).1 ∧
        s'.sandbox_state.stack_size = (platform_capture_call_stack call_chain
          s.sandbox_state.stack SANDBOX_MAX_STACK 1).2 ∧
        s'.sandbox_state.epoch_time = (platform_epoch_time env s).1 ∧
        s'.error_log = s.error_log) ∧
    (∀ s : World, 0 < s.sandbox_state.signal_handler_depth →
      sig ≠ SIGABRT → sig ≠ SIGTERM → NDEBUG = false →
      Build._sandbox_abort_filter NDEBUG env sig call_chain abort_chain s
        = abort env abort_chain (platform_epoch_time env s).2 ∧
      (s.signal_table SIGABRT = Signal_Handler.sandbox_abort_filter →
        ∃ s', Build._sandbox_abort_filter NDEBUG env sig call_chain abort_chain s
            = Outcome.jumped s.sandbox_state.jump_buffer s' ∧
          s'.sandbox_state.exception = PLATFORM_EXCEPTION_ABORT ∧
          s'.error_log = s.error_log) ∧
      (s.signal_table SIGABRT ≠ Signal_Handler.sandbox_abort_filter →
        ∃ s', Build._sandbox_abort_filter NDEBUG env sig call_chain abort_chain s
            = Outcome.terminated s' ∧
          s'.sandbox_state = s.sandbox_state ∧ s'.error_log = s.error_log)) ∧
    (∀ (rest : Work) (error_func error_context : Nat) (s : World),
      (sig = SIGABRT ∨ sig = SIGTERM) →
      ∃ s' record,
        platform_exception_sandbox env (Work.run env (Work.raise sig call_chain rest))
            (some error_func) error_context s
          = Outcome.returned
              (if sig = SIGABRT then PLATFORM_EXCEPTION_ABORT
               else PLATFORM_EXCEPTION_TERMINATE) s' ∧
        s'.error_log = s.error_log ++ [⟨error_func, error_context, record⟩] ∧
        record.exception =
          (if sig = SIGABRT then PLATFORM_EXCEPTION_ABORT
           else PLATFORM_EXCEPTION_TERMINATE) ∧
        record.call_stack_size = (platform_capture_call_stack call_chain
          (List.replicate SANDBOX_MAX_STACK 0) SANDBOX_MAX_STACK 1).2 ∧
        record.epoch_time = (platform_epoch_time env s).1) := by
  refine ⟨?_, ?_, ?_⟩
  · intro s hd h
    rw [build_filter_agree NDEBUG env sig call_chain abort_chain s h]
    exact (abort_path_spec env sig call_chain).1 s hd
  · intro s hd ha ht hn
    subst hn
    have e := build_filter_assert env sig call_chain abort_chain s hd ha ht
    refine ⟨e, ?_, ?_⟩
    · intro htab
      rw [e]
      exact abort_inside env abort_chain (platform_epoch_time env s).2 hd htab
    · intro htab
      rw [e]
      exact abort_outside env abort_chain (platform_epoch_time env s).2 htab
  · intro rest error_func error_context s h
    obtain ⟨s', record, r1, r2, r3, r4, r5⟩ := (abort_path_spec env sig call_chain).2 rest
      error_func error_context s (by rcases h with h | h; exact Or.inl h; exact Or.inr (Or.inl h))
    have hk : (if sig = SIGABRT then PLATFORM_EXCEPTION_ABORT
        else if sig = SIGTERM then PLATFORM_EXCEPTION_TERMINATE
        else PLATFORM_EXCEPTION_OTHER)
        = (if sig = SIGABRT then PLATFORM_EXCEPTION_ABORT else PLATFORM_EXCEPTION_TERMINATE) := by
      rcases h with h | h
      · simp [h]
      · simp [h]
    rw [hk] at r1 r3
    exact ⟨s', record, r1, r2, r3, r4, r5⟩

/-- Witness of `abort_path_reports_signal_kind`: in the build with assertions,
a work that calls `abort()` with three return addresses above the capture on
its stack. -/
theorem abort_path_reports_signal_kind_witness :
    ∃ s' record,
      platform_exception_sandbox example_env
          (Work.run example_env (Work.raise SIGABRT [0x401000, 0x401010, 0x401020] Work.done))
          (some 7) 1 example_world
        = Outcome.returned PLATFORM_EXCEPTION_ABORT s' ∧
      s'.error_log = [⟨7, 1, record⟩] ∧
      record.exception = PLATFORM_EXCEPTION_ABORT ∧
      record.call_stack_size = 1 ∧
      record.epoch_time = 0 := by
  obtain ⟨s', record, h1, h2, h3, h4, h5⟩ :=
    (abort_path_reports_signal_kind false example_env SIGABRT [0x401000, 0x401010, 0x401020]
      []).2.2 Work.done 7 1 example_world (Or.inl rfl)
  refine ⟨s', record, h1, h2, h3, ?_, ?_⟩
  · rw [h4, capture_count]
    decide
  · rw [h5]
    decide

/-- C8 (counterexample): in the build with assertions, the handler called with
a sandbox active for the signal 2 (`SIGINT`) does not record OTHER: its
`assert` fails, `abort()` raises `SIGABRT`, which the sandbox handles, and the
kind recorded when the checkpoint is resumed is ABORT. -/
theorem asserting_handler_records_abort :
    ∃ s', Build._sandbox_abort_filter false example_env 2 [0x401000, 0x401010, 0x401020]
        [0x401050, 0x401000, 0x401010, 0x401020] example_world_inside
        = Outcome.jumped example_world_inside.sandbox_state.jump_buffer s' ∧
      s'.sandbox_state.exception = PLATFORM_EXCEPTION_ABORT ∧
      PLATFORM_EXCEPTION_ABORT ≠ PLATFORM_EXCEPTION_OTHER := by
  have hin : Inside example_world_inside := inside_enter example_env example_world
  have hd : 0 < example_world_inside.sandbox_state.signal_handler_depth := by
    rw [hin.depth]; decide
  rw [build_filter_assert example_env 2 _ _ example_world_inside hd (by decide) (by decide)]
  obtain ⟨s', h1, h2, _⟩ := abort_inside example_env [0x401050, 0x401000, 0x401010, 0x401020]
    (platform_epoch_time example_env example_world_inside).2 hd hin.abrt
  exact ⟨s', h1, h2, by decide⟩

end CLib
